import Mathlib

/-!
# NVIGI 3D sample: plugin negotiation and model lifecycle

A shallow embedding of `src/nvigi/NVIGIContext.cpp` and `NVIGIContext.h`.
Pointer reads that the C++ performs are modelled in `Except Fault`, so that a
read through a null pointer, an out-of-range vector access or a read of a
released block is visible as a result of the model.
-/

namespace NVIGI

/-! ## Faults -/

/-- Undefined behaviour the C++ can reach, made observable. -/
inductive Fault
  | nullDeref
  | outOfBounds
  | useAfterFree
  | doubleFree
  | nonTermination
  deriving DecidableEq, Repr

/-- Read through a possibly-null pointer. -/
def deref {α : Type} : Option α → Except Fault α
  | some a => .ok a
  | none => .error .nullDeref

/-! ## Types of the plugin runtime (declared in the NVIGI SDK headers) -/

/-- Modelled from the spec: `nvigi::VendorId` is declared in `nvigi_types.h`, which is not
part of the sources. The code names `eAny`, `eNone` and `eNVDA`; every other vendor value is
`eOther code`. -/
inductive VendorId
  | eAny
  | eNone
  | eNVDA
  | eOther (code : Nat)
  deriving DecidableEq, Repr

/-- Modelled from the spec: `nvigi::Version` is declared in `nvigi_types.h`, which is not part
of the sources. The code reads its fields `major` and `minor`. -/
structure Version where
  major : Nat
  minor : Nat
  deriving DecidableEq, Repr

/-- Modelled from the spec: `operator>` of `nvigi::Version` (declared in `nvigi_types.h`),
the strict order under which a driver version is "below the required minimum": major first,
then minor. -/
def Version.gt (a b : Version) : Bool :=
  decide (b.major < a.major) || (decide (a.major = b.major) && decide (b.minor < a.minor))

/-- The version `a` is at most `b` (spec wording: `b` is at least the minimum `a`). -/
def Version.le (a b : Version) : Prop :=
  a.major < b.major ∨ (a.major = b.major ∧ a.minor ≤ b.minor)

/-- Modelled from the spec: `nvigi::PluginID` and the `kId` constants of the plugins the code
names are declared in SDK headers that are not part of the sources. The named identities are
pairwise distinct; every other identity is `other uid`. -/
inductive PluginID
  | gpt_ggml_cuda
  | gpt_cloud_rest
  | gpt_onnxgenai_dml
  | asr_ggml_cuda
  | asr_ggml_cpu
  | hwi_cuda
  | other (uid : Nat)
  deriving DecidableEq, Repr

/-- The `nvigi::AdapterSpec` fields the code reads. -/
structure AdapterSpec where
  vendor : VendorId
  architecture : Nat
  driverVersion : Version
  deriving DecidableEq, Repr

/-- The `nvigi::PluginSpec` fields the code reads. -/
structure PluginSpec where
  id : PluginID
  requiredAdapterVendor : VendorId
  requiredAdapterArchitecture : Nat
  requiredAdapterDriverVersion : Version
  deriving DecidableEq, Repr

/-- The `nvigi::PluginAndSystemInformation` record returned by `nvigiInit`:
`numDetectedAdapters` and `numDetectedPlugins` are the lengths of the lists. -/
structure PluginAndSystemInformation where
  detectedAdapters : List AdapterSpec
  detectedPlugins : List PluginSpec
  deriving DecidableEq, Repr

/-! ## `NVIGIContext::CheckPluginCompat` (NVIGIContext.cpp, lines 95-137) -/

/-- Line 97: `(m_adapter >= 0) ? m_pluginInfo->detectedAdapters[m_adapter] : nullptr`. -/
def adapterInfoOf (info : PluginAndSystemInformation) (m_adapter : Int) :
    Except Fault (Option AdapterSpec) :=
  if 0 ≤ m_adapter then
    match info.detectedAdapters.get? m_adapter.toNat with
    | some a => .ok (some a)
    | none => .error .outOfBounds
  else .ok none

/-- Lines 106-107: the condition of the vendor test. `||` short-circuits, so the adapter's
vendor is read only when `adapterInfo` is not null. -/
def vendorRejected (adapterInfo : Option AdapterSpec) (plugin : PluginSpec) : Bool :=
  plugin.requiredAdapterVendor != VendorId.eAny &&
  plugin.requiredAdapterVendor != VendorId.eNone &&
  (match adapterInfo with
    | none => true
    | some a => plugin.requiredAdapterVendor != a.vendor)

/-- Line 114: `requiredAdapterVendor == eNVDA && requiredAdapterArchitecture >
adapterInfo->architecture`; the adapter is read only when the left operand holds. -/
def architectureRejected (adapterInfo : Option AdapterSpec) (plugin : PluginSpec) :
    Except Fault Bool :=
  if plugin.requiredAdapterVendor = VendorId.eNVDA then
    (deref adapterInfo).map fun a => decide (a.architecture < plugin.requiredAdapterArchitecture)
  else .ok false

/-- Line 121: `requiredAdapterVendor == eNVDA && requiredAdapterDriverVersion >
adapterInfo->driverVersion`. -/
def driverRejected (adapterInfo : Option AdapterSpec) (plugin : PluginSpec) :
    Except Fault Bool :=
  if plugin.requiredAdapterVendor = VendorId.eNVDA then
    (deref adapterInfo).map fun a => plugin.requiredAdapterDriverVersion.gt a.driverVersion
  else .ok false

/-- Lines 106-129: the body run for the detected plugin whose id matches. The error message of
the vendor test takes `adapterInfo->vendor` as an argument (line 110), which is a read through
`adapterInfo`. -/
def checkDetectedPlugin (adapterInfo : Option AdapterSpec) (plugin : PluginSpec) :
    Except Fault Bool :=
  if vendorRejected adapterInfo plugin then
    (deref adapterInfo).bind fun _ => .ok false
  else
    (architectureRejected adapterInfo plugin).bind fun arch =>
      if arch then .ok false
      else
        (driverRejected adapterInfo plugin).bind fun drv =>
          if drv then .ok false else .ok true

/-- Lines 100-136: the loop over the detected plugins; the first plugin with the requested id
decides, and "not found" is `false`. -/
def checkPluginLoop (adapterInfo : Option AdapterSpec) (id : PluginID) :
    List PluginSpec → Except Fault Bool
  | [] => .ok false
  | plugin :: rest =>
    if plugin.id = id then checkDetectedPlugin adapterInfo plugin
    else checkPluginLoop adapterInfo id rest

/-! ## Parameter chains on the heap -/

/-! Addresses of heap blocks are natural numbers; a pointer is an `Option Nat` whose `none`
is the null pointer. -/

/-- The payload of one block of a parameter chain, with the fields the code assigns. -/
inductive BlockData
  | CommonCreationParameters (numThreads vramBudgetMB : Nat) (utf8PathToModels : String)
      (modelGUID : Option String)
  | GPTCreationParameters (seed : Int) (maxNumTokensToPredict contextSize : Nat)
  | ASRWhisperCreationParameters
  | D3D12Parameters (device queue : Nat)
  | GPTOnnxgenaiCreationParameters (backgroundMode allowAsync : Bool)
  | RESTParameters (url : String) (authenticationToken : Option String) (verboseMode : Bool)
  deriving DecidableEq, Repr

/-- A block as `nvigi::BaseStructure` sees it: the `next` link and the payload. -/
structure Block where
  next : Option Nat
  data : BlockData
  deriving DecidableEq, Repr

/-- What the teardown loop does to memory, in program order. -/
inductive MemEvent
  | readNext (p : Nat)
  | release (p : Nat)
  deriving DecidableEq, Repr

/-- The free store. `cells p = none` means no live block at `p`; `brk` is the next address
`new` hands out (addresses are never reused); `events` records the reads of `next` and the
`delete` calls of the teardown loop. -/
structure Heap where
  cells : Nat → Option Block := fun _ => none
  brk : Nat := 0
  events : List MemEvent := []

/-- The expression `new T` followed by the field assignments `data`; `next` starts null. -/
def Heap.new (h : Heap) (data : BlockData) : Heap × Nat :=
  ({ h with cells := fun q => if q = h.brk then some ⟨none, data⟩ else h.cells q,
            brk := h.brk + 1 }, h.brk)

/-- Read the block at `p`; reading a released block is a fault. -/
def Heap.read (h : Heap) (p : Nat) : Except Fault Block :=
  match h.cells p with
  | some b => .ok b
  | none => .error .useAfterFree

/-- Overwrite the block at `p`. -/
def Heap.write (h : Heap) (p : Nat) (b : Block) : Except Fault Heap :=
  match h.cells p with
  | some _ => .ok { h with cells := fun q => if q = p then some b else h.cells q }
  | none => .error .useAfterFree

/-- The statement `delete kill`; releasing a block twice is a fault. -/
def Heap.delete (h : Heap) (p : Nat) : Except Fault Heap :=
  match h.cells p with
  | some _ => .ok { h with cells := fun q => if q = p then none else h.cells q,
                           events := h.events ++ [MemEvent.release p] }
  | none => .error .doubleFree

/-- The last block of the chain that starts at `p`. -/
def Heap.lastOf (h : Heap) : Nat → Nat → Except Fault Nat
  | 0, _ => .error .nonTermination
  | fuel + 1, p =>
    (h.read p).bind fun b =>
      match b.next with
      | none => .ok p
      | some n => Heap.lastOf h fuel n

/-- Modelled from the spec: `BaseStructure::chain` is declared in `nvigi_struct.h`, which is
not part of the sources; "blocks appended by the builder" - the block `q` becomes the
successor of the last block of the chain that starts at `p`. -/
def Heap.chain (h : Heap) (p q : Nat) : Except Fault Heap :=
  (h.lastOf h.brk p).bind fun t =>
    (h.read t).bind fun b => h.write t { b with next := some q }

/-- The blocks of the chain that starts at `p`, head first, with their addresses. -/
def Heap.toList (h : Heap) : Nat → Option Nat → Except Fault (List (Nat × BlockData))
  | _, none => .ok []
  | 0, some _ => .error .nonTermination
  | fuel + 1, some p =>
    (h.read p).bind fun b =>
      (Heap.toList h fuel b.next).map fun rest => (p, b.data) :: rest

/-- The loop of `FreeCreationParams` (lines 593-598): `kill = base; base = base->next;
delete kill;` until `base` is null. -/
def freeLoop (h : Heap) : Nat → Option Nat → Except Fault Heap
  | _, none => .ok h
  | 0, some _ => .error .nonTermination
  | fuel + 1, some base =>
    (h.read base).bind fun b =>
      (Heap.delete { h with events := h.events ++ [MemEvent.readNext base] } base).bind fun h1 =>
        freeLoop h1 fuel b.next

/-- The template `NVIGIContext::FreeCreationParams` (lines 588-599): nothing on a null chain,
otherwise the loop. `fuel` bounds the number of iterations; the callers in this file pass the
size of the free store, which no chain of live blocks exceeds. -/
def FreeCreationParams (h : Heap) (fuel : Nat) (params : Option Nat) : Except Fault Heap :=
  match params with
  | none => .ok h
  | some p => freeLoop h fuel (some p)

/-! ## The model catalog and the context (NVIGIContext.h) -/

/-- The enumeration `NVIGIContext::ModelStatus` (NVIGIContext.h, lines 55-61). -/
inductive ModelStatus
  | AVAILABLE_LOCALLY
  | AVAILABLE_CLOUD
  | AVAILABLE_DOWNLOADER
  | AVAILABLE_DOWNLOADING
  | AVAILABLE_MANUAL_DOWNLOAD
  deriving DecidableEq, Repr

/-- The record `NVIGIContext::PluginModelInfo` (NVIGIContext.h, lines 62-72). -/
structure PluginModelInfo where
  m_modelName : String := ""
  m_pluginName : String := ""
  m_caption : String := ""
  m_guid : String := ""
  m_modelRoot : String := ""
  m_url : String := ""
  m_featureID : PluginID
  m_modelStatus : ModelStatus
  deriving DecidableEq, Repr

/-- The capability domain an instance belongs to. -/
inductive Domain
  | gpt
  | asr
  deriving DecidableEq, Repr

/-- An instance the plugin runtime holds live: its handle, the domain and plugin it was
created through, and the contents of the parameter chain it was created from. -/
structure LiveInstance where
  handle : Nat
  domain : Domain
  plugin : PluginID
  params : List BlockData
  deriving DecidableEq, Repr

/-- The closure handed to `new std::thread`: which lambda, with its captured values. -/
inductive LoadTask
  | loadASR
  | loadModelGPT (prevIndex : Int) (prevGptInfo newGptInfo : Option PluginModelInfo)
      (params1 : Option Nat)
  | loadModelASR (newAsrInfo : Option PluginModelInfo)
  deriving DecidableEq, Repr

/-- Modelled from the spec: `nvigi::InferenceExecutionState` is declared in the SDK headers,
which are not part of the sources. The code names the states invalid, data-pending and done;
every other state the backend may report is `other code`. -/
inductive InferenceExecutionState
  | kInferenceExecutionStateInvalid
  | kInferenceExecutionStateDataPending
  | kInferenceExecutionStateDone
  | other (code : Nat)
  deriving DecidableEq, Repr

/-- Modelled from the spec: the keys of the data slots the code names, declared in the SDK
headers of the two domains. -/
inductive DataSlotKey
  | kASRWhisperDataSlotAudio
  | kASRWhisperDataSlotTranscribedText
  | kGPTDataSlotSystem
  | kGPTDataSlotUser
  | kGPTDataSlotResponse
  deriving DecidableEq, Repr

/-- The enumeration `Message::Type` (NVIGIContext.cpp, lines 50-53). -/
inductive MessageType
  | Question
  | Answer
  deriving DecidableEq, Repr

/-- The record `Message` (NVIGIContext.cpp, lines 49-55). -/
structure Message where
  type : MessageType
  text : String
  deriving DecidableEq, Repr

/-- The closure handed to `new std::thread` by `LaunchASR` and `LaunchGPT`: which lambda, with
its captured values. -/
inductive InferTask
  | asr
  | gpt (prompt : String)
  deriving DecidableEq, Repr

/-- One `evaluate` call as the plugin runtime receives it: the instance, the key of the single
input slot and the text bound to it (the recorded audio of a speech-recognition call is not
modelled, its text is empty). -/
structure EvaluateCall where
  instance_ : Nat
  slot : DataSlotKey
  text : String
  deriving DecidableEq, Repr

/-- The members of `NVIGIContext` the modelled functions use, with their default member
initialisers (NVIGIContext.h, lines 146-198), followed by the state of the process the code
acts on: the free store and the plugin runtime (live instances, next fresh handle, number of
runtime calls made so far). `m_gptCallbackState` has no initialiser in the header and is stored
as invalid by `Initialize_preDeviceManager` (line 433); `messages` is the file-level vector of
NVIGIContext.cpp (line 57); `evaluated` is the sequence of `evaluate` calls the plugin runtime
has received. -/
structure NVIGIContext where
  m_shippedModelsPath : String := "../../nvigi.models"
  m_adapter : Int := -1
  m_pluginInfo : PluginAndSystemInformation := ⟨[], []⟩
  m_igpt : Option PluginID := none
  m_gpt : Option Nat := none
  m_iasr : Option PluginID := none
  m_asr : Option Nat := none
  m_asrPluginModels : List PluginModelInfo := []
  m_gptPluginModels : List PluginModelInfo := []
  m_asrReady : Bool := false
  m_gptReady : Bool := false
  m_conversationInitialized : Bool := false
  m_loadingThread : Option LoadTask := none
  m_asrIndex : Int := -1
  m_gptIndex : Int := -1
  m_d3d12Params : Option (Nat × Nat) := none
  heap : Heap := {}
  live : List LiveInstance := []
  nextHandle : Nat := 0
  calls : Nat := 0
  m_asrRunning : Bool := false
  m_gptRunning : Bool := false
  m_gptInputReady : Bool := false
  m_a2t : String := ""
  m_gptInput : String := ""
  m_inferThread : Option InferTask := none
  m_inferThreadRunning : Bool := false
  m_gptCallbackState : InferenceExecutionState :=
    InferenceExecutionState.kInferenceExecutionStateInvalid
  messages : List Message := []
  evaluated : List EvaluateCall := []

/-- One model reported by a capability query: `supportedModelNames[i]`,
`supportedModelGUIDs[i]`, `modelFlags[i]`. -/
structure ModelCaps where
  name : String
  guid : String
  flags : Nat
  deriving DecidableEq, Repr

/-- The `nvigi::CommonCapabilitiesAndRequirements` record: the reported models
(`numSupportedModels` is the length) and the chained `CloudCapabilities` url, when present. -/
structure Caps where
  models : List ModelCaps
  cloudUrl : Option String := none
  deriving DecidableEq, Repr

/-- What a capability query does to its out-parameter: a failed query leaves it as it was, a
completed one writes a record or null. -/
inductive CapsResponse
  | failed
  | wrote (caps : Option Caps)
  deriving DecidableEq, Repr

/-- The responses of the plugin runtime and the process environment. The first argument of a
runtime call is the number of runtime calls answered before it, so a response may differ from
one call to the next. `loadInterface` and `createInstance` answer whether the result is
`kResultOk`; `getCaps` is the text-generation capability query over the contents of the
parameter chain; `getCapsASR` is the speech-recognition one, whose out-parameter starts null,
giving the `common` record of the capabilities or nothing. -/
structure Runtime where
  getenv : String → Option String
  loadInterface : Nat → PluginID → Bool
  getCaps : Nat → PluginID → List BlockData → CapsResponse
  getCapsASR : Nat → PluginID → List BlockData → Option Caps
  createInstance : Nat → PluginID → List BlockData → Bool
  kModelFlagRequiresDownload : Nat

/-- The method `CheckPluginCompat` (lines 95-137); `name` only feeds the log messages. -/
def CheckPluginCompat (ctx : NVIGIContext) (id : PluginID) : Except Fault Bool :=
  (adapterInfoOf ctx.m_pluginInfo ctx.m_adapter).bind fun adapterInfo =>
    checkPluginLoop adapterInfo id ctx.m_pluginInfo.detectedPlugins

/-- The vector access `(index < 0) ? nullptr : models[index]` of `GetGPTPluginModel` and
`GetASRPluginModel` (NVIGIContext.h, lines 121-122). -/
def getPluginModel (models : List PluginModelInfo) (index : Int) :
    Except Fault (Option PluginModelInfo) :=
  if index < 0 then .ok none
  else
    match models.get? index.toNat with
    | some m => .ok (some m)
    | none => .error .outOfBounds

/-- The accessor `GetGPTPluginModel`. -/
def GetGPTPluginModel (ctx : NVIGIContext) (index : Int) : Except Fault (Option PluginModelInfo) :=
  getPluginModel ctx.m_gptPluginModels index

/-- The accessor `GetASRPluginModel`. -/
def GetASRPluginModel (ctx : NVIGIContext) (index : Int) : Except Fault (Option PluginModelInfo) :=
  getPluginModel ctx.m_asrPluginModels index

/-! ## The parameter chain builders (lines 601-726) -/

/-- Whether `pat` occurs in `s` as a contiguous run. -/
def infixOfChars (pat : List Char) : List Char → Bool
  | [] => pat.isEmpty
  | c :: cs => pat.isPrefixOf (c :: cs) || infixOfChars pat cs

/-- The test `s.find(pat) != std::string::npos`. -/
def strContains (s pat : String) : Bool :=
  infixOfChars pat.toList s.toList

/-- Lines 620-621: `modelRoot ? modelRoot : (info ? info->m_modelRoot : m_shippedModelsPath)`. -/
def resolveModelRoot (ctx : NVIGIContext) (info : Option PluginModelInfo)
    (modelRoot : Option String) : String :=
  match modelRoot with
  | some r => r
  | none =>
    match info with
    | some i => i.m_modelRoot
    | none => ctx.m_shippedModelsPath

/-- Lines 626-632 and 710-716: the hardware-context block, chained when `m_d3d12Params` is set. -/
def chainD3D12 (ctx : NVIGIContext) (h : Heap) (params1 : Nat) : Except Fault Heap :=
  match ctx.m_d3d12Params with
  | some d =>
    let r := h.new (BlockData.D3D12Parameters d.1 d.2)
    r.1.chain params1 r.2
  | none => .ok h

/-- Lines 652-674: the authentication token of a cloud model. The outer `none` is the
`return nullptr` of a known provider whose environment variable is unset; `some none` is the
unknown provider, which proceeds with a null token. -/
def cloudKey (rt : Runtime) (url : String) : Option (Option String) :=
  if strContains url "integrate.api.nvidia.com" then
    (rt.getenv "NVIDIA_INTEGRATE_KEY").map some
  else if strContains url "openai.com" then
    (rt.getenv "OPENAI_KEY").map some
  else some none

/-- Lines 642-684: the backend-specific tail of a non-generic text-generation build. -/
def gptBackendBlocks (rt : Runtime) (h : Heap) (params1 : Nat) (info : PluginModelInfo) :
    Except Fault (Heap × Option Nat) :=
  if info.m_featureID = PluginID.gpt_onnxgenai_dml then
    let r := h.new (BlockData.GPTOnnxgenaiCreationParameters false false)
    (r.1.chain params1 r.2).map fun h1 => (h1, some params1)
  else if info.m_featureID = PluginID.gpt_cloud_rest then
    match cloudKey rt info.m_url with
    | none => (FreeCreationParams h h.brk (some params1)).map fun h1 => (h1, none)
    | some key =>
      let r := h.new (BlockData.RESTParameters info.m_url key true)
      (r.1.chain params1 r.2).map fun h1 => (h1, some params1)
  else .ok (h, some params1)

/-- The method `GetGPTCreationParams` (lines 601-685). The result is the free store after the
call and the returned pointer (`none` is `nullptr`). -/
def GetGPTCreationParams (rt : Runtime) (ctx : NVIGIContext) (genericInit : Bool)
    (modelRoot : Option String) : Except Fault (Heap × Option Nat) :=
  (if genericInit then .ok none else GetGPTPluginModel ctx ctx.m_gptIndex).bind fun info =>
    if !genericInit && info.isNone then .ok (ctx.heap, none)
    else
      let c := ctx.heap.new (BlockData.CommonCreationParameters 1 (1024 * 8)
        (resolveModelRoot ctx info modelRoot) (info.map fun i => i.m_guid))
      let p := c.1.new (BlockData.GPTCreationParameters (-1) 200 4096)
      (chainD3D12 ctx p.1 p.2).bind fun h1 =>
        (h1.chain p.2 c.2).bind fun h2 =>
          if genericInit then .ok (h2, some p.2)
          else (deref info).bind fun i => gptBackendBlocks rt h2 p.2 i

/-- The method `GetASRCreationParams` (lines 687-726). -/
def GetASRCreationParams (ctx : NVIGIContext) (genericInit : Bool)
    (modelRoot : Option String) : Except Fault (Heap × Option Nat) :=
  (if genericInit then .ok none else GetASRPluginModel ctx ctx.m_asrIndex).bind fun info =>
    if !genericInit && info.isNone then .ok (ctx.heap, none)
    else
      let c := ctx.heap.new (BlockData.CommonCreationParameters 4 (1024 * 3)
        (resolveModelRoot ctx info modelRoot) none)
      let p := c.1.new BlockData.ASRWhisperCreationParameters
      (chainD3D12 ctx p.1 p.2).bind fun h1 =>
        (h1.chain p.2 c.2).bind fun h2 =>
          if genericInit then .ok (h2, some p.2)
          else
            (deref info).bind fun i =>
              (h2.read c.2).bind fun b =>
                (h2.write c.2 ⟨b.next, BlockData.CommonCreationParameters 4 (1024 * 3)
                  (resolveModelRoot ctx info modelRoot) (some i.m_guid)⟩).map fun h3 =>
                  (h3, some p.2)

/-! ## Default selection (`Initialize_preDeviceManager`, lines 390-431) -/

/-- The loop of `AnyGPTModelsAvailable` and `AnyASRModelsAvailable` (NVIGIContext.h, lines
124-144): true at the first entry whose status is `AVAILABLE_LOCALLY`. -/
def anyModelsAvailable : List PluginModelInfo → Bool
  | [] => false
  | info :: rest =>
    if info.m_modelStatus = ModelStatus.AVAILABLE_LOCALLY then true
    else anyModelsAvailable rest

/-- The method `AnyGPTModelsAvailable`. -/
def AnyGPTModelsAvailable (ctx : NVIGIContext) : Bool :=
  anyModelsAvailable ctx.m_gptPluginModels

/-- The method `AnyASRModelsAvailable`. -/
def AnyASRModelsAvailable (ctx : NVIGIContext) : Bool :=
  anyModelsAvailable ctx.m_asrPluginModels

/-- The value an `int32_t` holds after an arithmetic result `x` is stored in it. -/
def int32 (x : Int) : Int :=
  (x + 2 ^ 31) % 2 ^ 32 - 2 ^ 31

/-- The conversion of an `int32_t` to `size_t` (64 bits) that `m_gptIndex >= size()` applies
to its left operand. -/
def sizeT (x : Int) : Nat :=
  (x % 2 ^ 64).toNat

/-- Lines 393-399: the range-for with the index counter; `break` at the first entry whose
status is `AVAILABLE_LOCALLY`, otherwise `m_gptIndex++`. -/
def scanForLocal : List PluginModelInfo → Int → Int
  | [], index => index
  | model :: rest, index =>
    if model.m_modelStatus = ModelStatus.AVAILABLE_LOCALLY then index
    else scanForLocal rest (int32 (index + 1))

/-- Lines 390-403 (text generation) and 413-426 (speech recognition), which are the same code
over the two catalogs: `index` is the member's value before the block. -/
def defaultIndex (models : List PluginModelInfo) (index : Int) : Int :=
  if anyModelsAvailable models then
    let i := scanForLocal models 0
    if models.length ≤ sizeT i then -1 else i
  else index

/-- Lines 390-403: default selection of the text-generation model. -/
def selectDefaultGPT (ctx : NVIGIContext) : NVIGIContext :=
  { ctx with m_gptIndex := defaultIndex ctx.m_gptPluginModels ctx.m_gptIndex }

/-- Lines 413-426: default selection of the speech-recognition model. -/
def selectDefaultASR (ctx : NVIGIContext) : NVIGIContext :=
  { ctx with m_asrIndex := defaultIndex ctx.m_asrPluginModels ctx.m_asrIndex }

/-- The default-selection policy in the spec's words: `r` is "none" (-1) exactly when no entry
is `AVAILABLE_LOCALLY`; it is -1 or within bounds; the entry it names is `AVAILABLE_LOCALLY`,
so neither `AVAILABLE_MANUAL_DOWNLOAD` nor `AVAILABLE_CLOUD`; no earlier entry is
`AVAILABLE_LOCALLY`. -/
def IsDefaultSelection (models : List PluginModelInfo) (r : Int) : Prop :=
  (r = -1 ↔ ∀ m ∈ models, m.m_modelStatus ≠ ModelStatus.AVAILABLE_LOCALLY) ∧
  (r = -1 ∨ (0 ≤ r ∧ r < models.length)) ∧
  (∀ m, models.get? r.toNat = some m → r ≠ -1 →
    m.m_modelStatus = ModelStatus.AVAILABLE_LOCALLY ∧
    m.m_modelStatus ≠ ModelStatus.AVAILABLE_MANUAL_DOWNLOAD ∧
    m.m_modelStatus ≠ ModelStatus.AVAILABLE_CLOUD) ∧
  (∀ (j : Nat) (m : PluginModelInfo), (j : Int) < r → models.get? j = some m →
    m.m_modelStatus ≠ ModelStatus.AVAILABLE_LOCALLY)

/-! ## Vocabulary of the statements about chains and builds -/

/-- A finite chain: `as` lists the addresses of the live blocks met from `p` by following
`next` until null. A chain with a cycle has no such list. -/
def Heap.IsChain (h : Heap) : Option Nat → List Nat → Prop
  | none, [] => True
  | some p, a :: as => p = a ∧ ∃ b, h.cells a = some b ∧ Heap.IsChain h b.next as
  | none, _ :: _ => False
  | some _, [] => False

/-- The events of tearing down the blocks `as` in order: for each block, the read of its
`next` and then its release. -/
def teardownEvents (as : List Nat) : List MemEvent :=
  as.flatMap fun a => [MemEvent.readNext a, MemEvent.release a]

/-- The payloads of the chain that starts at `p`, head first. -/
def Heap.contents (h : Heap) (p : Option Nat) : Except Fault (List BlockData) :=
  (h.toList h.brk p).map fun l => l.map Prod.snd

/-- The hardware-context block a build carries: one when a shared compute context has been
established (`m_d3d12Params` set), none otherwise. -/
def hardwareBlocks (ctx : NVIGIContext) : List BlockData :=
  match ctx.m_d3d12Params with
  | some d => [BlockData.D3D12Parameters d.1 d.2]
  | none => []

/-- The authentication token the spec assigns to a cloud entry: the environment value of the
provider its URL matches, no token when it matches none. -/
def providerToken (rt : Runtime) (url : String) : Option String :=
  if strContains url "integrate.api.nvidia.com" then rt.getenv "NVIDIA_INTEGRATE_KEY"
  else if strContains url "openai.com" then rt.getenv "OPENAI_KEY"
  else none

/-- The spec's condition for a failed cloud build: the URL matches a known provider whose
environment variable is unset. -/
def credentialMissing (rt : Runtime) (url : String) : Prop :=
  (strContains url "integrate.api.nvidia.com" = true ∧ rt.getenv "NVIDIA_INTEGRATE_KEY" = none) ∨
  (strContains url "integrate.api.nvidia.com" = false ∧ strContains url "openai.com" = true ∧
    rt.getenv "OPENAI_KEY" = none)

/-- The model roots carried by the common blocks of a chain, in chain order. -/
def commonRoots (blocks : List BlockData) : List String :=
  blocks.filterMap fun b =>
    match b with
    | BlockData.CommonCreationParameters _ _ root _ => some root
    | _ => none

/-- The spec's priority for the model root of a build over the catalog `models` with the
selection `index`: the explicit argument when one is passed; otherwise the selected model's
recorded root when the build is not generic; otherwise the shipped-models path. -/
def IsResolvedRoot (ctx : NVIGIContext) (models : List PluginModelInfo) (index : Int)
    (genericInit : Bool) (modelRoot : Option String) (root : String) : Prop :=
  (∀ r, modelRoot = some r → root = r) ∧
  (modelRoot = none → genericInit = false →
    ∃ info, getPluginModel models index = .ok (some info) ∧ root = info.m_modelRoot) ∧
  (modelRoot = none → genericInit = true → root = ctx.m_shippedModelsPath)

/-- The addresses of a chain built on a free store whose next address is `b`: the head block,
`hw` hardware blocks, the common block, and `extra` backend blocks. -/
def buildAddrs (b hw extra : Nat) : List Nat :=
  [b + 1] ++ (List.range hw).map (fun i => b + 2 + i) ++ [b] ++
    (List.range extra).map (fun i => b + 2 + hw + i)

/-- The backend-specific blocks of a non-generic text-generation build for `info`: the tuning
block of onnxgenai, the REST block of the cloud backend, nothing otherwise. -/
def backendBlocks (rt : Runtime) (info : PluginModelInfo) : List BlockData :=
  if info.m_featureID = PluginID.gpt_onnxgenai_dml then
    [BlockData.GPTOnnxgenaiCreationParameters false false]
  else if info.m_featureID = PluginID.gpt_cloud_rest then
    [BlockData.RESTParameters info.m_url (providerToken rt info.m_url) true]
  else []

/-- The chain of a non-generic text-generation build for `info` with no explicit root, given
the hardware blocks `hw`. -/
def gptChainBlocks (rt : Runtime) (hw : List BlockData) (info : PluginModelInfo) :
    List BlockData :=
  [BlockData.GPTCreationParameters (-1) 200 4096] ++ hw ++
    [BlockData.CommonCreationParameters 1 8192 info.m_modelRoot (some info.m_guid)] ++
    backendBlocks rt info

/-- The chain of a non-generic speech-recognition build for `info` with no explicit root. -/
def asrChainBlocks (hw : List BlockData) (info : PluginModelInfo) : List BlockData :=
  [BlockData.ASRWhisperCreationParameters] ++ hw ++
    [BlockData.CommonCreationParameters 4 3072 info.m_modelRoot (some info.m_guid)]

/-- Whether the parameters of a non-generic text-generation build for `info` can be built:
not a cloud entry of a known provider whose environment variable is unset. -/
def buildable (rt : Runtime) (info : PluginModelInfo) : Bool :=
  !(decide (info.m_featureID = PluginID.gpt_cloud_rest) && (cloudKey rt info.m_url).isNone)

/-- Whether the runtime, having answered `n` calls, answers the interface load and the
`createInstance` that follows it with success, for plugin `fid` and chain contents `blocks`. -/
def createsInstance (rt : Runtime) (n : Nat) (fid : PluginID) (blocks : List BlockData) : Bool :=
  rt.loadInterface n fid && rt.createInstance (n + 1) fid blocks

/-- The number of runtime calls answered after the two statements of an instance creation
that started at call `n`. -/
def callsAfterCreate (rt : Runtime) (n : Nat) (fid : PluginID) : Nat :=
  if rt.loadInterface n fid then n + 2 else n + 1

/-- Whether the rollback of a failed swap recreates the previous model: there was a previous
selection, its parameters can be built, and the runtime, having answered `n` calls, loads its
interface and creates its instance. -/
def rollbackCreates (rt : Runtime) (n : Nat) (hw : List BlockData)
    (prevGptInfo : Option PluginModelInfo) : Bool :=
  match prevGptInfo with
  | some prev =>
    buildable rt prev && createsInstance rt n prev.m_featureID (gptChainBlocks rt hw prev)
  | none => false

/-! ## Instance lifecycle (lines 478-562 and 728-847) -/

/-- The two statements `nvigiRes = nvigiGetInterfaceDynamic(featureID, &m_igpt, ...);
if (nvigiRes == kResultOk) nvigiRes = m_igpt->createInstance(*params, &m_gpt);` with the
result `nvigiRes == kResultOk`. The runtime is modelled so that a failed interface load leaves
`m_igpt` as it was, a failed `createInstance` leaves `m_gpt` as it was and adds no instance,
and a successful one adds one instance under a fresh handle. -/
def loadAndCreateGPT (rt : Runtime) (ctx : NVIGIContext) (featureID : PluginID)
    (params : Option Nat) : Except Fault (NVIGIContext × Bool) :=
  if rt.loadInterface ctx.calls featureID then
    (deref params).bind fun p =>
      (ctx.heap.contents (some p)).bind fun blocks =>
        if rt.createInstance (ctx.calls + 1) featureID blocks then
          .ok ({ ctx with calls := ctx.calls + 2, m_igpt := some featureID,
                          m_gpt := some ctx.nextHandle, nextHandle := ctx.nextHandle + 1,
                          live := ctx.live ++ [⟨ctx.nextHandle, Domain.gpt, featureID, blocks⟩] },
               true)
        else .ok ({ ctx with calls := ctx.calls + 2, m_igpt := some featureID }, false)
  else .ok ({ ctx with calls := ctx.calls + 1 }, false)

/-- The same two statements over `m_iasr` and `m_asr`. -/
def loadAndCreateASR (rt : Runtime) (ctx : NVIGIContext) (featureID : PluginID)
    (params : Option Nat) : Except Fault (NVIGIContext × Bool) :=
  if rt.loadInterface ctx.calls featureID then
    (deref params).bind fun p =>
      (ctx.heap.contents (some p)).bind fun blocks =>
        if rt.createInstance (ctx.calls + 1) featureID blocks then
          .ok ({ ctx with calls := ctx.calls + 2, m_iasr := some featureID,
                          m_asr := some ctx.nextHandle, nextHandle := ctx.nextHandle + 1,
                          live := ctx.live ++ [⟨ctx.nextHandle, Domain.asr, featureID, blocks⟩] },
               true)
        else .ok ({ ctx with calls := ctx.calls + 2, m_iasr := some featureID }, false)
  else .ok ({ ctx with calls := ctx.calls + 1 }, false)

/-- Lines 755-759: `if (m_igpt) { m_igpt->destroyInstance(m_gpt); m_gpt = {}; }`; the runtime
drops the instance whose handle it is given. -/
def destroyGPT (ctx : NVIGIContext) : NVIGIContext :=
  match ctx.m_igpt with
  | some _ =>
    { ctx with live := ctx.live.filter (fun i => decide (some i.handle ≠ ctx.m_gpt)),
               m_gpt := none }
  | none => ctx

/-- Lines 817-821: `if (m_iasr) { m_iasr->destroyInstance(m_asr); m_asr = {}; }`. -/
def destroyASR (ctx : NVIGIContext) : NVIGIContext :=
  match ctx.m_iasr with
  | some _ =>
    { ctx with live := ctx.live.filter (fun i => decide (some i.handle ≠ ctx.m_asr)),
               m_asr := none }
  | none => ctx

/-- Lines 515-534: the text-generation half of the initial load task. -/
def loadInitialGPT (rt : Runtime) (ctx : NVIGIContext) : Except Fault NVIGIContext :=
  (GetGPTPluginModel ctx ctx.m_gptIndex).bind fun gptInfo =>
    match gptInfo with
    | some info =>
      (GetGPTCreationParams rt ctx false none).bind fun r =>
        (loadAndCreateGPT rt { ctx with heap := r.1 } info.m_featureID r.2).bind fun c =>
          (FreeCreationParams c.1.heap c.1.heap.brk r.2).map fun h =>
            { c.1 with m_gptReady := c.2, heap := h }
    | none => .ok { ctx with m_gptReady := false }

/-- Lines 536-555: the speech-recognition half of the initial load task. -/
def loadInitialASR (rt : Runtime) (ctx : NVIGIContext) : Except Fault NVIGIContext :=
  (GetASRPluginModel ctx ctx.m_asrIndex).bind fun asrInfo =>
    match asrInfo with
    | some info =>
      (GetASRCreationParams ctx false none).bind fun r =>
        (loadAndCreateASR rt { ctx with heap := r.1 } info.m_featureID r.2).bind fun c =>
          (FreeCreationParams c.1.heap c.1.heap.brk r.2).map fun h =>
            { c.1 with m_asrReady := c.2, heap := h }
    | none => .ok { ctx with m_asrReady := false }

/-- The lambda `loadASR` of `Initialize_postDevice` (lines 513-558). -/
def loadASR (rt : Runtime) (ctx : NVIGIContext) : Except Fault NVIGIContext :=
  (loadInitialGPT rt ctx).bind fun c => loadInitialASR rt c

/-- Lines 775-785 of the lambda `loadModel` of `ReloadGPTModel`: the attempt to recreate the
previous model from the rebuilt parameters `params`. -/
def recreatePrevious (rt : Runtime) (ctx : NVIGIContext) (params : Option Nat)
    (prevGptInfo : Option PluginModelInfo) : Except Fault (NVIGIContext × Bool) :=
  match params, prevGptInfo with
  | some q, some prevInfo => loadAndCreateGPT rt ctx prevInfo.m_featureID (some q)
  | _, _ => .ok (ctx, false)

/-- Lines 774-794 of the lambda `loadModel` of `ReloadGPTModel`, the rollback after the failed
parameters were released: `m_gptIndex = prevIndex`, the parameters are rebuilt, the previous
model is recreated, readiness is stored and the rebuilt parameters are released. -/
def rollbackGPT (rt : Runtime) (ctx : NVIGIContext) (prevIndex : Int)
    (prevGptInfo : Option PluginModelInfo) : Except Fault NVIGIContext :=
  let c1 := { ctx with m_gptIndex := prevIndex }
  (GetGPTCreationParams rt c1 false none).bind fun r =>
    (recreatePrevious rt { c1 with heap := r.1 } r.2 prevGptInfo).bind fun d =>
      (FreeCreationParams d.1.heap d.1.heap.brk r.2).map fun h2 =>
        { d.1 with m_gptReady := d.2, heap := h2 }

/-- The lambda `loadModel` of `ReloadGPTModel` (lines 761-800) with its captures. -/
def loadModelGPT (rt : Runtime) (ctx : NVIGIContext) (prevIndex : Int)
    (prevGptInfo newGptInfo : Option PluginModelInfo) (params1 : Option Nat) :
    Except Fault NVIGIContext :=
  match params1 with
  | none => .ok { ctx with m_gptReady := false }
  | some p =>
    (deref newGptInfo).bind fun newInfo =>
      (loadAndCreateGPT rt ctx newInfo.m_featureID (some p)).bind fun c =>
        if c.2 then
          (FreeCreationParams c.1.heap c.1.heap.brk (some p)).map fun h =>
            { c.1 with m_gptReady := true, heap := h }
        else
          (FreeCreationParams c.1.heap c.1.heap.brk (some p)).bind fun h =>
            rollbackGPT rt { c.1 with heap := h } prevIndex prevGptInfo

/-- The lambda `loadModel` of `ReloadASRModel` (lines 823-845) with its capture. -/
def loadModelASR (rt : Runtime) (ctx : NVIGIContext) (newAsrInfo : Option PluginModelInfo) :
    Except Fault NVIGIContext :=
  (GetASRCreationParams ctx false none).bind fun r =>
    match r.2, newAsrInfo with
    | some p, some info =>
      (loadAndCreateASR rt { ctx with heap := r.1 } info.m_featureID (some p)).bind fun d =>
        (FreeCreationParams d.1.heap d.1.heap.brk (some p)).map fun h =>
          { d.1 with m_asrReady := d.2, heap := h }
    | _, _ => .ok { ctx with heap := r.1, m_asrReady := false }

/-- The body of a load thread. -/
def runTask (rt : Runtime) (ctx : NVIGIContext) : LoadTask → Except Fault NVIGIContext
  | LoadTask.loadASR => loadASR rt ctx
  | LoadTask.loadModelGPT prevIndex prevGptInfo newGptInfo params1 =>
    loadModelGPT rt ctx prevIndex prevGptInfo newGptInfo params1
  | LoadTask.loadModelASR newAsrInfo => loadModelASR rt ctx newAsrInfo

/-- The statements `m_loadingThread->join(); delete m_loadingThread; m_loadingThread =
nullptr;` under `if (m_loadingThread)`: the pending task runs to completion. The thread body
is sequenced at the join, the point from which the caller relies on its effects. -/
def joinLoadingThread (rt : Runtime) (ctx : NVIGIContext) : Except Fault NVIGIContext :=
  match ctx.m_loadingThread with
  | some task => runTask rt { ctx with m_loadingThread := none } task
  | none => .ok ctx

/-- The tail of `Initialize_postDevice` (line 559): the initial load task is started. -/
def Initialize_postDevice (ctx : NVIGIContext) : NVIGIContext :=
  { ctx with m_loadingThread := some LoadTask.loadASR }

/-- The method `ReloadGPTModel` (lines 728-802), up to the start of the load thread. -/
def ReloadGPTModel (rt : Runtime) (ctx : NVIGIContext) (index : Int) : Except Fault NVIGIContext :=
  (joinLoadingThread rt ctx).bind fun c0 =>
    let c1 := { c0 with m_conversationInitialized := false }
    let prevIndex := c1.m_gptIndex
    (GetGPTPluginModel c1 prevIndex).bind fun prevGptInfo =>
      let c2 := { c1 with m_gptIndex := index }
      (GetGPTPluginModel c2 c2.m_gptIndex).bind fun newGptInfo =>
        (GetGPTCreationParams rt c2 false none).bind fun r =>
          match r.2 with
          | none => .ok { c2 with heap := r.1, m_gptIndex := prevIndex }
          | some p =>
            let c3 := destroyGPT { c2 with heap := r.1, m_gptReady := false }
            let loadModel := LoadTask.loadModelGPT prevIndex prevGptInfo newGptInfo (some p)
            .ok { c3 with m_loadingThread := some loadModel }

/-- The method `ReloadASRModel` (lines 804-847), up to the start of the load thread. -/
def ReloadASRModel (rt : Runtime) (ctx : NVIGIContext) (index : Int) : Except Fault NVIGIContext :=
  (joinLoadingThread rt ctx).bind fun c0 =>
    let c1 := { c0 with m_asrReady := false, m_asrIndex := index }
    (GetASRPluginModel c1 c1.m_asrIndex).bind fun newAsrInfo =>
      let c2 := destroyASR c1
      let loadModel := LoadTask.loadModelASR newAsrInfo
      .ok { c2 with m_loadingThread := some loadModel }

/-- The live instances of a domain. -/
def liveIn (d : Domain) (ctx : NVIGIContext) : List LiveInstance :=
  ctx.live.filter fun i => decide (i.domain = d)

/-- Every live text-generation instance is the one `m_gpt` holds, reached through a loaded
interface `m_igpt`. -/
def GptTracked (ctx : NVIGIContext) : Prop :=
  ∀ i ∈ ctx.live, i.domain = Domain.gpt → ctx.m_gpt = some i.handle ∧ ctx.m_igpt ≠ none

/-- Every live speech-recognition instance is the one `m_asr` holds, reached through a loaded
interface `m_iasr`. -/
def AsrTracked (ctx : NVIGIContext) : Prop :=
  ∀ i ∈ ctx.live, i.domain = Domain.asr → ctx.m_asr = some i.handle ∧ ctx.m_iasr ≠ none

/-- What a piece of text-generation lifecycle code may do to the instance bookkeeping:
nothing of the speech-recognition domain or the load thread changes, and either one
text-generation instance was created and is the one `m_gpt` now holds (`created`), or the
live instances and `m_gpt` are as before. -/
def GptEffect (c d : NVIGIContext) (created : Bool) : Prop :=
  d.m_asr = c.m_asr ∧ d.m_iasr = c.m_iasr ∧ d.m_loadingThread = c.m_loadingThread ∧
  (if created then
    ∃ inst : LiveInstance, inst.domain = Domain.gpt ∧ d.live = c.live ++ [inst] ∧
      d.m_gpt = some inst.handle ∧ d.m_igpt ≠ none
  else d.live = c.live ∧ d.m_gpt = c.m_gpt ∧ (c.m_igpt ≠ none → d.m_igpt ≠ none))

/-- The same for speech-recognition lifecycle code. -/
def AsrEffect (c d : NVIGIContext) (created : Bool) : Prop :=
  d.m_gpt = c.m_gpt ∧ d.m_igpt = c.m_igpt ∧ d.m_loadingThread = c.m_loadingThread ∧
  (if created then
    ∃ inst : LiveInstance, inst.domain = Domain.asr ∧ d.live = c.live ++ [inst] ∧
      d.m_asr = some inst.handle ∧ d.m_iasr ≠ none
  else d.live = c.live ∧ d.m_asr = c.m_asr ∧ (c.m_iasr ≠ none → d.m_iasr ≠ none))

/-- What a pending load task may assume about the live instances: the initial load starts
with none at all, a swap task starts after its domain's instance was destroyed. -/
def PendingOk (ctx : NVIGIContext) : Prop :=
  match ctx.m_loadingThread with
  | none => True
  | some LoadTask.loadASR => ctx.live = []
  | some (LoadTask.loadModelGPT _ _ _ _) => liveIn Domain.gpt ctx = []
  | some (LoadTask.loadModelASR _) => liveIn Domain.asr ctx = []

/-- The lifecycle invariant: live instances are tracked by the members that hold them, there
is at most one per domain, and a pending load task finds its domain empty. -/
def LifecycleInv (ctx : NVIGIContext) : Prop :=
  GptTracked ctx ∧ AsrTracked ctx ∧ (liveIn Domain.gpt ctx).length ≤ 1 ∧
  (liveIn Domain.asr ctx).length ≤ 1 ∧ PendingOk ctx

/-- The operations of the instance lifecycle after startup. -/
inductive LifecycleOp
  | reloadGPT (index : Int)
  | reloadASR (index : Int)
  | join
  deriving DecidableEq, Repr

/-- One lifecycle operation. -/
def applyOp (rt : Runtime) (ctx : NVIGIContext) : LifecycleOp → Except Fault NVIGIContext
  | LifecycleOp.reloadGPT index => ReloadGPTModel rt ctx index
  | LifecycleOp.reloadASR index => ReloadASRModel rt ctx index
  | LifecycleOp.join => joinLoadingThread rt ctx

/-- The states the lifecycle can reach: `Initialize_postDevice` starts the initial load task
in a context with no live instance, and every later state comes from an operation that
returned. -/
inductive Reachable (rt : Runtime) : NVIGIContext → Prop
  | init (ctx : NVIGIContext) (h : ctx.live = []) : Reachable rt (Initialize_postDevice ctx)
  | step (c d : NVIGIContext) (op : LifecycleOp) (hc : Reachable rt c)
      (h : applyOp rt c op = .ok d) : Reachable rt d

/-- Two contexts agree on the instance bookkeeping. -/
def SameBook (c d : NVIGIContext) : Prop :=
  d.m_asr = c.m_asr ∧ d.m_iasr = c.m_iasr ∧ d.m_gpt = c.m_gpt ∧ d.m_igpt = c.m_igpt ∧
  d.live = c.live ∧ d.m_loadingThread = c.m_loadingThread

/-! ## Catalog population (lines 139-287 and 366-431) -/

/-- The value of the out-parameter `models` after a capability query that found it holding
`models`. -/
def CapsResponse.apply (r : CapsResponse) (models : Option Caps) : Option Caps :=
  match r with
  | CapsResponse.failed => models
  | CapsResponse.wrote caps => caps

/-- Lines 163-171 and 269-277: the entry built for one reported model of a local backend. -/
def localEntry (rt : Runtime) (id : PluginID) (name modelRoot : String) (m : ModelCaps) :
    PluginModelInfo :=
  { m_featureID := id
    m_modelName := m.name
    m_pluginName := name
    m_caption := name ++ " : " ++ m.name
    m_guid := m.guid
    m_modelRoot := modelRoot
    m_modelStatus :=
      if m.flags &&& rt.kModelFlagRequiresDownload ≠ 0 then ModelStatus.AVAILABLE_MANUAL_DOWNLOAD
      else ModelStatus.AVAILABLE_LOCALLY }

/-- Lines 223-231: the entry built for one model of the cloud backend. -/
def cloudEntry (id : PluginID) (name shipped guid modelName url : String) : PluginModelInfo :=
  { m_featureID := id
    m_modelName := modelName
    m_pluginName := name
    m_caption := name ++ " : " ++ modelName
    m_guid := guid
    m_modelRoot := shipped
    m_modelStatus := ModelStatus.AVAILABLE_CLOUD
    m_url := url }

/-- The method `AddGPTPlugin` (lines 139-181). The interface is held in a local, so only the
catalog, the free store and the count of runtime calls change. -/
def AddGPTPlugin (rt : Runtime) (ctx : NVIGIContext) (id : PluginID) (name modelRoot : String) :
    Except Fault (NVIGIContext × Bool) :=
  (CheckPluginCompat ctx id).bind fun compat =>
    if compat then
      if rt.loadInterface ctx.calls id then
        (GetGPTCreationParams rt ctx true (some modelRoot)).bind fun r =>
          match r.2 with
          | none => .ok ({ ctx with calls := ctx.calls + 1, heap := r.1 }, false)
          | some p =>
            (r.1.contents (some p)).bind fun blocks =>
              match (rt.getCaps (ctx.calls + 1) id blocks).apply none with
              | none =>
                (FreeCreationParams r.1 r.1.brk (some p)).map fun h =>
                  ({ ctx with calls := ctx.calls + 2, heap := h }, false)
              | some models =>
                (FreeCreationParams r.1 r.1.brk (some p)).map fun h =>
                  ({ ctx with calls := ctx.calls + 2, heap := h,
                              m_gptPluginModels := ctx.m_gptPluginModels ++
                                models.models.map (localEntry rt id name modelRoot) }, true)
      else .ok ({ ctx with calls := ctx.calls + 1 }, false)
    else .ok (ctx, false)

/-- Modelled from the spec: `nvigi::findStruct` is declared in `nvigi_struct.h`, which is not
part of the sources; it walks the chain for the block of the requested type, here the common
block, and is null when there is none. -/
def Heap.findCommon (h : Heap) : Nat → Option Nat → Except Fault (Option Nat)
  | _, none => .ok none
  | 0, some _ => .error .nonTermination
  | fuel + 1, some p =>
    (h.read p).bind fun b =>
      match b.data with
      | BlockData.CommonCreationParameters _ _ _ _ => .ok (some p)
      | _ => Heap.findCommon h fuel b.next

/-- The assignment `commonParams->modelGUID = guid` on the payload of the common block. -/
def bindModelGUID (data : BlockData) (guid : String) : BlockData :=
  match data with
  | BlockData.CommonCreationParameters n v root _ =>
    BlockData.CommonCreationParameters n v root (some guid)
  | other => other

/-- Lines 215-233: the per-model loop of `AddGPTCloudPlugin` over the collected
`(guid, name)` items; `models` is the out-parameter as the previous query left it. Each pass
binds the model identifier, queries again, reads the cloud capabilities of `*models` and the
`url` through `cloudCaps`, and appends the entry. -/
def cloudModelLoop (rt : Runtime) (id : PluginID) (name : String) (commonParams : Option Nat)
    (params1 : Nat) : List (String × String) → NVIGIContext → Option Caps →
    Except Fault NVIGIContext
  | [], ctx, _ => .ok ctx
  | item :: rest, ctx, models =>
    (deref commonParams).bind fun c =>
      (ctx.heap.read c).bind fun b =>
        (ctx.heap.write c ⟨b.next, bindModelGUID b.data item.1⟩).bind fun h1 =>
          (h1.contents (some params1)).bind fun blocks =>
            (deref ((rt.getCaps ctx.calls id blocks).apply models)).bind fun caps =>
              (deref caps.cloudUrl).bind fun url =>
                cloudModelLoop rt id name commonParams params1 rest
                  { ctx with heap := h1, calls := ctx.calls + 1,
                             m_gptPluginModels := ctx.m_gptPluginModels ++
                               [cloudEntry id name ctx.m_shippedModelsPath item.1 item.2 url] }
                  ((rt.getCaps ctx.calls id blocks).apply models)

/-- The method `AddGPTCloudPlugin` (lines 183-241). -/
def AddGPTCloudPlugin (rt : Runtime) (ctx : NVIGIContext) : Except Fault (NVIGIContext × Bool) :=
  (CheckPluginCompat ctx PluginID.gpt_cloud_rest).bind fun compat =>
    if compat then
      if rt.loadInterface ctx.calls PluginID.gpt_cloud_rest then
        (GetGPTCreationParams rt ctx true none).bind fun r =>
          match r.2 with
          | none => .ok ({ ctx with calls := ctx.calls + 1, heap := r.1 }, false)
          | some p =>
            (r.1.contents (some p)).bind fun blocks =>
              match (rt.getCaps (ctx.calls + 1) PluginID.gpt_cloud_rest blocks).apply none with
              | none =>
                (FreeCreationParams r.1 r.1.brk (some p)).map fun h =>
                  ({ ctx with calls := ctx.calls + 2, heap := h }, false)
              | some models =>
                (r.1.findCommon r.1.brk (some p)).bind fun commonParams =>
                  (cloudModelLoop rt PluginID.gpt_cloud_rest "cloud.rest" commonParams p
                      (models.models.map fun m => (m.guid, m.name))
                      { ctx with calls := ctx.calls + 2, heap := r.1 } (some models)).bind
                    fun c =>
                      (FreeCreationParams c.heap c.heap.brk (some p)).map fun h =>
                        ({ c with heap := h }, true)
      else .ok ({ ctx with calls := ctx.calls + 1 }, false)
    else .ok (ctx, false)

/-- The method `AddASRPlugin` (lines 244-287). -/
def AddASRPlugin (rt : Runtime) (ctx : NVIGIContext) (id : PluginID) (name modelRoot : String) :
    Except Fault (NVIGIContext × Bool) :=
  (CheckPluginCompat ctx id).bind fun compat =>
    if compat then
      if rt.loadInterface ctx.calls id then
        (GetASRCreationParams ctx true (some modelRoot)).bind fun r =>
          match r.2 with
          | none => .ok ({ ctx with calls := ctx.calls + 1, heap := r.1 }, false)
          | some p =>
            (r.1.contents (some p)).bind fun blocks =>
              match rt.getCapsASR (ctx.calls + 1) id blocks with
              | none =>
                (FreeCreationParams r.1 r.1.brk (some p)).map fun h =>
                  ({ ctx with calls := ctx.calls + 2, heap := h }, false)
              | some models =>
                (FreeCreationParams r.1 r.1.brk (some p)).map fun h =>
                  ({ ctx with calls := ctx.calls + 2, heap := h,
                              m_asrPluginModels := ctx.m_asrPluginModels ++
                                models.models.map (localEntry rt id name modelRoot) }, true)
      else .ok ({ ctx with calls := ctx.calls + 1 }, false)
    else .ok (ctx, false)

/-- Lines 366-375: the scan for the NVIDIA adapter of highest architecture; `i` is the loop
counter, `nvdaArch` the best architecture so far, `m_adapter` the member. -/
def scanAdapters : List AdapterSpec → Int → Nat → Int → Int
  | [], _, _, m_adapter => m_adapter
  | adapter :: rest, i, nvdaArch, m_adapter =>
    if adapter.vendor = VendorId.eNVDA ∧ nvdaArch < adapter.architecture then
      scanAdapters rest (i + 1) adapter.architecture i
    else scanAdapters rest (i + 1) nvdaArch m_adapter

/-- Lines 366-382: adapter selection, with the fallback to adapter 0 when no NVIDIA adapter
was taken and some adapter was detected. -/
def selectAdapter (ctx : NVIGIContext) : NVIGIContext :=
  let m := scanAdapters ctx.m_pluginInfo.detectedAdapters 0 0 ctx.m_adapter
  { ctx with m_adapter :=
      if m < 0 then (if ctx.m_pluginInfo.detectedAdapters.length ≠ 0 then 0 else m) else m }

/-- The method `Initialize_preDeviceManager` from line 366 on: adapter selection, catalog
population and default selection. Argument parsing and the loading of the core library (lines
291-364) are outside the model: the context arrives with `m_shippedModelsPath` and
`m_pluginInfo` set. -/
def Initialize_preDeviceManager (rt : Runtime) (ctx : NVIGIContext) : Except Fault NVIGIContext :=
  let c0 := selectAdapter ctx
  (AddGPTPlugin rt c0 PluginID.gpt_ggml_cuda "ggml.cuda" c0.m_shippedModelsPath).bind fun r1 =>
    (AddGPTCloudPlugin rt r1.1).bind fun r2 =>
      (AddGPTPlugin rt r2.1 PluginID.gpt_onnxgenai_dml "onnxgenai"
          r2.1.m_shippedModelsPath).bind fun r3 =>
        let c4 := selectDefaultGPT r3.1
        (AddASRPlugin rt c4 PluginID.asr_ggml_cuda "ggml.cuda" c4.m_shippedModelsPath).bind
          fun r5 =>
            (AddASRPlugin rt r5.1 PluginID.asr_ggml_cpu "ggml.cpu"
                r5.1.m_shippedModelsPath).bind fun r6 =>
              .ok (selectDefaultASR r6.1)

/-! ## Inference callbacks and drivers (lines 849-1015) -/

/-- Modelled from the spec: `nvigi::InferenceExecutionContext` is declared in the SDK headers,
which are not part of the sources. Of the context a callback receives the code reads
`outputs`, the array of output slots, here the key and the UTF-8 text of each slot. -/
structure InferenceExecutionContext where
  outputs : List (DataSlotKey × String)
  deriving DecidableEq, Repr

/-- Modelled from the spec: `InferenceDataSlotArray::findAndValidateSlot` is declared in the
SDK headers; it sets the out-parameter to the slot with the given key and leaves it as it was,
null in both callbacks, when the array holds no such slot. -/
def findAndValidateSlot (slots : List (DataSlotKey × String)) (key : DataSlotKey) :
    Option String :=
  (slots.find? fun s => decide (s.1 = key)).map Prod.snd

/-- The characters of a string with every occurrence of `pat` left out; the counter is the
number of characters of an occurrence still to be passed over. -/
def removeOccurrences (pat : List Char) : Nat → List Char → List Char
  | _, [] => []
  | skip + 1, _ :: cs => removeOccurrences pat skip cs
  | 0, c :: cs =>
    if pat.isPrefixOf (c :: cs) then removeOccurrences pat (pat.length - 1) cs
    else c :: removeOccurrences pat 0 cs

/-- Modelled from the spec: `std::regex_replace(str, std::regex(pat), "")` for a pattern
without regular-expression operators, which is how the code calls it: `str` with every
occurrence of `pat` removed. -/
def regex_replace (str pat : String) : String :=
  String.mk (removeOccurrences pat.toList 0 str.toList)

/-- The statement `messages.back().text.append(str)`; `back()` of an empty vector is a read
out of bounds. -/
def appendToBack (messages : List Message) (str : String) : Except Fault (List Message) :=
  match messages.getLast? with
  | some m => .ok (messages.dropLast ++ [{ m with text := m.text ++ str }])
  | none => .error .outOfBounds

/-- One invocation of a callback by the plugin runtime: the execution context, null when the
report carries no output, and the reported state. -/
structure CallbackReport where
  ctx : Option InferenceExecutionContext
  state : InferenceExecutionState
  deriving DecidableEq, Repr

/-- What `evaluate` answers: whether the result is `kResultOk`, and the invocations of the
callback it gives rise to, in order. -/
structure EvaluateResponse where
  ok : Bool
  reports : List CallbackReport
  deriving DecidableEq, Repr

/-- The responses of the plugin runtime to `evaluate`. The first argument is the number of
runtime calls answered before, the second the instance; a text-generation call carries the key
of its input slot and the prompt. -/
structure InferenceRuntime where
  evaluateGPT : Nat → Nat → DataSlotKey → String → EvaluateResponse
  evaluateASR : Nat → Nat → EvaluateResponse

/-- The lambda `asrCallback` of `LaunchASR` (lines 857-880). `nvigi` is the context; `data` is
the `void*` user data, `none` for null and otherwise the address of the context. The result is
the context after the call and the returned state. -/
def asrCallback (nvigi : NVIGIContext) (ctx : Option InferenceExecutionContext)
    (state : InferenceExecutionState) (data : Option Unit) :
    Except Fault (NVIGIContext × InferenceExecutionState) :=
  match data with
  | none => .ok (nvigi, InferenceExecutionState.kInferenceExecutionStateInvalid)
  | some _ =>
    let appended : Except Fault NVIGIContext :=
      match ctx with
      | some c =>
        (deref (findAndValidateSlot c.outputs DataSlotKey.kASRWhisperDataSlotTranscribedText)).map
          fun str =>
            if !strContains str "<JSON>" then
              { nvigi with m_a2t := nvigi.m_a2t ++ str, m_gptInput := nvigi.m_gptInput ++ str }
            else nvigi
      | none => .ok nvigi
    appended.map fun n1 =>
      let done := decide (state = InferenceExecutionState.kInferenceExecutionStateDone)
      ({ n1 with m_gptInputReady := done }, state)

/-- Lines 921-936 of `gptCallback`: what is done with the response text `str`. A fragment
without the marker is appended to the last message; for a fragment with the marker the code
assigns `std::regex_replace(str, std::regex("<JSON>"), "")` to `str`, takes the lock and leaves
the block, so the stripped text goes nowhere. -/
def gptAccumulate (nvigi : NVIGIContext) (str : String) : Except Fault NVIGIContext :=
  if nvigi.m_conversationInitialized then
    if !strContains str "<JSON>" then
      if nvigi.m_conversationInitialized then
        (appendToBack nvigi.messages str).map fun ms => { nvigi with messages := ms }
      else .ok nvigi
    else
      let _ := regex_replace str "<JSON>"
      .ok nvigi
  else .ok nvigi

/-- The lambda `gptCallback` of `LaunchGPT` (lines 908-951): the accumulation, then the
store of the reported state under `m_gptCallbackMutex` with the notification of the waiting
thread. -/
def gptCallback (nvigi : NVIGIContext) (ctx : Option InferenceExecutionContext)
    (state : InferenceExecutionState) (data : Option Unit) :
    Except Fault (NVIGIContext × InferenceExecutionState) :=
  match data with
  | none => .ok (nvigi, InferenceExecutionState.kInferenceExecutionStateInvalid)
  | some _ =>
    let accumulated : Except Fault NVIGIContext :=
      match ctx with
      | some c =>
        (deref (findAndValidateSlot c.outputs DataSlotKey.kGPTDataSlotResponse)).bind fun str =>
          gptAccumulate nvigi str
      | none => .ok nvigi
    accumulated.map fun n1 => ({ n1 with m_gptCallbackState := state }, state)

/-- The invocations `reports` of `callback`, in order, each with the context's address as user
data (`ctx.callbackUserData = this`, lines 894 and 972). -/
def deliver (callback : NVIGIContext → Option InferenceExecutionContext →
      InferenceExecutionState → Option Unit →
      Except Fault (NVIGIContext × InferenceExecutionState)) :
    NVIGIContext → List CallbackReport → Except Fault NVIGIContext
  | nvigi, [] => .ok nvigi
  | nvigi, r :: rest =>
    (callback nvigi r.ctx r.state (some ())).bind fun x => deliver callback x.1 rest

/-- The predicate of the wait of line 987: `m_gptCallbackState !=
kInferenceExecutionStateDataPending`. -/
def waitPredicate (nvigi : NVIGIContext) : Bool :=
  decide (nvigi.m_gptCallbackState ≠ InferenceExecutionState.kInferenceExecutionStateDataPending)

/-- The lambda `eval` of `LaunchGPT` (lines 963-989): one turn. The state is set to
data-pending, the call is submitted on `m_gpt`, and when it returned `kResultOk` the thread
waits for a state other than data-pending. The invocations of the callback the call gives
rise to are sequenced before the wait is decided: it passes when the state they leave differs
from data-pending and otherwise does not return, no further notification being due. -/
def eval (irt : InferenceRuntime) (nvigi : NVIGIContext) (prompt : String)
    (initConversation : Bool) : Except Fault NVIGIContext :=
  let slot :=
    if initConversation then DataSlotKey.kGPTDataSlotSystem else DataSlotKey.kGPTDataSlotUser
  let pending := InferenceExecutionState.kInferenceExecutionStateDataPending
  let n1 := { nvigi with m_gptCallbackState := pending, m_gptRunning := true }
  (deref n1.m_gpt).bind fun inst =>
    let res := irt.evaluateGPT n1.calls inst slot prompt
    let log := n1.evaluated ++ [⟨inst, slot, prompt⟩]
    (deliver gptCallback { n1 with calls := n1.calls + 1, evaluated := log } res.reports).bind
      fun n2 =>
        if res.ok then
          if waitPredicate n2 then .ok n2 else .error .nonTermination
        else .ok n2

/-- The string `initialPrompt` of line 993. -/
def initialPrompt : String :=
  "You are a helpful AI assistant answering user questions.\n"

/-- The lambda `l` of `LaunchGPT` (lines 953-1003), the body of the inference thread. -/
def LaunchGPT_l (irt : InferenceRuntime) (nvigi : NVIGIContext) (prompt : String) :
    Except Fault NVIGIContext :=
  let n0 := { nvigi with m_inferThreadRunning := true }
  let initialised : Except Fault NVIGIContext :=
    if !n0.m_conversationInitialized then
      (eval irt n0 initialPrompt true).map fun n => { n with m_conversationInitialized := true }
    else .ok n0
  initialised.bind fun n1 =>
    (eval irt n1 prompt false).map fun n2 =>
      { n2 with m_gptRunning := false, m_inferThreadRunning := false }

/-- The lambda `l` of `LaunchASR` (lines 882-902), the body of the inference thread; the
recorded audio is not modelled. -/
def LaunchASR_l (irt : InferenceRuntime) (nvigi : NVIGIContext) : Except Fault NVIGIContext :=
  let n0 := { nvigi with m_inferThreadRunning := true, m_asrRunning := true }
  (deref n0.m_asr).bind fun inst =>
    let res := irt.evaluateASR n0.calls inst
    let log := n0.evaluated ++ [⟨inst, DataSlotKey.kASRWhisperDataSlotAudio, ""⟩]
    (deliver asrCallback { n0 with calls := n0.calls + 1, evaluated := log } res.reports).map
      fun n1 => { n1 with m_asrRunning := false, m_inferThreadRunning := false }

/-- The method `LaunchASR` (lines 849-904): nothing when the domain is not ready, otherwise
the inference thread is started. -/
def LaunchASR (nvigi : NVIGIContext) : NVIGIContext :=
  if !nvigi.m_asrReady then nvigi else { nvigi with m_inferThread := some InferTask.asr }

/-- The method `LaunchGPT` (lines 906-1005): the inference thread is started. -/
def LaunchGPT (nvigi : NVIGIContext) (prompt : String) : NVIGIContext :=
  { nvigi with m_inferThread := some (InferTask.gpt prompt) }

/-- The body of an inference thread. -/
def runInferTask (irt : InferenceRuntime) (nvigi : NVIGIContext) :
    InferTask → Except Fault NVIGIContext
  | InferTask.asr => LaunchASR_l irt nvigi
  | InferTask.gpt prompt => LaunchGPT_l irt nvigi prompt

/-- The method `FlushInferenceThread` (lines 1007-1015): the pending inference thread is
joined and discarded. The thread body is sequenced at the join, which every caller in the
sources performs before it launches the next thread (lines 1086-1088 and 1154-1156). -/
def FlushInferenceThread (irt : InferenceRuntime) (nvigi : NVIGIContext) :
    Except Fault NVIGIContext :=
  match nvigi.m_inferThread with
  | some task => runInferTask irt { nvigi with m_inferThread := none } task
  | none => .ok nvigi

/-- A sequence of chat turns as `BuildGPTUI` submits them (lines 1154-1156): for each prompt
`FlushInferenceThread` and then `LaunchGPT`, and a last `FlushInferenceThread` for the turn
still running. -/
def chatTurns (irt : InferenceRuntime) : NVIGIContext → List String → Except Fault NVIGIContext
  | nvigi, [] => FlushInferenceThread irt nvigi
  | nvigi, prompt :: rest =>
    (FlushInferenceThread irt nvigi).bind fun n1 => chatTurns irt (LaunchGPT n1 prompt) rest

/-- Where the thread that drives a turn stands: inside `evaluate`, at the wait of line 987, or
past the wait point. -/
inductive TurnPhase
  | submitted
  | waiting
  | passed
  deriving DecidableEq, Repr

/-- A turn in progress: the context, the phase of the driving thread, and the invocations of
the callback the plugin runtime has still to make. -/
structure TurnConfig where
  nvigi : NVIGIContext
  phase : TurnPhase
  due : List CallbackReport

/-- The steps of a turn whose `evaluate` call returns `kResultOk` exactly when `ok`: the
plugin runtime makes its next invocation of `gptCallback`, which overwrites the state (at any
time, the evaluation may be asynchronous); `evaluate` returns, and the thread goes to the
wait when the result is `kResultOk` and past it otherwise (line 984); the waiting thread
passes the wait, which it may only when the predicate holds. -/
inductive TurnStep (ok : Bool) : TurnConfig → TurnConfig → Prop
  | report (c : TurnConfig) (r : CallbackReport) (rest : List CallbackReport)
      (n1 : NVIGIContext) (s : InferenceExecutionState) (hdue : c.due = r :: rest)
      (hcall : gptCallback c.nvigi r.ctx r.state (some ()) = .ok (n1, s)) :
      TurnStep ok c ⟨n1, c.phase, rest⟩
  | returned (c : TurnConfig) (hphase : c.phase = TurnPhase.submitted) :
      TurnStep ok c ⟨c.nvigi, if ok then TurnPhase.waiting else TurnPhase.passed, c.due⟩
  | wake (c : TurnConfig) (hphase : c.phase = TurnPhase.waiting)
      (hpred : waitPredicate c.nvigi = true) :
      TurnStep ok c ⟨c.nvigi, TurnPhase.passed, c.due⟩

/-- The turn as lines 978-981 start it: the state is data-pending, the call is submitted and
the plugin runtime has `reports` to make. -/
def turnStart (nvigi : NVIGIContext) (reports : List CallbackReport) : TurnConfig :=
  let pending := InferenceExecutionState.kInferenceExecutionStateDataPending
  ⟨{ nvigi with m_gptCallbackState := pending, m_gptRunning := true }, TurnPhase.submitted,
    reports⟩

/-- A report for the callback that reads the slot `key`: its context is null or holds that
slot. -/
def CallbackReport.Carries (key : DataSlotKey) (r : CallbackReport) : Prop :=
  ∀ c, r.ctx = some c → (findAndValidateSlot c.outputs key).isSome = true

/-- The plugin runtime completes the text-generation turns it accepts: every report it makes
carries the response slot when it has a context, and the last report of a call that returned
`kResultOk` is not data-pending. -/
def CompletesTurns (irt : InferenceRuntime) : Prop :=
  ∀ (n inst : Nat) (slot : DataSlotKey) (prompt : String),
    (∀ r ∈ (irt.evaluateGPT n inst slot prompt).reports,
      r.Carries DataSlotKey.kGPTDataSlotResponse) ∧
    ((irt.evaluateGPT n inst slot prompt).ok = true →
      ∃ r, (irt.evaluateGPT n inst slot prompt).reports.getLast? = some r ∧
        r.state ≠ InferenceExecutionState.kInferenceExecutionStateDataPending)

/-! ## Vocabulary of the statements about the per-model queries of the cloud backend -/

/-- The payloads of a chain after the statement `commonParams->modelGUID = guid`. -/
def boundBlocks (blocks : List BlockData) (guid : String) : List BlockData :=
  blocks.map fun b => bindModelGUID b guid

/-- The URLs the per-model loop of `AddGPTCloudPlugin` reads (lines 215-233): for each
reported model, in order, the capabilities are queried again over the generic chain `generic`
with that model's identifier bound, and the URL is read through the out-parameter as that
query leaves it, which is what the previous query wrote when this one fails. `n` is the number
of runtime calls answered before, `models` the out-parameter before the first pass. Nothing
when some pass finds the out-parameter null, or the capabilities without a cloud block. -/
def cloudQueryUrls (rt : Runtime) (id : PluginID) (generic : List BlockData) :
    Nat → Option Caps → List (String × String) → Option (List String)
  | _, _, [] => some []
  | n, models, item :: rest =>
    match (rt.getCaps n id (boundBlocks generic item.1)).apply models with
    | some caps =>
      match caps.cloudUrl with
      | some url => (cloudQueryUrls rt id generic (n + 1) (some caps) rest).map fun us => url :: us
      | none => none
    | none => none

/-- The state of the free store the per-model loop of the cloud backend runs on: the chain
from `p` is finite with addresses `as` and payloads `blocks`, the block at `c` is live, and no
block of the chain other than the one at `c` is a common block. -/
def CloudChain (h : Heap) (p c : Nat) (blocks : List BlockData) (as : List Nat) : Prop :=
  (∃ l, h.toList h.brk (some p) = .ok l ∧ l.map Prod.snd = blocks ∧
    ∀ x ∈ l, x.1 ≠ c → ∀ g, bindModelGUID x.2 g = x.2) ∧
  (∃ b, h.cells c = some b) ∧ h.IsChain (some p) as ∧ as.length ≤ h.brk

/-- The URL recovered by the per-model query of the model `guid`, in the spec's words: the
capabilities are queried over the generic chain `generic` with the model identifier bound, and
the URL is the one of the cloud capabilities this query answered. `n` is the number of runtime
calls answered before. Nothing is recovered when the query fails, answers no capabilities, or
answers capabilities that carry no cloud block. -/
def recoveredUrl (rt : Runtime) (id : PluginID) (generic : List BlockData) (n : Nat)
    (guid : String) : Option String :=
  match rt.getCaps n id (boundBlocks generic guid) with
  | CapsResponse.wrote (some caps) => caps.cloudUrl
  | CapsResponse.wrote none => none
  | CapsResponse.failed => none

/-- The URLs recovered by the per-model queries of the items, one query after the other, the
first one being the runtime call number `n`. -/
def recoveredUrls (rt : Runtime) (id : PluginID) (generic : List BlockData) :
    Nat → List (String × String) → List (Option String)
  | _, [] => []
  | n, item :: rest =>
    recoveredUrl rt id generic n item.1 :: recoveredUrls rt id generic (n + 1) rest

/-! ## Sample data -/

/-- A runtime in which every call succeeds, no capability is reported and no environment
variable is set, except as overridden. -/
def sampleRuntime : Runtime :=
  { getenv := fun _ => none
    loadInterface := fun _ _ => true
    getCaps := fun _ _ _ => CapsResponse.failed
    getCapsASR := fun _ _ _ => none
    createInstance := fun _ _ _ => true
    kModelFlagRequiresDownload := 1 }

/-- A local text-generation entry. -/
def sampleLocalModel : PluginModelInfo :=
  { m_modelName := "llama", m_pluginName := "ggml.cuda", m_caption := "ggml.cuda : llama",
    m_guid := "guid-a", m_modelRoot := "/models/a", m_featureID := PluginID.gpt_ggml_cuda,
    m_modelStatus := ModelStatus.AVAILABLE_LOCALLY }

/-- A cloud text-generation entry served by the NVIDIA provider. -/
def sampleCloudModel : PluginModelInfo :=
  { m_modelName := "nim", m_pluginName := "cloud.rest", m_caption := "cloud.rest : nim",
    m_guid := "guid-c", m_modelRoot := "../../nvigi.models",
    m_url := "https://integrate.api.nvidia.com/v1", m_featureID := PluginID.gpt_cloud_rest,
    m_modelStatus := ModelStatus.AVAILABLE_CLOUD }

/-- A local speech-recognition entry. -/
def sampleAsrModel : PluginModelInfo :=
  { m_modelName := "whisper", m_pluginName := "ggml.cuda", m_caption := "ggml.cuda : whisper",
    m_guid := "guid-w", m_modelRoot := "/models/w", m_featureID := PluginID.asr_ggml_cuda,
    m_modelStatus := ModelStatus.AVAILABLE_LOCALLY }

/-- A context with the local entry selected in both domains. -/
def sampleContext : NVIGIContext :=
  { m_gptPluginModels := [sampleLocalModel, sampleCloudModel], m_gptIndex := 0,
    m_asrPluginModels := [sampleAsrModel], m_asrIndex := 0 }

/-- The free store a build result carries, empty when the build faulted. -/
def heapOf (r : Except Fault (Heap × Option Nat)) : Heap :=
  match r with
  | .ok v => v.1
  | .error _ => {}

/-- A runtime in which both cloud credentials are set and instance creation fails for the
cloud backend only. -/
def swapRuntime : Runtime :=
  { sampleRuntime with
    getenv := fun _ => some "key"
    createInstance := fun _ fid _ => decide (fid ≠ PluginID.gpt_cloud_rest) }

/-- The sample context once the local text-generation entry has been loaded: its instance is
live under handle 0 and the domain is ready. -/
def loadedContext : NVIGIContext :=
  { sampleContext with
    m_igpt := some PluginID.gpt_ggml_cuda
    m_gpt := some 0
    m_gptReady := true
    nextHandle := 1
    calls := 2
    live := [⟨0, Domain.gpt, PluginID.gpt_ggml_cuda, gptChainBlocks sampleRuntime [] sampleLocalModel⟩] }

/-- The context a lifecycle step returned, the default context when it faulted. -/
def stateOf (r : Except Fault NVIGIContext) : NVIGIContext :=
  match r with
  | .ok c => c
  | .error _ => {}

/-- The sample context after startup, a swap to the cloud entry whose instance the runtime
refuses to create, and the join of that swap's load task. -/
def swappedContext : NVIGIContext :=
  stateOf (joinLoadingThread swapRuntime
    (stateOf (ReloadGPTModel swapRuntime (Initialize_postDevice sampleContext) 1)))

/-- The contents of the generic text-generation chain built for a capability query with the
model root `root`. -/
def genericGptBlocks (ctx : NVIGIContext) (root : String) : List BlockData :=
  [BlockData.GPTCreationParameters (-1) 200 4096] ++ hardwareBlocks ctx ++
    [BlockData.CommonCreationParameters 1 8192 root none]

/-- The contents of the generic speech-recognition chain built for a capability query. -/
def genericAsrBlocks (ctx : NVIGIContext) (root : String) : List BlockData :=
  [BlockData.ASRWhisperCreationParameters] ++ hardwareBlocks ctx ++
    [BlockData.CommonCreationParameters 4 3072 root none]

/-- The entries a local text-generation backend contributes, in the spec's words: nothing when
it is incompatible, when its interface fails to load or when its capability query returns
nothing; otherwise one entry per reported model, in the reported order. `compat` is the result
of the compatibility check. -/
def gptContribution (rt : Runtime) (ctx : NVIGIContext) (compat : Bool) (id : PluginID)
    (name root : String) : List PluginModelInfo :=
  if compat && rt.loadInterface ctx.calls id then
    match (rt.getCaps (ctx.calls + 1) id (genericGptBlocks ctx root)).apply none with
    | some models => models.models.map (localEntry rt id name root)
    | none => []
  else []

/-- The entries a speech-recognition backend contributes, in the spec's words. -/
def asrContribution (rt : Runtime) (ctx : NVIGIContext) (compat : Bool) (id : PluginID)
    (name root : String) : List PluginModelInfo :=
  if compat && rt.loadInterface ctx.calls id then
    match rt.getCapsASR (ctx.calls + 1) id (genericAsrBlocks ctx root) with
    | some models => models.models.map (localEntry rt id name root)
    | none => []
  else []

/-- The members a catalog population step reads and must leave alone. -/
def SameSetup (c d : NVIGIContext) : Prop :=
  d.m_pluginInfo = c.m_pluginInfo ∧ d.m_adapter = c.m_adapter ∧
  d.m_shippedModelsPath = c.m_shippedModelsPath ∧ d.m_d3d12Params = c.m_d3d12Params ∧
  d.m_gptIndex = c.m_gptIndex ∧ d.m_asrIndex = c.m_asrIndex

/-- The detected plugins of the population samples: the NVIDIA-only `ggml.cuda` backends and
the vendor-neutral cloud and CPU backends. -/
def samplePlugins : List PluginSpec :=
  [⟨PluginID.gpt_ggml_cuda, VendorId.eNVDA, 1, ⟨1, 0⟩⟩,
   ⟨PluginID.gpt_cloud_rest, VendorId.eAny, 0, ⟨0, 0⟩⟩,
   ⟨PluginID.asr_ggml_cuda, VendorId.eNVDA, 1, ⟨1, 0⟩⟩,
   ⟨PluginID.asr_ggml_cpu, VendorId.eAny, 0, ⟨0, 0⟩⟩]

/-- A runtime whose backends all answer: the cloud backend reports one model with its URL, the
local text-generation backends two models, the speech-recognition backends one. -/
def populationRuntime : Runtime :=
  { sampleRuntime with
    getCaps := fun _ id _ =>
      if id = PluginID.gpt_cloud_rest then
        CapsResponse.wrote (some ⟨[⟨"nim", "guid-c", 0⟩], some "https://integrate.api.nvidia.com/v1"⟩)
      else CapsResponse.wrote (some ⟨[⟨"llama", "guid-a", 0⟩, ⟨"big", "guid-b", 1⟩], none⟩)
    getCapsASR := fun _ _ _ => some ⟨[⟨"whisper", "guid-w", 0⟩], none⟩ }

/-- A context at startup on a system with no display adapter. -/
def noAdapterContext : NVIGIContext :=
  { m_pluginInfo := ⟨[], samplePlugins⟩ }

/-- A context at startup on a system whose only adapter is not an NVIDIA one. -/
def otherVendorContext : NVIGIContext :=
  { m_pluginInfo := ⟨[⟨VendorId.eOther 4098, 3, ⟨1, 1⟩⟩], samplePlugins⟩ }

/-! ## Vocabulary of the statements about reported models, compositions and turns -/

/-- The models a local text-generation backend reports, in the spec's words: those of the
answer to the capability query over the generic chain; none when the backend is incompatible,
when its interface fails to load or when the query leaves no capabilities. -/
def reportedGPT (rt : Runtime) (ctx : NVIGIContext) (compat : Bool) (id : PluginID)
    (root : String) : List ModelCaps :=
  if compat && rt.loadInterface ctx.calls id then
    match (rt.getCaps (ctx.calls + 1) id (genericGptBlocks ctx root)).apply none with
    | some models => models.models
    | none => []
  else []

/-- The models a speech-recognition backend reports, in the spec's words. -/
def reportedASR (rt : Runtime) (ctx : NVIGIContext) (compat : Bool) (id : PluginID)
    (root : String) : List ModelCaps :=
  if compat && rt.loadInterface ctx.calls id then
    match rt.getCapsASR (ctx.calls + 1) id (genericAsrBlocks ctx root) with
    | some models => models.models
    | none => []
  else []

/-- The catalog entry the spec prescribes for the model `m` reported by the local backend
`id` under the plugin name `name`. -/
def IsLocalEntryFor (rt : Runtime) (id : PluginID) (name : String) (m : ModelCaps)
    (e : PluginModelInfo) : Prop :=
  e.m_featureID = id ∧ e.m_modelName = m.name ∧ e.m_guid = m.guid ∧
  e.m_caption = name ++ " : " ++ m.name ∧ e.m_pluginName = name ∧
  (m.flags &&& rt.kModelFlagRequiresDownload ≠ 0 →
    e.m_modelStatus = ModelStatus.AVAILABLE_MANUAL_DOWNLOAD) ∧
  (m.flags &&& rt.kModelFlagRequiresDownload = 0 →
    e.m_modelStatus = ModelStatus.AVAILABLE_LOCALLY)

/-- The catalog entry the spec prescribes for the model `m` of the cloud backend whose
per-model query reported `url`. -/
def IsCloudEntryFor (m : ModelCaps) (url : String) (e : PluginModelInfo) : Prop :=
  e.m_featureID = PluginID.gpt_cloud_rest ∧ e.m_modelName = m.name ∧ e.m_guid = m.guid ∧
  e.m_caption = "cloud.rest : " ++ m.name ∧
  e.m_modelStatus = ModelStatus.AVAILABLE_CLOUD ∧ e.m_url = url

/-- Whether a block is the common block. -/
def BlockData.isCommon : BlockData → Bool
  | BlockData.CommonCreationParameters _ _ _ _ => true
  | _ => false

/-- Whether a block is the hardware-context block. -/
def BlockData.isD3D12 : BlockData → Bool
  | BlockData.D3D12Parameters _ _ => true
  | _ => false

/-- Whether a block is the tuning block of the onnxgenai backend. -/
def BlockData.isOnnxgenai : BlockData → Bool
  | BlockData.GPTOnnxgenaiCreationParameters _ _ => true
  | _ => false

/-- Whether a block is the REST block of the cloud backend. -/
def BlockData.isREST : BlockData → Bool
  | BlockData.RESTParameters _ _ _ => true
  | _ => false

/-- The composition the spec gives every built chain: exactly one common block, and a
hardware-context block exactly when a shared compute context has been established. -/
def HasBaseComposition (ctx : NVIGIContext) (blocks : List BlockData) : Prop :=
  blocks.countP BlockData.isCommon = 1 ∧
  ((∃ b ∈ blocks, b.isD3D12 = true) ↔ ctx.m_d3d12Params ≠ none)

/-- The backend-specific blocks the spec gives a non-generic text-generation chain built for
the entry `info`: a tuning block, with `backgroundMode` and `allowAsync` false, exactly when
the backend is onnxgenai, and a REST block exactly when it is the cloud backend. -/
def HasBackendComposition (info : PluginModelInfo) (blocks : List BlockData) : Prop :=
  ((∃ b ∈ blocks, b.isOnnxgenai = true) ↔ info.m_featureID = PluginID.gpt_onnxgenai_dml) ∧
  (∀ b ∈ blocks, b.isOnnxgenai = true →
    b = BlockData.GPTOnnxgenaiCreationParameters false false) ∧
  ((∃ b ∈ blocks, b.isREST = true) ↔ info.m_featureID = PluginID.gpt_cloud_rest)

/-- No block of the chain is specific to a backend. -/
def NoBackendBlock (blocks : List BlockData) : Prop :=
  ∀ b ∈ blocks, b.isOnnxgenai = false ∧ b.isREST = false

/-- The model identifiers carried by the common blocks of a chain, in chain order; `none` is
the unbound identifier (`modelGUID` null). -/
def commonGUIDs (blocks : List BlockData) : List (Option String) :=
  blocks.filterMap fun b =>
    match b with
    | BlockData.CommonCreationParameters _ _ _ guid => some guid
    | _ => none

/-- The `evaluate` calls the spec prescribes for a sequence of chat turns on the instance
`inst`: when there is a turn at all and the conversation is not initialised, first the system
turn with the fixed instruction; then one user turn per prompt, in order. -/
def expectedTurns (inst : Nat) (initialized : Bool) (prompts : List String) :
    List EvaluateCall :=
  match prompts with
  | [] => []
  | _ :: _ =>
    (if initialized then [] else [⟨inst, DataSlotKey.kGPTDataSlotSystem, initialPrompt⟩]) ++
      prompts.map fun p => ⟨inst, DataSlotKey.kGPTDataSlotUser, p⟩

/-- The answer accumulator: the text of the last message, when there is one. -/
def answerText (nvigi : NVIGIContext) : Option String :=
  nvigi.messages.getLast?.map fun m => m.text

/-! ## Sample data of the population, chat and swap scenarios -/

/-- A context at startup on a system with one NVIDIA adapter. -/
def nvidiaContext : NVIGIContext :=
  { m_pluginInfo := ⟨[⟨VendorId.eNVDA, 30, ⟨560, 0⟩⟩], samplePlugins⟩ }

/-- A plugin runtime that accepts every call and streams two fragments per text-generation
turn and two chunks per transcription. -/
def sampleInference : InferenceRuntime :=
  { evaluateGPT := fun _ _ _ _ =>
      ⟨true,
        [⟨some ⟨[(DataSlotKey.kGPTDataSlotResponse, "Hello")]⟩,
            InferenceExecutionState.kInferenceExecutionStateDataPending⟩,
          ⟨some ⟨[(DataSlotKey.kGPTDataSlotResponse, " there")]⟩,
            InferenceExecutionState.kInferenceExecutionStateDone⟩]⟩
    evaluateASR := fun _ _ =>
      ⟨true,
        [⟨some ⟨[(DataSlotKey.kASRWhisperDataSlotTranscribedText, "good")]⟩,
            InferenceExecutionState.kInferenceExecutionStateDataPending⟩,
          ⟨some ⟨[(DataSlotKey.kASRWhisperDataSlotTranscribedText, " day")]⟩,
            InferenceExecutionState.kInferenceExecutionStateDone⟩]⟩ }

/-- The loaded sample context with a question and its empty answer on the message list, as
`BuildGPTUI` leaves it before `LaunchGPT` (lines 1151-1152). -/
def chatContext : NVIGIContext :=
  { loadedContext with
    messages := [⟨MessageType.Question, "hello"⟩, ⟨MessageType.Answer, ""⟩] }

/-- A second local speech-recognition entry, of the CPU backend. -/
def sampleAsrCpuModel : PluginModelInfo :=
  { m_modelName := "whisper", m_pluginName := "ggml.cpu", m_caption := "ggml.cpu : whisper",
    m_guid := "guid-x", m_modelRoot := "/models/x", m_featureID := PluginID.asr_ggml_cpu,
    m_modelStatus := ModelStatus.AVAILABLE_LOCALLY }

/-- A context with two speech-recognition entries, the first selected and loaded: its
instance is live under handle 0 and the domain is ready. -/
def asrLoadedContext : NVIGIContext :=
  { m_asrPluginModels := [sampleAsrModel, sampleAsrCpuModel]
    m_asrIndex := 0
    m_iasr := some PluginID.asr_ggml_cuda
    m_asr := some 0
    m_asrReady := true
    nextHandle := 1
    calls := 2
    live := [⟨0, Domain.asr, PluginID.asr_ggml_cuda, asrChainBlocks [] sampleAsrModel⟩] }

/-- A runtime in which instance creation fails for the CPU speech-recognition backend only. -/
def asrSwapRuntime : Runtime :=
  { sampleRuntime with
    createInstance := fun _ fid _ => decide (fid ≠ PluginID.asr_ggml_cpu) }

/-- A context at startup on a system whose first adapter is not an NVIDIA one and whose second
adapter is an NVIDIA one that reports architecture 0. -/
def zeroArchitectureContext : NVIGIContext :=
  { m_pluginInfo :=
      ⟨[⟨VendorId.eOther 4098, 3, ⟨1, 1⟩⟩, ⟨VendorId.eNVDA, 0, ⟨560, 0⟩⟩], samplePlugins⟩ }

/-- A plugin runtime that refuses every system turn at once, with a result other than
`kResultOk` and no invocation of the callback, and answers the user turns as the sample
runtime does. -/
def refusingInference : InferenceRuntime :=
  { sampleInference with
    evaluateGPT := fun n inst slot prompt =>
      if slot = DataSlotKey.kGPTDataSlotSystem then ⟨false, []⟩
      else sampleInference.evaluateGPT n inst slot prompt }

/-- A runtime as `populationRuntime`, except for the cloud backend: its generic query reports
the two models "nim" and "nim-b", the query with the identifier of "nim" bound answers
capabilities with the URL of "nim", and the query with the identifier of "nim-b" bound fails,
leaving the out-parameter as it was. -/
def staleQueryRuntime : Runtime :=
  { populationRuntime with
    getCaps := fun n id blocks =>
      if id = PluginID.gpt_cloud_rest then
        if commonGUIDs blocks = [some "guid-c"] then
          CapsResponse.wrote (some ⟨[⟨"nim", "guid-c", 0⟩], some "https://host/nim"⟩)
        else if commonGUIDs blocks = [some "guid-d"] then CapsResponse.failed
        else CapsResponse.wrote (some ⟨[⟨"nim", "guid-c", 0⟩, ⟨"nim-b", "guid-d", 0⟩], none⟩)
      else populationRuntime.getCaps n id blocks }

/-- A runtime as `populationRuntime`, except that the cloud backend answers `gap` to every
capability query made with a model identifier bound in the common block. -/
def cloudGapRuntime (gap : CapsResponse) : Runtime :=
  { populationRuntime with
    getCaps := fun n id blocks =>
      if id = PluginID.gpt_cloud_rest ∧ commonGUIDs blocks ≠ [none] then gap
      else populationRuntime.getCaps n id blocks }

/-! ## Vocabulary of the statements about the release of built chains -/

/-- The loop is decided by the first detected plugin that carries the requested id. -/
theorem checkPluginLoop_eq_find (adapterInfo : Option AdapterSpec) (id : PluginID)
    (plugins : List PluginSpec) :
    checkPluginLoop adapterInfo id plugins =
      match plugins.find? (fun q => decide (q.id = id)) with
      | none => .ok false
      | some p => checkDetectedPlugin adapterInfo p := by
  induction plugins with
  | nil => rfl
  | cons q rest ih =>
    by_cases hq : q.id = id
    · simp [checkPluginLoop, List.find?, hq]
    · simp [checkPluginLoop, List.find?, hq, ih]

/-- The comparison `a > b` is false exactly when `a` is at most `b`. -/
theorem Version.gt_eq_false_iff (a b : Version) : a.gt b = false ↔ a.le b := by
  unfold Version.gt Version.le
  simp only [Bool.or_eq_false_iff, Bool.and_eq_false_iff, decide_eq_false_iff_not]
  omega

/-- With a selected adapter, the matching plugin is accepted exactly when the vendor test
passes and, for a plugin that requires NVIDIA, the architecture and driver tests pass. -/
theorem checkDetectedPlugin_some (a : AdapterSpec) (p : PluginSpec) :
    checkDetectedPlugin (some a) p = .ok true ↔
      ((p.requiredAdapterVendor = VendorId.eAny ∨ p.requiredAdapterVendor = VendorId.eNone ∨
          p.requiredAdapterVendor = a.vendor) ∧
        (p.requiredAdapterVendor = VendorId.eNVDA →
          p.requiredAdapterArchitecture ≤ a.architecture ∧
            p.requiredAdapterDriverVersion.le a.driverVersion)) := by
  rw [← Version.gt_eq_false_iff]
  unfold checkDetectedPlugin vendorRejected architectureRejected driverRejected
  by_cases hv : p.requiredAdapterVendor = VendorId.eNVDA
  · by_cases ha : a.vendor = VendorId.eNVDA
    · by_cases h1 : a.architecture < p.requiredAdapterArchitecture
      · simp [hv, ha, deref, Except.bind, Except.map, h1]
      · cases hg : p.requiredAdapterDriverVersion.gt a.driverVersion
        · simp [hv, ha, deref, Except.bind, Except.map, h1, hg]
          omega
        · simp [hv, ha, deref, Except.bind, Except.map, h1, hg]
    · have ha2 : ¬ VendorId.eNVDA = a.vendor := fun h => ha h.symm
      simp [hv, ha, ha2, deref, Except.bind, Except.map]
  · by_cases h1 : p.requiredAdapterVendor = VendorId.eAny
    · simp [hv, h1, deref, Except.bind, Except.map]
    · by_cases h2 : p.requiredAdapterVendor = VendorId.eNone
      · simp [hv, h2, deref, Except.bind, Except.map]
      · by_cases h3 : p.requiredAdapterVendor = a.vendor
        · simp [hv, h1, h2, h3, deref, Except.bind, Except.map]
          simp [← h3, hv, h1, h2]
        · simp [hv, h1, h2, h3, deref, Except.bind, Except.map]

/-- Case (a) of the compatibility contract: with the adapter lookup well defined, a plugin id
that no detected plugin carries is reported incompatible. -/
theorem CheckPluginCompat_absent (ctx : NVIGIContext) (id : PluginID) (adapterInfo : Option AdapterSpec)
    (hA : adapterInfoOf ctx.m_pluginInfo ctx.m_adapter = .ok adapterInfo)
    (habs : ∀ q ∈ ctx.m_pluginInfo.detectedPlugins, q.id ≠ id) :
    CheckPluginCompat ctx id = .ok false := by
  have hfind : ctx.m_pluginInfo.detectedPlugins.find? (fun q => decide (q.id = id)) = none := by
    rw [List.find?_eq_none]
    intro q hq
    simpa using habs q hq
  simp [CheckPluginCompat, hA, Except.bind, checkPluginLoop_eq_find, hfind]

/-- Case (b) with an adapter selected: a vendor-specific plugin is reported incompatible on
an adapter of another vendor. -/
theorem CheckPluginCompat_vendor_differs (ctx : NVIGIContext) (id : PluginID) (a : AdapterSpec)
    (p : PluginSpec)
    (hA : adapterInfoOf ctx.m_pluginInfo ctx.m_adapter = .ok (some a))
    (hP : ctx.m_pluginInfo.detectedPlugins.find? (fun q => decide (q.id = id)) = some p)
    (h1 : p.requiredAdapterVendor ≠ VendorId.eAny) (h2 : p.requiredAdapterVendor ≠ VendorId.eNone)
    (h3 : p.requiredAdapterVendor ≠ a.vendor) :
    CheckPluginCompat ctx id = .ok false := by
  simp [CheckPluginCompat, hA, Except.bind, checkPluginLoop_eq_find, hP, checkDetectedPlugin,
    vendorRejected, h1, h2, h3, deref]

/-- Case (b) with no adapter selected: the vendor test rejects the plugin, and the error
message then reads the vendor of the absent adapter. -/
theorem CheckPluginCompat_no_adapter (ctx : NVIGIContext) (id : PluginID) (p : PluginSpec)
    (hA : ctx.m_adapter < 0)
    (hP : ctx.m_pluginInfo.detectedPlugins.find? (fun q => decide (q.id = id)) = some p)
    (h1 : p.requiredAdapterVendor ≠ VendorId.eAny) (h2 : p.requiredAdapterVendor ≠ VendorId.eNone) :
    CheckPluginCompat ctx id = .error Fault.nullDeref := by
  have hneg : ¬ (0 ≤ ctx.m_adapter) := by omega
  simp [CheckPluginCompat, adapterInfoOf, hneg, Except.bind, checkPluginLoop_eq_find, hP,
    checkDetectedPlugin, vendorRejected, h1, h2, deref]

/-- C1, at the failing input: no adapter is selected (`m_adapter = -1`) and the detected
plugin `gpt_ggml_cuda` requires the NVIDIA vendor. The claim says the call returns false; the
code reads `adapterInfo->vendor` through the null adapter pointer while building the error
message, so the call does not return a value. -/
theorem C1_no_adapter_vendor_specific_faults :
    CheckPluginCompat
      { m_adapter := -1,
        m_pluginInfo := ⟨[], [⟨PluginID.gpt_ggml_cuda, VendorId.eNVDA, 0, ⟨0, 0⟩⟩]⟩ }
      PluginID.gpt_ggml_cuda = .error Fault.nullDeref := rfl

/-- C2 as stated fails: an adapter of vendor `eOther 4098` with architecture 1 and a plugin
that requires that same vendor with minimum architecture 5 and minimum driver 2.0. The call
returns true although the architecture and the driver version are below the minimum. -/
theorem C2_counterexample_non_nvidia_minimum_ignored :
    CheckPluginCompat
      { m_adapter := 0,
        m_pluginInfo := ⟨[⟨VendorId.eOther 4098, 1, ⟨1, 0⟩⟩],
          [⟨PluginID.other 7, VendorId.eOther 4098, 5, ⟨2, 0⟩⟩]⟩ }
      (PluginID.other 7) = .ok true ∧
    ¬ ((5 : Nat) ≤ 1) ∧ ¬ Version.le ⟨2, 0⟩ ⟨1, 0⟩ := by
  refine ⟨rfl, by decide, ?_⟩
  simp [Version.le]

/-- C2, amended: for the selected adapter `a` and the detected plugin `p` that decides the
call, `CheckPluginCompat` returns true exactly when the adapter's vendor equals the required
vendor (unless that is `eAny` or `eNone`) and, when the plugin requires the NVIDIA vendor, the
adapter's architecture and driver version are at least the required minimums. For a plugin of
any other required vendor the two minimums are not consulted. -/
theorem C2_compat_true_iff (ctx : NVIGIContext) (id : PluginID) (a : AdapterSpec) (p : PluginSpec)
    (hA : adapterInfoOf ctx.m_pluginInfo ctx.m_adapter = .ok (some a))
    (hP : ctx.m_pluginInfo.detectedPlugins.find? (fun q => decide (q.id = id)) = some p) :
    CheckPluginCompat ctx id = .ok true ↔
      ((p.requiredAdapterVendor = VendorId.eAny ∨ p.requiredAdapterVendor = VendorId.eNone ∨
          p.requiredAdapterVendor = a.vendor) ∧
        (p.requiredAdapterVendor = VendorId.eNVDA →
          p.requiredAdapterArchitecture ≤ a.architecture ∧
            p.requiredAdapterDriverVersion.le a.driverVersion)) := by
  rw [← checkDetectedPlugin_some]
  simp [CheckPluginCompat, hA, Except.bind, checkPluginLoop_eq_find, hP]

/-- C2, amended, at a concrete input: an NVIDIA adapter of architecture 30 with driver 560.0
and a plugin that requires NVIDIA, architecture 20 and driver 555.85. -/
theorem C2_compat_true_iff_witness :
    CheckPluginCompat
      { m_adapter := 0,
        m_pluginInfo := ⟨[⟨VendorId.eNVDA, 30, ⟨560, 0⟩⟩],
          [⟨PluginID.gpt_ggml_cuda, VendorId.eNVDA, 20, ⟨555, 85⟩⟩]⟩ }
      PluginID.gpt_ggml_cuda = .ok true ↔
      ((VendorId.eNVDA = VendorId.eAny ∨ VendorId.eNVDA = VendorId.eNone ∨
          VendorId.eNVDA = VendorId.eNVDA) ∧
        (VendorId.eNVDA = VendorId.eNVDA →
          20 ≤ 30 ∧ Version.le ⟨555, 85⟩ ⟨560, 0⟩)) :=
  C2_compat_true_iff
    { m_adapter := 0,
      m_pluginInfo := ⟨[⟨VendorId.eNVDA, 30, ⟨560, 0⟩⟩],
        [⟨PluginID.gpt_ggml_cuda, VendorId.eNVDA, 20, ⟨555, 85⟩⟩]⟩ }
    PluginID.gpt_ggml_cuda ⟨VendorId.eNVDA, 30, ⟨560, 0⟩⟩
    ⟨PluginID.gpt_ggml_cuda, VendorId.eNVDA, 20, ⟨555, 85⟩⟩ rfl rfl

/-! ## Default selection -/

/-- Whether an entry is locally available, as a Boolean test. -/
theorem anyModelsAvailable_eq_true (models : List PluginModelInfo) :
    anyModelsAvailable models = true ↔
      ∃ m ∈ models, m.m_modelStatus = ModelStatus.AVAILABLE_LOCALLY := by
  induction models with
  | nil => simp [anyModelsAvailable]
  | cons m rest ih =>
    by_cases h : m.m_modelStatus = ModelStatus.AVAILABLE_LOCALLY
    · simp [anyModelsAvailable, h]
    · simp [anyModelsAvailable, h, ih]

theorem int32_of_inRange (x : Int) (h0 : 0 ≤ x) (h1 : x < 2 ^ 31) : int32 x = x := by
  unfold int32
  omega

theorem sizeT_of_nonneg (n : Nat) (h : n < 2 ^ 31) : sizeT (n : Int) = n := by
  unfold sizeT
  omega

theorem scanForLocal_eq (models : List PluginModelInfo) (i : Nat)
    (h : i + models.length < 2 ^ 31) :
    scanForLocal models (i : Int) =
      ((i + models.findIdx fun m => decide (m.m_modelStatus = ModelStatus.AVAILABLE_LOCALLY) : Nat) : Int) := by
  induction models generalizing i with
  | nil => simp [scanForLocal]
  | cons m rest ih =>
    by_cases hm : m.m_modelStatus = ModelStatus.AVAILABLE_LOCALLY
    · simp [scanForLocal, hm, List.findIdx_cons]
    · have hlen : (i + 1) + rest.length < 2 ^ 31 := by
        simp only [List.length_cons] at h
        omega
      have h32 : int32 ((i : Int) + 1) = ((i + 1 : Nat) : Int) := by
        rw [int32_of_inRange] <;> omega
      simp only [scanForLocal, hm, if_false, h32, ih (i + 1) hlen, List.findIdx_cons,
        decide_False, cond_false]
      omega


theorem defaultIndex_spec (models : List PluginModelInfo) (hlen : models.length < 2 ^ 31) :
    IsDefaultSelection models (defaultIndex models (-1)) := by
  have hscan := scanForLocal_eq models 0 (by simpa using hlen)
  simp only [Nat.cast_zero, zero_add] at hscan
  by_cases hany : anyModelsAvailable models = true
  · have hex := (anyModelsAvailable_eq_true models).1 hany
    have hex2 : ∃ x ∈ models,
        (fun m : PluginModelInfo => decide (m.m_modelStatus = ModelStatus.AVAILABLE_LOCALLY)) x = true := by
      obtain ⟨m, hm, hs⟩ := hex
      exact ⟨m, hm, by simpa using hs⟩
    have hlt := List.findIdx_lt_length_of_exists hex2
    have hidx : defaultIndex models (-1) =
        ((models.findIdx fun m => decide (m.m_modelStatus = ModelStatus.AVAILABLE_LOCALLY) : Nat) : Int) := by
      unfold defaultIndex
      rw [if_pos hany]
      simp only [hscan]
      rw [sizeT_of_nonneg _ (by omega)]
      rw [if_neg (by omega)]
    rw [hidx]
    refine ⟨?_, ?_, ?_, ?_⟩
    · constructor
      · intro h; omega
      · intro h
        obtain ⟨m, hm, hs⟩ := hex
        exact absurd hs (h m hm)
    · right; constructor <;> omega
    · intro m hm _
      have := List.findIdx_of_getElem?_eq_some (by simpa using hm)
      have hs : m.m_modelStatus = ModelStatus.AVAILABLE_LOCALLY := by simpa using this
      simp [hs]
    · intro j m hj hm
      have hj2 : j < models.findIdx fun m => decide (m.m_modelStatus = ModelStatus.AVAILABLE_LOCALLY) := by
        omega
      have hjl : j < models.length := by omega
      have hn := List.not_of_lt_findIdx hj2
      rw [List.get?_eq_getElem?, List.getElem?_eq_getElem hjl] at hm
      injection hm with hm
      subst hm
      simpa using hn
  · have hnone : ∀ m ∈ models, m.m_modelStatus ≠ ModelStatus.AVAILABLE_LOCALLY := by
      intro m hm hs
      exact hany ((anyModelsAvailable_eq_true models).2 ⟨m, hm, hs⟩)
    have hidx : defaultIndex models (-1) = -1 := by
      unfold defaultIndex
      rw [if_neg hany]
    rw [hidx]
    refine ⟨?_, ?_, ?_, ?_⟩
    · exact ⟨fun _ => hnone, fun _ => rfl⟩
    · left; rfl
    · intro m _ h; exact absurd rfl h
    · intro j m hj; omega



/-- C3: default selection after catalog population. Starting from the initial index -1, in
each domain the selected index is -1 exactly when no entry is `AVAILABLE_LOCALLY`, is -1 or
within the catalog's bounds, names an `AVAILABLE_LOCALLY` entry (never an
`AVAILABLE_MANUAL_DOWNLOAD` or `AVAILABLE_CLOUD` one), and no earlier entry is
`AVAILABLE_LOCALLY`. The catalogs are short enough for an `int32_t` index. -/
theorem C3_default_selection (ctx : NVIGIContext)
    (hgpt : ctx.m_gptPluginModels.length < 2 ^ 31) (hasr : ctx.m_asrPluginModels.length < 2 ^ 31)
    (hgi : ctx.m_gptIndex = -1) (hai : ctx.m_asrIndex = -1) :
    IsDefaultSelection ctx.m_gptPluginModels (selectDefaultGPT ctx).m_gptIndex ∧
    IsDefaultSelection ctx.m_asrPluginModels (selectDefaultASR ctx).m_asrIndex := by
  constructor
  · simp only [selectDefaultGPT, hgi]
    exact defaultIndex_spec _ hgpt
  · simp only [selectDefaultASR, hai]
    exact defaultIndex_spec _ hasr


/-- C3 at a concrete catalog: text generation offers a manual-download entry, a cloud entry
and then a local entry, speech recognition offers only a manual-download entry. -/
theorem C3_default_selection_witness :
    IsDefaultSelection
      [{ m_featureID := PluginID.gpt_ggml_cuda, m_modelStatus := ModelStatus.AVAILABLE_MANUAL_DOWNLOAD },
       { m_featureID := PluginID.gpt_cloud_rest, m_modelStatus := ModelStatus.AVAILABLE_CLOUD },
       { m_featureID := PluginID.gpt_ggml_cuda, m_modelStatus := ModelStatus.AVAILABLE_LOCALLY }]
      2 ∧
    IsDefaultSelection
      [{ m_featureID := PluginID.asr_ggml_cuda, m_modelStatus := ModelStatus.AVAILABLE_MANUAL_DOWNLOAD }]
      (-1) :=
  C3_default_selection
    { m_gptPluginModels :=
        [{ m_featureID := PluginID.gpt_ggml_cuda, m_modelStatus := ModelStatus.AVAILABLE_MANUAL_DOWNLOAD },
         { m_featureID := PluginID.gpt_cloud_rest, m_modelStatus := ModelStatus.AVAILABLE_CLOUD },
         { m_featureID := PluginID.gpt_ggml_cuda, m_modelStatus := ModelStatus.AVAILABLE_LOCALLY }],
      m_asrPluginModels :=
        [{ m_featureID := PluginID.asr_ggml_cuda, m_modelStatus := ModelStatus.AVAILABLE_MANUAL_DOWNLOAD }] }
    (by decide) (by decide) rfl rfl

/-! ## Parameter-chain teardown -/

theorem Heap.IsChain_unique (h : Heap) (as : List Nat) :
    ∀ (p : Option Nat) (bs : List Nat), h.IsChain p as → h.IsChain p bs → as = bs := by
  induction as with
  | nil =>
    intro p bs h1 h2
    cases p with
    | none => cases bs with
      | nil => rfl
      | cons b bs => simp [Heap.IsChain] at h2
    | some p => simp [Heap.IsChain] at h1
  | cons a as ih =>
    intro p bs h1 h2
    cases p with
    | none => simp [Heap.IsChain] at h1
    | some p =>
      cases bs with
      | nil => simp [Heap.IsChain] at h2
      | cons b bs =>
        simp only [Heap.IsChain] at h1 h2
        obtain ⟨hpa, blk, hblk, hrest⟩ := h1
        obtain ⟨hpb, blk2, hblk2, hrest2⟩ := h2
        subst hpa
        subst hpb
        rw [hblk] at hblk2
        injection hblk2 with hb
        subst hb
        rw [ih _ _ hrest hrest2]

theorem Heap.IsChain_suffix (h : Heap) (a : Nat) (as : List Nat) :
    ∀ (p : Option Nat), h.IsChain p as → a ∈ as →
      ∃ bs, h.IsChain (some a) bs ∧ bs.length ≤ as.length := by
  induction as with
  | nil => intro p _ hm; simp at hm
  | cons x as ih =>
    intro p h1 hm
    cases p with
    | none => simp [Heap.IsChain] at h1
    | some p =>
      have h1c := h1
      simp only [Heap.IsChain] at h1
      obtain ⟨hpx, blk, hblk, hrest⟩ := h1
      subst hpx
      rcases List.mem_cons.1 hm with hax | hin
      · subst hax
        exact ⟨a :: as, h1c, le_refl _⟩
      · obtain ⟨bs, hbs, hlen⟩ := ih _ hrest hin
        exact ⟨bs, hbs, by simp only [List.length_cons]; omega⟩

theorem Heap.IsChain_head_not_mem (h : Heap) (a : Nat) (as : List Nat)
    (hc : h.IsChain (some a) (a :: as)) : a ∉ as := by
  intro hm
  have hc2 := hc
  simp only [Heap.IsChain] at hc2
  obtain ⟨_, blk, _, hrest⟩ := hc2
  obtain ⟨bs, hbs, hlen⟩ := Heap.IsChain_suffix h a as _ hrest hm
  have := Heap.IsChain_unique h _ _ _ hc hbs
  subst this
  simp at hlen

theorem Heap.IsChain_nodup (h : Heap) (as : List Nat) :
    ∀ (p : Option Nat), h.IsChain p as → as.Nodup := by
  induction as with
  | nil => intro _ _; exact List.nodup_nil
  | cons a as ih =>
    intro p hc
    cases p with
    | none => simp [Heap.IsChain] at hc
    | some p =>
      have hc2 := hc
      simp only [Heap.IsChain] at hc2
      obtain ⟨hpa, blk, _, hrest⟩ := hc2
      subst hpa
      exact List.nodup_cons.2 ⟨Heap.IsChain_head_not_mem h p as hc, ih _ hrest⟩

theorem Heap.IsChain_congr (h h1 : Heap) (as : List Nat) :
    ∀ (p : Option Nat), (∀ q ∈ as, h1.cells q = h.cells q) → h.IsChain p as → h1.IsChain p as := by
  induction as with
  | nil =>
    intro p _ hc
    cases p with
    | none => trivial
    | some p => simp [Heap.IsChain] at hc
  | cons a as ih =>
    intro p hq hc
    cases p with
    | none => simp [Heap.IsChain] at hc
    | some p =>
      simp only [Heap.IsChain] at hc ⊢
      obtain ⟨hpa, blk, hblk, hrest⟩ := hc
      refine ⟨hpa, blk, ?_, ih _ (fun q hqm => hq q (List.mem_cons_of_mem _ hqm)) hrest⟩
      rw [hq a (List.mem_cons_self _ _)]
      exact hblk

theorem freeLoop_chain (as : List Nat) :
    ∀ (h : Heap) (p : Option Nat) (fuel : Nat), h.IsChain p as → as.length ≤ fuel →
      ∃ h1, freeLoop h fuel p = .ok h1 ∧
        h1.events = h.events ++ teardownEvents as ∧
        (∀ q, h1.cells q = if q ∈ as then none else h.cells q) ∧
        h1.brk = h.brk := by
  induction as with
  | nil =>
    intro h p fuel hc _
    cases p with
    | none => exact ⟨h, by cases fuel <;> rfl, by simp [teardownEvents], by simp, rfl⟩
    | some p => simp [Heap.IsChain] at hc
  | cons a as ih =>
    intro h p fuel hc hf
    cases p with
    | none => simp [Heap.IsChain] at hc
    | some p =>
      have hnm : p = a := by simp only [Heap.IsChain] at hc; exact hc.1
      subst hnm
      have hnot := Heap.IsChain_head_not_mem h p as hc
      simp only [Heap.IsChain] at hc
      obtain ⟨_, blk, hblk, hrest⟩ := hc
      cases fuel with
      | zero => simp at hf
      | succ fuel =>
        have hf2 : as.length ≤ fuel := by simp only [List.length_cons] at hf; omega
        let h0 : Heap := { h with events := h.events ++ [MemEvent.readNext p] }
        let hd : Heap := { h0 with cells := fun q => if q = p then none else h0.cells q,
                                   events := h0.events ++ [MemEvent.release p] }
        have hrest2 : hd.IsChain blk.next as := by
          apply Heap.IsChain_congr h hd as _ _ hrest
          intro q hq
          have : q ≠ p := fun e => hnot (e ▸ hq)
          simp [hd, h0, this]
        obtain ⟨h1, hrun, hev, hcells, hbrk⟩ := ih hd blk.next fuel hrest2 hf2
        refine ⟨h1, ?_, ?_, ?_, ?_⟩
        · simp only [freeLoop, Heap.read, hblk, Except.bind, Heap.delete]
          exact hrun
        · rw [hev]
          simp [hd, h0, teardownEvents]
        · intro q
          rw [hcells q]
          by_cases hqp : q = p
          · subst hqp
            simp [hd, hnot]
          · by_cases hqa : q ∈ as
            · simp [hqa]
            · simp [hqa, hqp, hd, h0]
        · rw [hbrk]


/-- C9: `FreeCreationParams` on a null chain releases nothing and leaves the free store as it
was; on a finite chain whose blocks are `as`, head first, with at least one iteration of fuel
per block, it completes, and its memory events are exactly, for each block of `as` in chain
order, the read of that block's `next` followed by that block's release: every block of the
chain is released, once (`as` has no repetition), no other block is touched, and no released
block is read. -/
theorem C9_FreeCreationParams_releases_chain (h : Heap) (params : Option Nat) (as : List Nat)
    (fuel : Nat) (hc : h.IsChain params as) (hf : as.length ≤ fuel) :
    ∃ h1, FreeCreationParams h fuel params = .ok h1 ∧
      h1.events = h.events ++ teardownEvents as ∧
      (∀ q, h1.cells q = if q ∈ as then none else h.cells q) ∧
      h1.brk = h.brk ∧ as.Nodup ∧ (params = none → h1 = h) := by
  cases params with
  | none =>
    cases as with
    | nil => exact ⟨h, rfl, by simp [teardownEvents], by simp, rfl, List.nodup_nil, fun _ => rfl⟩
    | cons a as => simp [Heap.IsChain] at hc
  | some p =>
    obtain ⟨h1, hrun, hev, hcells, hbrk⟩ := freeLoop_chain as h (some p) fuel hc hf
    exact ⟨h1, hrun, hev, hcells, hbrk, Heap.IsChain_nodup h as _ hc, fun e => by cases e⟩

/-- C9 at a concrete free store: the chain 1 -> 2 -> 0 -> null of a text-generation build with
a hardware-context block, torn down with three iterations of fuel. -/
theorem C9_FreeCreationParams_releases_chain_witness :
    ∃ h1, FreeCreationParams
        { cells := fun q =>
            if q = 0 then some ⟨none, BlockData.CommonCreationParameters 1 8192 "m" none⟩
            else if q = 1 then some ⟨some 2, BlockData.GPTCreationParameters (-1) 200 4096⟩
            else if q = 2 then some ⟨some 0, BlockData.D3D12Parameters 7 8⟩
            else none,
          brk := 3 } 3 (some 1) = .ok h1 ∧
      h1.events = [] ++ teardownEvents [1, 2, 0] ∧
      (∀ q, h1.cells q = if q ∈ [1, 2, 0] then none else
        (if q = 0 then some ⟨none, BlockData.CommonCreationParameters 1 8192 "m" none⟩
          else if q = 1 then some ⟨some 2, BlockData.GPTCreationParameters (-1) 200 4096⟩
          else if q = 2 then some ⟨some 0, BlockData.D3D12Parameters 7 8⟩
          else none)) ∧
      h1.brk = 3 ∧ [1, 2, 0].Nodup ∧ ((some 1 : Option Nat) = none → h1 =
        { cells := fun q =>
            if q = 0 then some ⟨none, BlockData.CommonCreationParameters 1 8192 "m" none⟩
            else if q = 1 then some ⟨some 2, BlockData.GPTCreationParameters (-1) 200 4096⟩
            else if q = 2 then some ⟨some 0, BlockData.D3D12Parameters 7 8⟩
            else none,
          brk := 3 }) :=
  C9_FreeCreationParams_releases_chain _ (some 1) [1, 2, 0] 3
    ⟨rfl, _, rfl, rfl, _, rfl, rfl, _, rfl, trivial⟩ (by decide)

/-! ## The parameter chain builders -/

theorem cloudKey_eq_none_iff (rt : Runtime) (url : String) :
    cloudKey rt url = none ↔ credentialMissing rt url := by
  unfold cloudKey credentialMissing
  cases h1 : strContains url "integrate.api.nvidia.com" <;>
    cases h2 : strContains url "openai.com" <;> simp

theorem cloudKey_eq_some (rt : Runtime) (url : String) (key : Option String)
    (h : cloudKey rt url = some key) : key = providerToken rt url := by
  unfold cloudKey at h
  unfold providerToken
  cases h1 : strContains url "integrate.api.nvidia.com" <;>
    cases h2 : strContains url "openai.com" <;> simp [h1, h2] at h ⊢
  · exact h.symm
  · obtain ⟨a, ha, hk⟩ := h
    rw [ha, ← hk]
  · obtain ⟨a, ha, hk⟩ := h
    rw [ha, ← hk]
  · obtain ⟨a, ha, hk⟩ := h
    rw [ha, ← hk]

/-- A generic text-generation build succeeds; its chain is the head block, the hardware
block when present, and the common block with the model identifier unbound. -/
theorem GetGPTCreationParams_generic (rt : Runtime) (ctx : NVIGIContext) (mr : Option String) :
    ∃ h1, GetGPTCreationParams rt ctx true mr = .ok (h1, some (ctx.heap.brk + 1)) ∧
      h1.contents (some (ctx.heap.brk + 1)) = .ok
        ([BlockData.GPTCreationParameters (-1) 200 4096] ++ hardwareBlocks ctx ++
          [BlockData.CommonCreationParameters 1 8192 (resolveModelRoot ctx none mr) none]) ∧
      h1.events = ctx.heap.events ∧
      h1.IsChain (some (ctx.heap.brk + 1))
        (buildAddrs ctx.heap.brk (hardwareBlocks ctx).length 0) ∧
      h1.brk = ctx.heap.brk + 2 + (hardwareBlocks ctx).length + 0 := by
  cases hd : ctx.m_d3d12Params <;>
  simp [Nat.add_assoc, GetGPTCreationParams, chainD3D12, hd, Except.bind, Heap.new, Heap.chain, Heap.lastOf,
    Heap.read, Heap.write, Heap.toList, Except.map, Heap.contents, hardwareBlocks, Heap.IsChain, buildAddrs, List.range_succ]

/-- A text-generation build for a selected entry of a backend other than onnxgenai and the
cloud backend. -/
theorem GetGPTCreationParams_plain (rt : Runtime) (ctx : NVIGIContext) (mr : Option String)
    (info : PluginModelInfo) (hsel : GetGPTPluginModel ctx ctx.m_gptIndex = .ok (some info))
    (h1 : info.m_featureID ≠ PluginID.gpt_onnxgenai_dml)
    (h2 : info.m_featureID ≠ PluginID.gpt_cloud_rest) :
    ∃ h1, GetGPTCreationParams rt ctx false mr = .ok (h1, some (ctx.heap.brk + 1)) ∧
      h1.contents (some (ctx.heap.brk + 1)) = .ok
        ([BlockData.GPTCreationParameters (-1) 200 4096] ++ hardwareBlocks ctx ++
          [BlockData.CommonCreationParameters 1 8192 (resolveModelRoot ctx (some info) mr)
            (some info.m_guid)]) ∧
      h1.events = ctx.heap.events ∧
      h1.IsChain (some (ctx.heap.brk + 1))
        (buildAddrs ctx.heap.brk (hardwareBlocks ctx).length 0) ∧
      h1.brk = ctx.heap.brk + 2 + (hardwareBlocks ctx).length + 0 := by
  cases hd : ctx.m_d3d12Params <;>
  simp [Nat.add_assoc, GetGPTCreationParams, hsel, chainD3D12, hd, Except.bind, Heap.new, Heap.chain, Heap.lastOf,
    Heap.read, Heap.write, Heap.toList, Except.map, Heap.contents, hardwareBlocks, deref,
    gptBackendBlocks, h1, h2, Heap.IsChain, buildAddrs, List.range_succ]

/-- A text-generation build for a selected onnxgenai entry. -/
theorem GetGPTCreationParams_onnxgenai (rt : Runtime) (ctx : NVIGIContext) (mr : Option String)
    (info : PluginModelInfo) (hsel : GetGPTPluginModel ctx ctx.m_gptIndex = .ok (some info))
    (h1 : info.m_featureID = PluginID.gpt_onnxgenai_dml) :
    ∃ h1, GetGPTCreationParams rt ctx false mr = .ok (h1, some (ctx.heap.brk + 1)) ∧
      h1.contents (some (ctx.heap.brk + 1)) = .ok
        ([BlockData.GPTCreationParameters (-1) 200 4096] ++ hardwareBlocks ctx ++
          [BlockData.CommonCreationParameters 1 8192 (resolveModelRoot ctx (some info) mr)
            (some info.m_guid),
           BlockData.GPTOnnxgenaiCreationParameters false false]) ∧
      h1.events = ctx.heap.events ∧
      h1.IsChain (some (ctx.heap.brk + 1))
        (buildAddrs ctx.heap.brk (hardwareBlocks ctx).length 1) ∧
      h1.brk = ctx.heap.brk + 2 + (hardwareBlocks ctx).length + 1 := by
  cases hd : ctx.m_d3d12Params <;>
  simp [Nat.add_assoc, GetGPTCreationParams, hsel, chainD3D12, hd, Except.bind, Heap.new, Heap.chain, Heap.lastOf,
    Heap.read, Heap.write, Heap.toList, Except.map, Heap.contents, hardwareBlocks, deref,
    gptBackendBlocks, h1, Heap.IsChain, buildAddrs, List.range_succ]

/-- A text-generation build for a selected cloud entry whose token resolves. -/
theorem GetGPTCreationParams_cloud (rt : Runtime) (ctx : NVIGIContext) (mr : Option String)
    (info : PluginModelInfo) (key : Option String)
    (hsel : GetGPTPluginModel ctx ctx.m_gptIndex = .ok (some info))
    (h1 : info.m_featureID = PluginID.gpt_cloud_rest) (hk : cloudKey rt info.m_url = some key) :
    ∃ h1, GetGPTCreationParams rt ctx false mr = .ok (h1, some (ctx.heap.brk + 1)) ∧
      h1.contents (some (ctx.heap.brk + 1)) = .ok
        ([BlockData.GPTCreationParameters (-1) 200 4096] ++ hardwareBlocks ctx ++
          [BlockData.CommonCreationParameters 1 8192 (resolveModelRoot ctx (some info) mr)
            (some info.m_guid),
           BlockData.RESTParameters info.m_url key true]) ∧
      h1.events = ctx.heap.events ∧
      h1.IsChain (some (ctx.heap.brk + 1))
        (buildAddrs ctx.heap.brk (hardwareBlocks ctx).length 1) ∧
      h1.brk = ctx.heap.brk + 2 + (hardwareBlocks ctx).length + 1 := by
  cases hd : ctx.m_d3d12Params <;>
  simp [Nat.add_assoc, GetGPTCreationParams, hsel, chainD3D12, hd, Except.bind, Heap.new, Heap.chain, Heap.lastOf,
    Heap.read, Heap.write, Heap.toList, Except.map, Heap.contents, hardwareBlocks, deref,
    gptBackendBlocks, h1, hk, Heap.IsChain, buildAddrs, List.range_succ]

/-- A text-generation build for a selected cloud entry whose credential is missing returns
null after releasing every block it had allocated. -/
theorem GetGPTCreationParams_cloud_missing (rt : Runtime) (ctx : NVIGIContext) (mr : Option String)
    (info : PluginModelInfo)
    (hsel : GetGPTPluginModel ctx ctx.m_gptIndex = .ok (some info))
    (h1 : info.m_featureID = PluginID.gpt_cloud_rest) (hk : cloudKey rt info.m_url = none) :
    ∃ h1, GetGPTCreationParams rt ctx false mr = .ok (h1, none) ∧
      h1.brk = ctx.heap.brk + 2 + (hardwareBlocks ctx).length ∧
      (∀ q, h1.cells q = if ctx.heap.brk ≤ q ∧ q < h1.brk then none else ctx.heap.cells q) := by
  cases hd : ctx.m_d3d12Params <;>
  simp [Nat.add_assoc, GetGPTCreationParams, hsel, chainD3D12, hd, Except.bind, Heap.new, Heap.chain, Heap.lastOf,
    Heap.read, Heap.write, Heap.toList, Except.map, Heap.contents, hardwareBlocks, deref,
    gptBackendBlocks, h1, hk, FreeCreationParams, freeLoop, Heap.delete] <;>
  intro q <;> split_ifs <;> first | rfl | (exfalso; omega)


/-- A generic speech-recognition build succeeds with the model identifier unbound. -/
theorem GetASRCreationParams_generic (ctx : NVIGIContext) (mr : Option String) :
    ∃ h1, GetASRCreationParams ctx true mr = .ok (h1, some (ctx.heap.brk + 1)) ∧
      h1.contents (some (ctx.heap.brk + 1)) = .ok
        ([BlockData.ASRWhisperCreationParameters] ++ hardwareBlocks ctx ++
          [BlockData.CommonCreationParameters 4 3072 (resolveModelRoot ctx none mr) none]) ∧
      h1.events = ctx.heap.events ∧
      h1.IsChain (some (ctx.heap.brk + 1))
        (buildAddrs ctx.heap.brk (hardwareBlocks ctx).length 0) ∧
      h1.brk = ctx.heap.brk + 2 + (hardwareBlocks ctx).length + 0 := by
  cases hd : ctx.m_d3d12Params <;>
  simp [Nat.add_assoc, GetASRCreationParams, chainD3D12, hd, Except.bind, Heap.new, Heap.chain,
    Heap.lastOf, Heap.read, Heap.write, Heap.toList, Except.map, Heap.contents, hardwareBlocks, Heap.IsChain, buildAddrs, List.range_succ]

/-- A speech-recognition build for a selected entry succeeds with that entry's identifier
bound. -/
theorem GetASRCreationParams_selected (ctx : NVIGIContext) (mr : Option String)
    (info : PluginModelInfo) (hsel : GetASRPluginModel ctx ctx.m_asrIndex = .ok (some info)) :
    ∃ h1, GetASRCreationParams ctx false mr = .ok (h1, some (ctx.heap.brk + 1)) ∧
      h1.contents (some (ctx.heap.brk + 1)) = .ok
        ([BlockData.ASRWhisperCreationParameters] ++ hardwareBlocks ctx ++
          [BlockData.CommonCreationParameters 4 3072 (resolveModelRoot ctx (some info) mr)
            (some info.m_guid)]) ∧
      h1.events = ctx.heap.events ∧
      h1.IsChain (some (ctx.heap.brk + 1))
        (buildAddrs ctx.heap.brk (hardwareBlocks ctx).length 0) ∧
      h1.brk = ctx.heap.brk + 2 + (hardwareBlocks ctx).length + 0 := by
  cases hd : ctx.m_d3d12Params <;>
  simp [Nat.add_assoc, GetASRCreationParams, hsel, chainD3D12, hd, Except.bind, Heap.new,
    Heap.chain, Heap.lastOf, Heap.read, Heap.write, Heap.toList, Except.map, Heap.contents,
    hardwareBlocks, deref, Heap.IsChain, buildAddrs, List.range_succ]

/-- A non-generic build with no selection returns null and leaves the free store alone. -/
theorem GetGPTCreationParams_unselected (rt : Runtime) (ctx : NVIGIContext) (mr : Option String)
    (hsel : GetGPTPluginModel ctx ctx.m_gptIndex = .ok none) :
    GetGPTCreationParams rt ctx false mr = .ok (ctx.heap, none) := by
  simp [GetGPTCreationParams, hsel, Except.bind]

/-- A non-generic speech-recognition build with no selection returns null. -/
theorem GetASRCreationParams_unselected (ctx : NVIGIContext) (mr : Option String)
    (hsel : GetASRPluginModel ctx ctx.m_asrIndex = .ok none) :
    GetASRCreationParams ctx false mr = .ok (ctx.heap, none) := by
  simp [GetASRCreationParams, hsel, Except.bind]

/-- A non-generic build over an out-of-range selection is a fault. -/
theorem GetGPTCreationParams_fault (rt : Runtime) (ctx : NVIGIContext) (mr : Option String)
    (e : Fault) (hsel : GetGPTPluginModel ctx ctx.m_gptIndex = .error e) :
    GetGPTCreationParams rt ctx false mr = .error e := by
  simp [GetGPTCreationParams, hsel, Except.bind]

theorem GetASRCreationParams_fault (ctx : NVIGIContext) (mr : Option String)
    (e : Fault) (hsel : GetASRPluginModel ctx ctx.m_asrIndex = .error e) :
    GetASRCreationParams ctx false mr = .error e := by
  simp [GetASRCreationParams, hsel, Except.bind]

theorem commonRoots_append (a b : List BlockData) :
    commonRoots (a ++ b) = commonRoots a ++ commonRoots b := by
  simp [commonRoots, List.filterMap_append]

theorem commonRoots_hardwareBlocks (ctx : NVIGIContext) : commonRoots (hardwareBlocks ctx) = [] := by
  unfold hardwareBlocks
  cases ctx.m_d3d12Params <;> rfl


/-- C7: cloud authentication gating. For a non-generic text-generation build whose selected
entry belongs to the cloud backend, the build completes; its result is null exactly when the
entry's URL matches a known provider whose environment variable is unset; otherwise the chain
is the head block, the hardware block when present, the common block, and a REST block that
carries the entry's URL and, as token, the matched provider's environment value (no token when
the URL matches no known provider). -/
theorem C7_cloud_auth_gating (rt : Runtime) (ctx : NVIGIContext) (modelRoot : Option String)
    (info : PluginModelInfo)
    (hsel : GetGPTPluginModel ctx ctx.m_gptIndex = .ok (some info))
    (hcloud : info.m_featureID = PluginID.gpt_cloud_rest) :
    ∃ h1 r, GetGPTCreationParams rt ctx false modelRoot = .ok (h1, r) ∧
      (r = none ↔ credentialMissing rt info.m_url) ∧
      (r ≠ none → h1.contents r = .ok
        ([BlockData.GPTCreationParameters (-1) 200 4096] ++ hardwareBlocks ctx ++
          [BlockData.CommonCreationParameters 1 8192 (resolveModelRoot ctx (some info) modelRoot)
            (some info.m_guid),
           BlockData.RESTParameters info.m_url (providerToken rt info.m_url) true])) := by
  cases hk : cloudKey rt info.m_url with
  | none =>
    obtain ⟨h1, hrun, _, _⟩ := GetGPTCreationParams_cloud_missing rt ctx modelRoot info hsel hcloud hk
    refine ⟨h1, none, hrun, ?_, fun h => absurd rfl h⟩
    exact ⟨fun _ => (cloudKey_eq_none_iff rt info.m_url).1 hk, fun _ => rfl⟩
  | some key =>
    obtain ⟨h1, hrun, hcont, _⟩ := GetGPTCreationParams_cloud rt ctx modelRoot info key hsel hcloud hk
    refine ⟨h1, some (ctx.heap.brk + 1), hrun, ?_, fun _ => ?_⟩
    · constructor
      · intro h; cases h
      · intro h
        rw [(cloudKey_eq_none_iff rt info.m_url).2 h] at hk
        cases hk
    · rw [hcont, cloudKey_eq_some rt info.m_url key hk]

/-- C7 at a concrete input: the NVIDIA cloud entry is selected and `NVIDIA_INTEGRATE_KEY` is
unset, so the build returns null. -/
theorem C7_cloud_auth_gating_witness :
    ∃ h1 r, GetGPTCreationParams sampleRuntime { sampleContext with m_gptIndex := 1 } false none =
        .ok (h1, r) ∧
      (r = none ↔ credentialMissing sampleRuntime sampleCloudModel.m_url) ∧
      (r ≠ none → h1.contents r = .ok
        ([BlockData.GPTCreationParameters (-1) 200 4096] ++
          hardwareBlocks { sampleContext with m_gptIndex := 1 } ++
          [BlockData.CommonCreationParameters 1 8192
            (resolveModelRoot { sampleContext with m_gptIndex := 1 } (some sampleCloudModel) none)
            (some sampleCloudModel.m_guid),
           BlockData.RESTParameters sampleCloudModel.m_url
            (providerToken sampleRuntime sampleCloudModel.m_url) true])) :=
  C7_cloud_auth_gating sampleRuntime { sampleContext with m_gptIndex := 1 } none sampleCloudModel
    rfl rfl

/-- The model root of a successful text-generation build. -/
theorem GetGPTCreationParams_root (rt : Runtime) (ctx : NVIGIContext) (genericInit : Bool)
    (modelRoot : Option String) (h1 : Heap) (p : Nat)
    (hb : GetGPTCreationParams rt ctx genericInit modelRoot = .ok (h1, some p)) :
    ∃ blocks root, h1.contents (some p) = .ok blocks ∧ commonRoots blocks = [root] ∧
      IsResolvedRoot ctx ctx.m_gptPluginModels ctx.m_gptIndex genericInit modelRoot root := by
  cases genericInit with
  | true =>
    obtain ⟨h2, hrun, hcont, _⟩ := GetGPTCreationParams_generic rt ctx modelRoot
    rw [hrun] at hb
    injection hb with hb
    injection hb with hh hp
    injection hp with hp
    subst hh; subst hp
    refine ⟨_, resolveModelRoot ctx none modelRoot, hcont, ?_, ?_⟩
    · exact (by rw [commonRoots_append, commonRoots_append, commonRoots_hardwareBlocks]; rfl)
    · refine ⟨?_, (fun _ h => by cases h), ?_⟩
      · intro r hr; subst hr; rfl
      · intro hr _; subst hr; rfl
  | false =>
    cases hsel : GetGPTPluginModel ctx ctx.m_gptIndex with
    | error e => rw [GetGPTCreationParams_fault rt ctx modelRoot e hsel] at hb; cases hb
    | ok oinfo =>
      cases oinfo with
      | none => rw [GetGPTCreationParams_unselected rt ctx modelRoot hsel] at hb; cases hb
      | some info =>
        have hroot : IsResolvedRoot ctx ctx.m_gptPluginModels ctx.m_gptIndex false modelRoot
            (resolveModelRoot ctx (some info) modelRoot) := by
          refine ⟨?_, ?_, fun _ h => by cases h⟩
          · intro r hr; subst hr; rfl
          · intro hr _; subst hr; exact ⟨info, hsel, rfl⟩
        by_cases ho : info.m_featureID = PluginID.gpt_onnxgenai_dml
        · obtain ⟨h2, hrun, hcont, _⟩ := GetGPTCreationParams_onnxgenai rt ctx modelRoot info hsel ho
          rw [hrun] at hb
          injection hb with hb
          injection hb with hh hp
          injection hp with hp
          subst hh; subst hp
          exact ⟨_, _, hcont,
            (by rw [commonRoots_append, commonRoots_append, commonRoots_hardwareBlocks]; rfl), hroot⟩
        · by_cases hc : info.m_featureID = PluginID.gpt_cloud_rest
          · cases hk : cloudKey rt info.m_url with
            | none =>
              obtain ⟨h2, hrun, _, _⟩ :=
                GetGPTCreationParams_cloud_missing rt ctx modelRoot info hsel hc hk
              rw [hrun] at hb
              injection hb with hb
              injection hb with hh hp
              cases hp
            | some key =>
              obtain ⟨h2, hrun, hcont, _⟩ :=
                GetGPTCreationParams_cloud rt ctx modelRoot info key hsel hc hk
              rw [hrun] at hb
              injection hb with hb
              injection hb with hh hp
              injection hp with hp
              subst hh; subst hp
              exact ⟨_, _, hcont,
                (by rw [commonRoots_append, commonRoots_append, commonRoots_hardwareBlocks]; rfl), hroot⟩
          · obtain ⟨h2, hrun, hcont, _⟩ := GetGPTCreationParams_plain rt ctx modelRoot info hsel ho hc
            rw [hrun] at hb
            injection hb with hb
            injection hb with hh hp
            injection hp with hp
            subst hh; subst hp
            exact ⟨_, _, hcont,
              (by rw [commonRoots_append, commonRoots_append, commonRoots_hardwareBlocks]; rfl), hroot⟩

/-- The model root of a successful speech-recognition build. -/
theorem GetASRCreationParams_root (ctx : NVIGIContext) (genericInit : Bool)
    (modelRoot : Option String) (h1 : Heap) (p : Nat)
    (hb : GetASRCreationParams ctx genericInit modelRoot = .ok (h1, some p)) :
    ∃ blocks root, h1.contents (some p) = .ok blocks ∧ commonRoots blocks = [root] ∧
      IsResolvedRoot ctx ctx.m_asrPluginModels ctx.m_asrIndex genericInit modelRoot root := by
  cases genericInit with
  | true =>
    obtain ⟨h2, hrun, hcont, _⟩ := GetASRCreationParams_generic ctx modelRoot
    rw [hrun] at hb
    injection hb with hb
    injection hb with hh hp
    injection hp with hp
    subst hh; subst hp
    refine ⟨_, resolveModelRoot ctx none modelRoot, hcont, ?_, ?_⟩
    · exact (by rw [commonRoots_append, commonRoots_append, commonRoots_hardwareBlocks]; rfl)
    · refine ⟨?_, (fun _ h => by cases h), ?_⟩
      · intro r hr; subst hr; rfl
      · intro hr _; subst hr; rfl
  | false =>
    cases hsel : GetASRPluginModel ctx ctx.m_asrIndex with
    | error e => rw [GetASRCreationParams_fault ctx modelRoot e hsel] at hb; cases hb
    | ok oinfo =>
      cases oinfo with
      | none => rw [GetASRCreationParams_unselected ctx modelRoot hsel] at hb; cases hb
      | some info =>
        obtain ⟨h2, hrun, hcont, _⟩ := GetASRCreationParams_selected ctx modelRoot info hsel
        rw [hrun] at hb
        injection hb with hb
        injection hb with hh hp
        injection hp with hp
        subst hh; subst hp
        refine ⟨_, resolveModelRoot ctx (some info) modelRoot, hcont,
          (by rw [commonRoots_append, commonRoots_append, commonRoots_hardwareBlocks]; rfl), ?_, ?_,
          fun _ h => by cases h⟩
        · intro r hr; subst hr; rfl
        · intro hr _; subst hr; exact ⟨info, hsel, rfl⟩

/-- C8: model-root resolution. Every successful build of `GetGPTCreationParams` and of
`GetASRCreationParams` yields a chain with exactly one common block, whose model root is the
explicit `modelRoot` argument when one is passed; otherwise the selected model's recorded root
when the build is not generic; otherwise `m_shippedModelsPath`. -/
theorem C8_model_root_priority (rt : Runtime) (ctx : NVIGIContext) (genericInit : Bool)
    (modelRoot : Option String) :
    (∀ h1 p, GetGPTCreationParams rt ctx genericInit modelRoot = .ok (h1, some p) →
      ∃ blocks root, h1.contents (some p) = .ok blocks ∧ commonRoots blocks = [root] ∧
        IsResolvedRoot ctx ctx.m_gptPluginModels ctx.m_gptIndex genericInit modelRoot root) ∧
    (∀ h1 p, GetASRCreationParams ctx genericInit modelRoot = .ok (h1, some p) →
      ∃ blocks root, h1.contents (some p) = .ok blocks ∧ commonRoots blocks = [root] ∧
        IsResolvedRoot ctx ctx.m_asrPluginModels ctx.m_asrIndex genericInit modelRoot root) :=
  ⟨GetGPTCreationParams_root rt ctx genericInit modelRoot,
    GetASRCreationParams_root ctx genericInit modelRoot⟩

/-- C8 at a concrete input: non-generic builds for the selected local entries with no explicit
root succeed, the first with a common block in the chain. -/
theorem C8_model_root_priority_witness :
    GetGPTCreationParams sampleRuntime sampleContext false none =
        .ok (heapOf (GetGPTCreationParams sampleRuntime sampleContext false none), some 1) ∧
    ∃ blocks root,
      (heapOf (GetGPTCreationParams sampleRuntime sampleContext false none)).contents (some 1) =
        .ok blocks ∧ commonRoots blocks = [root] ∧
      IsResolvedRoot sampleContext sampleContext.m_gptPluginModels sampleContext.m_gptIndex false
        none root :=
  ⟨rfl, (C8_model_root_priority sampleRuntime sampleContext false none).1 _ 1 rfl⟩

/-! ## Instance lifecycle -/

theorem buildAddrs_length (b hw extra : Nat) : (buildAddrs b hw extra).length = 2 + hw + extra := by
  simp [buildAddrs]
  omega

/-- A non-generic text-generation build for a selected entry with no explicit root: it
succeeds with the expected chain when the entry is buildable and returns null otherwise. -/
theorem GetGPTCreationParams_selected (rt : Runtime) (ctx : NVIGIContext) (info : PluginModelInfo)
    (hsel : GetGPTPluginModel ctx ctx.m_gptIndex = .ok (some info)) :
    (buildable rt info = true →
      ∃ h1, GetGPTCreationParams rt ctx false none = .ok (h1, some (ctx.heap.brk + 1)) ∧
        h1.contents (some (ctx.heap.brk + 1)) = .ok (gptChainBlocks rt (hardwareBlocks ctx) info) ∧
        h1.events = ctx.heap.events ∧
        ∃ as, h1.IsChain (some (ctx.heap.brk + 1)) as ∧ as.length ≤ h1.brk) ∧
    (buildable rt info = false →
      ∃ h1, GetGPTCreationParams rt ctx false none = .ok (h1, none)) := by
  by_cases ho : info.m_featureID = PluginID.gpt_onnxgenai_dml
  · have hb : buildable rt info = true := by simp [buildable, ho]
    obtain ⟨h1, hrun, hcont, hev, hch, hbrk⟩ := GetGPTCreationParams_onnxgenai rt ctx none info hsel ho
    refine ⟨fun _ => ⟨h1, hrun, ?_, hev, _, hch, ?_⟩, fun h => by rw [hb] at h; cases h⟩
    · rw [hcont]; simp [gptChainBlocks, backendBlocks, ho, resolveModelRoot]
    · rw [buildAddrs_length, hbrk]; omega
  · by_cases hc : info.m_featureID = PluginID.gpt_cloud_rest
    · cases hk : cloudKey rt info.m_url with
      | none =>
        have hb : buildable rt info = false := by simp [buildable, hc, hk]
        obtain ⟨h1, hrun, _⟩ := GetGPTCreationParams_cloud_missing rt ctx none info hsel hc hk
        exact ⟨(fun h => by rw [hb] at h; cases h), fun _ => ⟨h1, hrun⟩⟩
      | some key =>
        have hb : buildable rt info = true := by simp [buildable, hc, hk]
        obtain ⟨h1, hrun, hcont, hev, hch, hbrk⟩ :=
          GetGPTCreationParams_cloud rt ctx none info key hsel hc hk
        refine ⟨fun _ => ⟨h1, hrun, ?_, hev, _, hch, ?_⟩, fun h => by rw [hb] at h; cases h⟩
        · rw [hcont, cloudKey_eq_some rt info.m_url key hk]
          simp [gptChainBlocks, backendBlocks, ho, hc, resolveModelRoot]
        · rw [buildAddrs_length, hbrk]; omega
    · have hb : buildable rt info = true := by simp [buildable, hc]
      obtain ⟨h1, hrun, hcont, hev, hch, hbrk⟩ := GetGPTCreationParams_plain rt ctx none info hsel ho hc
      refine ⟨fun _ => ⟨h1, hrun, ?_, hev, _, hch, ?_⟩, fun h => by rw [hb] at h; cases h⟩
      · rw [hcont]; simp [gptChainBlocks, backendBlocks, ho, hc, resolveModelRoot]
      · rw [buildAddrs_length, hbrk]; omega

/-- Releasing a chain with the free store's size as fuel completes. -/
theorem FreeCreationParams_ok (h : Heap) (p : Option Nat) (as : List Nat)
    (hc : h.IsChain p as) (hl : as.length ≤ h.brk) :
    ∃ h1, FreeCreationParams h h.brk p = .ok h1 ∧
      h1.events = h.events ++ teardownEvents as := by
  cases p with
  | none =>
    cases as with
    | nil => exact ⟨h, rfl, by simp [teardownEvents]⟩
    | cons a as => simp [Heap.IsChain] at hc
  | some p =>
    obtain ⟨h1, hrun, hev, _, _⟩ := freeLoop_chain as h (some p) h.brk hc hl
    exact ⟨h1, hrun, hev⟩

/-- The outcome of the interface load and instance creation over a readable chain. -/
theorem loadAndCreateGPT_eq (rt : Runtime) (c : NVIGIContext) (fid : PluginID) (p : Nat)
    (blocks : List BlockData) (hcont : c.heap.contents (some p) = .ok blocks) :
    loadAndCreateGPT rt c fid (some p) =
      .ok (if createsInstance rt c.calls fid blocks then
          ({ c with calls := c.calls + 2, m_igpt := some fid, m_gpt := some c.nextHandle,
                    nextHandle := c.nextHandle + 1,
                    live := c.live ++ [⟨c.nextHandle, Domain.gpt, fid, blocks⟩] }, true)
        else if rt.loadInterface c.calls fid then
          ({ c with calls := c.calls + 2, m_igpt := some fid }, false)
        else ({ c with calls := c.calls + 1 }, false)) := by
  unfold loadAndCreateGPT createsInstance
  cases h1 : rt.loadInterface c.calls fid <;>
    cases h2 : rt.createInstance (c.calls + 1) fid blocks <;>
    simp [h1, h2, deref, Except.bind, hcont]

theorem loadAndCreateASR_eq (rt : Runtime) (c : NVIGIContext) (fid : PluginID) (p : Nat)
    (blocks : List BlockData) (hcont : c.heap.contents (some p) = .ok blocks) :
    loadAndCreateASR rt c fid (some p) =
      .ok (if createsInstance rt c.calls fid blocks then
          ({ c with calls := c.calls + 2, m_iasr := some fid, m_asr := some c.nextHandle,
                    nextHandle := c.nextHandle + 1,
                    live := c.live ++ [⟨c.nextHandle, Domain.asr, fid, blocks⟩] }, true)
        else if rt.loadInterface c.calls fid then
          ({ c with calls := c.calls + 2, m_iasr := some fid }, false)
        else ({ c with calls := c.calls + 1 }, false)) := by
  unfold loadAndCreateASR createsInstance
  cases h1 : rt.loadInterface c.calls fid <;>
    cases h2 : rt.createInstance (c.calls + 1) fid blocks <;>
    simp [h1, h2, deref, Except.bind, hcont]

theorem hardwareBlocks_congr (c d : NVIGIContext) (h : d.m_d3d12Params = c.m_d3d12Params) :
    hardwareBlocks d = hardwareBlocks c := by
  unfold hardwareBlocks
  rw [h]

/-- The rollback of a failed swap over a valid previous selection completes; it recreates the
previous model exactly when `rollbackCreates` holds. -/
theorem rollbackGPT_spec (rt : Runtime) (c : NVIGIContext) (prevIndex : Int)
    (prevInfo : Option PluginModelInfo)
    (hprev : getPluginModel c.m_gptPluginModels prevIndex = .ok prevInfo) :
    ∃ c3, rollbackGPT rt c prevIndex prevInfo = .ok c3 ∧
      (c3.m_asr = c.m_asr ∧ c3.m_iasr = c.m_iasr ∧ c3.m_asrIndex = c.m_asrIndex ∧
        c3.m_asrReady = c.m_asrReady ∧ c3.m_loadingThread = c.m_loadingThread ∧
        c3.m_gptPluginModels = c.m_gptPluginModels ∧
        c3.m_asrPluginModels = c.m_asrPluginModels ∧
        c3.m_d3d12Params = c.m_d3d12Params) ∧
      c3.m_gptIndex = prevIndex ∧
      (∀ prev, prevInfo = some prev →
        rollbackCreates rt c.calls (hardwareBlocks c) prevInfo = true →
        c3.m_gptReady = true ∧
        c3.live = c.live ++ [⟨c.nextHandle, Domain.gpt, prev.m_featureID,
          gptChainBlocks rt (hardwareBlocks c) prev⟩] ∧
        c3.m_gpt = some c.nextHandle ∧ c3.m_igpt = some prev.m_featureID) ∧
      (rollbackCreates rt c.calls (hardwareBlocks c) prevInfo = false →
        c3.m_gptReady = false ∧ c3.live = c.live ∧ c3.m_gpt = c.m_gpt ∧
        (c3.m_igpt = c.m_igpt ∨ c3.m_igpt ≠ none)) := by
  unfold rollbackGPT
  cases prevInfo with
  | none =>
    have hsel : GetGPTPluginModel { c with m_gptIndex := prevIndex }
        ({ c with m_gptIndex := prevIndex } : NVIGIContext).m_gptIndex = .ok none := hprev
    simp [GetGPTCreationParams_unselected rt _ none hsel, Except.bind, recreatePrevious,
      FreeCreationParams, Except.map, rollbackCreates]
  | some prev =>
    have hsel : GetGPTPluginModel { c with m_gptIndex := prevIndex }
        ({ c with m_gptIndex := prevIndex } : NVIGIContext).m_gptIndex = .ok (some prev) := hprev
    have hm := GetGPTCreationParams_selected rt { c with m_gptIndex := prevIndex } prev hsel
    have hhw : hardwareBlocks { c with m_gptIndex := prevIndex } = hardwareBlocks c := rfl
    rw [hhw] at hm
    cases hb : buildable rt prev with
    | false =>
      obtain ⟨h1, hrun⟩ := hm.2 hb
      simp [hrun, Except.bind, recreatePrevious, FreeCreationParams, Except.map, rollbackCreates,
        hb]
    | true =>
      obtain ⟨h1, hrun, hcont, _, as, hch, hlen⟩ := hm.1 hb
      obtain ⟨h2, hfree, _⟩ := FreeCreationParams_ok h1 _ as hch hlen
      simp only [hrun, Except.bind, recreatePrevious]
      rw [loadAndCreateGPT_eq rt _ prev.m_featureID _ _ hcont]
      cases hcr : createsInstance rt c.calls prev.m_featureID
          (gptChainBlocks rt (hardwareBlocks c) prev) with
      | true => simp [hcr, hfree, Except.map, rollbackCreates, hb]
      | false =>
        cases hli : rt.loadInterface c.calls prev.m_featureID <;>
          simp [hcr, hli, hfree, Except.map, rollbackCreates, hb]

/-- The load task of a text-generation swap over a readable, finite parameter chain and a
valid previous selection: it completes, and its outcome follows the three cases of the swap
policy. -/
theorem loadModelGPT_spec (rt : Runtime) (c : NVIGIContext) (prevIndex : Int)
    (prevInfo : Option PluginModelInfo) (newInfo : PluginModelInfo) (p : Nat)
    (blocks : List BlockData) (as : List Nat)
    (hcont : c.heap.contents (some p) = .ok blocks)
    (hchain : c.heap.IsChain (some p) as) (hlen : as.length ≤ c.heap.brk)
    (hprev : getPluginModel c.m_gptPluginModels prevIndex = .ok prevInfo) :
    ∃ c3, loadModelGPT rt c prevIndex prevInfo (some newInfo) (some p) = .ok c3 ∧
      (c3.m_asr = c.m_asr ∧ c3.m_iasr = c.m_iasr ∧ c3.m_asrIndex = c.m_asrIndex ∧
        c3.m_asrReady = c.m_asrReady ∧ c3.m_loadingThread = c.m_loadingThread ∧
        c3.m_gptPluginModels = c.m_gptPluginModels ∧
        c3.m_asrPluginModels = c.m_asrPluginModels ∧
        c3.m_d3d12Params = c.m_d3d12Params) ∧
      (createsInstance rt c.calls newInfo.m_featureID blocks = true →
        c3.m_gptIndex = c.m_gptIndex ∧ c3.m_gptReady = true ∧
        c3.live = c.live ++ [⟨c.nextHandle, Domain.gpt, newInfo.m_featureID, blocks⟩] ∧
        c3.m_gpt = some c.nextHandle ∧ c3.m_igpt = some newInfo.m_featureID) ∧
      (createsInstance rt c.calls newInfo.m_featureID blocks = false →
        c3.m_gptIndex = prevIndex ∧
        (∀ prev, prevInfo = some prev →
          rollbackCreates rt (callsAfterCreate rt c.calls newInfo.m_featureID)
            (hardwareBlocks c) prevInfo = true →
          c3.m_gptReady = true ∧
          c3.live = c.live ++ [⟨c.nextHandle, Domain.gpt, prev.m_featureID,
            gptChainBlocks rt (hardwareBlocks c) prev⟩] ∧
          c3.m_gpt = some c.nextHandle ∧ c3.m_igpt = some prev.m_featureID) ∧
        (rollbackCreates rt (callsAfterCreate rt c.calls newInfo.m_featureID)
            (hardwareBlocks c) prevInfo = false →
          c3.m_gptReady = false ∧ c3.live = c.live ∧ c3.m_gpt = c.m_gpt)) := by
  unfold loadModelGPT
  simp only [deref, Except.bind]
  rw [loadAndCreateGPT_eq rt c newInfo.m_featureID p blocks hcont]
  obtain ⟨h1, hfree, _⟩ := FreeCreationParams_ok c.heap (some p) as hchain hlen
  cases hnew : createsInstance rt c.calls newInfo.m_featureID blocks with
  | true => simp [hfree, Except.map]
  | false =>
    cases hli : rt.loadInterface c.calls newInfo.m_featureID with
    | true =>
      obtain ⟨c3, hrun, hframe, hidx, hok, hfail⟩ :=
        rollbackGPT_spec rt
          { c with calls := c.calls + 2, m_igpt := some newInfo.m_featureID, heap := h1 }
          prevIndex prevInfo hprev
      have hhw : hardwareBlocks
          { c with calls := c.calls + 2, m_igpt := some newInfo.m_featureID, heap := h1 } =
          hardwareBlocks c := rfl
      rw [hhw] at hok hfail
      simp only [Bool.false_eq_true, if_false, hfree, if_true, callsAfterCreate, hli]
      refine ⟨c3, hrun, hframe, (fun h => by cases h), fun _ => ⟨hidx, hok, fun h => ?_⟩⟩
      obtain ⟨a, b, d, _⟩ := hfail h
      exact ⟨a, b, d⟩
    | false =>
      obtain ⟨c3, hrun, hframe, hidx, hok, hfail⟩ :=
        rollbackGPT_spec rt { c with calls := c.calls + 1, heap := h1 } prevIndex prevInfo hprev
      have hhw : hardwareBlocks { c with calls := c.calls + 1, heap := h1 } =
          hardwareBlocks c := rfl
      rw [hhw] at hok hfail
      simp only [Bool.false_eq_true, if_false, hfree, callsAfterCreate, hli]
      refine ⟨c3, hrun, hframe, (fun h => by cases h), fun _ => ⟨hidx, hok, fun h => ?_⟩⟩
      obtain ⟨a, b, d, _⟩ := hfail h
      exact ⟨a, b, d⟩

theorem destroyGPT_frame (c : NVIGIContext) :
    (destroyGPT c).heap = c.heap ∧ (destroyGPT c).calls = c.calls ∧
    (destroyGPT c).nextHandle = c.nextHandle ∧
    (destroyGPT c).m_gptPluginModels = c.m_gptPluginModels ∧
    (destroyGPT c).m_asrPluginModels = c.m_asrPluginModels ∧
    (destroyGPT c).m_gptIndex = c.m_gptIndex ∧ (destroyGPT c).m_asrIndex = c.m_asrIndex ∧
    (destroyGPT c).m_gptReady = c.m_gptReady ∧ (destroyGPT c).m_asrReady = c.m_asrReady ∧
    (destroyGPT c).m_d3d12Params = c.m_d3d12Params ∧ (destroyGPT c).m_igpt = c.m_igpt ∧
    (destroyGPT c).m_iasr = c.m_iasr ∧ (destroyGPT c).m_asr = c.m_asr ∧
    (destroyGPT c).m_loadingThread = c.m_loadingThread := by
  unfold destroyGPT
  cases h : c.m_igpt <;> simp [h]

theorem destroyGPT_live_sublist (c : NVIGIContext) : (destroyGPT c).live.Sublist c.live := by
  unfold destroyGPT
  cases c.m_igpt
  · exact List.Sublist.refl _
  · exact List.filter_sublist _

/-- After the destroy step no text-generation instance is live. -/
theorem destroyGPT_liveIn (c : NVIGIContext) (h : GptTracked c) :
    liveIn Domain.gpt (destroyGPT c) = [] := by
  unfold liveIn
  rw [List.filter_eq_nil_iff]
  intro i hi hd
  have hd2 : i.domain = Domain.gpt := by simpa using hd
  have hmem : i ∈ c.live := (destroyGPT_live_sublist c).subset hi
  obtain ⟨hg, hig⟩ := h i hmem hd2
  unfold destroyGPT at hi
  cases hcase : c.m_igpt with
  | none => exact hig hcase
  | some f =>
    rw [hcase] at hi
    simp only [List.mem_filter, decide_eq_true_eq] at hi
    exact hi.2 hg.symm

/-- A non-generic text-generation build with no explicit root returns a chain exactly when an
entry is selected and that entry is buildable. -/
theorem GetGPTCreationParams_some_iff (rt : Runtime) (ctx : NVIGIContext) :
    (∃ h p, GetGPTCreationParams rt ctx false none = .ok (h, some p)) ↔
      ∃ info, GetGPTPluginModel ctx ctx.m_gptIndex = .ok (some info) ∧
        buildable rt info = true := by
  constructor
  · rintro ⟨h, p, hb⟩
    cases hsel : GetGPTPluginModel ctx ctx.m_gptIndex with
    | error e => rw [GetGPTCreationParams_fault rt ctx none e hsel] at hb; cases hb
    | ok oinfo =>
      cases oinfo with
      | none => rw [GetGPTCreationParams_unselected rt ctx none hsel] at hb; cases hb
      | some info =>
        refine ⟨info, rfl, ?_⟩
        cases hbl : buildable rt info with
        | true => rfl
        | false =>
          obtain ⟨h2, hrun⟩ := (GetGPTCreationParams_selected rt ctx info hsel).2 hbl
          rw [hrun] at hb
          injection hb with hb
          injection hb with _ hp
          cases hp
  · rintro ⟨info, hsel, hbl⟩
    obtain ⟨h1, hrun, _⟩ := (GetGPTCreationParams_selected rt ctx info hsel).1 hbl
    exact ⟨h1, _, hrun⟩

/-- C4: outcome of a text-generation swap `ReloadGPTModel(newIndex)` whose parameter build
succeeds (the requested entry exists and is buildable). With `c0` the state once the earlier
load task has been joined and `prevIndex = c0.m_gptIndex` a valid selection, the call and its
load task complete, and: (a) if creating the new model's instance succeeds, `m_gptIndex =
newIndex` and `m_gptReady = true`; (b) if it fails and the rollback recreates the previous
model, `m_gptIndex = prevIndex`, `m_gptReady = true` and the previous model's instance is the
only live text-generation instance; (c) if the rollback fails too, or there was no previous
selection, `m_gptIndex = prevIndex` and `m_gptReady = false`. -/
theorem C4_swap_outcome (rt : Runtime) (ctx c0 : NVIGIContext) (newIndex : Int)
    (prevInfo : Option PluginModelInfo) (newInfo : PluginModelInfo)
    (hjoin : joinLoadingThread rt ctx = .ok c0)
    (htracked : GptTracked c0)
    (hprev : GetGPTPluginModel c0 c0.m_gptIndex = .ok prevInfo)
    (hnew : GetGPTPluginModel c0 newIndex = .ok (some newInfo))
    (hbuild : buildable rt newInfo = true) :
    ∃ c1 c3, ReloadGPTModel rt ctx newIndex = .ok c1 ∧ joinLoadingThread rt c1 = .ok c3 ∧
      (createsInstance rt c0.calls newInfo.m_featureID
          (gptChainBlocks rt (hardwareBlocks c0) newInfo) = true →
        c3.m_gptIndex = newIndex ∧ c3.m_gptReady = true) ∧
      (createsInstance rt c0.calls newInfo.m_featureID
          (gptChainBlocks rt (hardwareBlocks c0) newInfo) = false →
        ∀ prev, prevInfo = some prev →
          rollbackCreates rt (callsAfterCreate rt c0.calls newInfo.m_featureID)
            (hardwareBlocks c0) prevInfo = true →
          c3.m_gptIndex = c0.m_gptIndex ∧ c3.m_gptReady = true ∧
          liveIn Domain.gpt c3 = [⟨c0.nextHandle, Domain.gpt, prev.m_featureID,
            gptChainBlocks rt (hardwareBlocks c0) prev⟩]) ∧
      (createsInstance rt c0.calls newInfo.m_featureID
          (gptChainBlocks rt (hardwareBlocks c0) newInfo) = false →
        rollbackCreates rt (callsAfterCreate rt c0.calls newInfo.m_featureID)
          (hardwareBlocks c0) prevInfo = false →
        c3.m_gptIndex = c0.m_gptIndex ∧ c3.m_gptReady = false) := by
  have hsel : GetGPTPluginModel { c0 with m_conversationInitialized := false, m_gptIndex := newIndex }
      ({ c0 with m_conversationInitialized := false, m_gptIndex := newIndex } : NVIGIContext).m_gptIndex =
        .ok (some newInfo) := hnew
  obtain ⟨h1, hrun, hcont, _, as, hch, hlen⟩ :=
    (GetGPTCreationParams_selected rt
      { c0 with m_conversationInitialized := false, m_gptIndex := newIndex } newInfo hsel).1 hbuild
  have hprev2 : GetGPTPluginModel { c0 with m_conversationInitialized := false } c0.m_gptIndex =
      .ok prevInfo := hprev
  have hnew2 : GetGPTPluginModel { c0 with m_conversationInitialized := false, m_gptIndex := newIndex }
      newIndex = .ok (some newInfo) := hnew
  obtain ⟨fheap, fcalls, fnext, fgm, fam, fgi, fai, fgr, far, fd3, figpt, fiasr, fasr, flt⟩ :=
    destroyGPT_frame
      { c0 with m_conversationInitialized := false, m_gptIndex := newIndex, heap := h1,
                m_gptReady := false }
  have hlive0 : liveIn Domain.gpt (destroyGPT
      { c0 with m_conversationInitialized := false, m_gptIndex := newIndex, heap := h1,
                m_gptReady := false }) = [] :=
    destroyGPT_liveIn _ htracked
  obtain ⟨c3, htask, _, hgood, hbad⟩ := loadModelGPT_spec rt
    { destroyGPT
        { c0 with m_conversationInitialized := false, m_gptIndex := newIndex, heap := h1,
                  m_gptReady := false } with m_loadingThread := none }
    c0.m_gptIndex prevInfo newInfo (c0.heap.brk + 1)
    (gptChainBlocks rt (hardwareBlocks c0) newInfo) as
    (by simpa [fheap] using hcont) (by simpa [fheap] using hch) (by simpa [fheap] using hlen)
    (by simpa [fgm] using hprev)
  have hhw : hardwareBlocks
      { destroyGPT
          { c0 with m_conversationInitialized := false, m_gptIndex := newIndex, heap := h1,
                    m_gptReady := false } with m_loadingThread := none } = hardwareBlocks c0 :=
    hardwareBlocks_congr _ _ (by simpa using fd3)
  rw [hhw] at hbad
  simp only [fcalls, fnext] at hgood hbad
  refine ⟨{ destroyGPT
        { c0 with m_conversationInitialized := false, m_gptIndex := newIndex, heap := h1,
                  m_gptReady := false } with
      m_loadingThread := some (LoadTask.loadModelGPT c0.m_gptIndex prevInfo (some newInfo)
        (some (c0.heap.brk + 1))) }, c3, ?_, ?_, ?_, ?_, ?_⟩
  · simp only [ReloadGPTModel, hjoin, Except.bind, hprev2, hnew2, hrun]
  · simpa [joinLoadingThread, runTask] using htask
  · intro h
    obtain ⟨a, b, _⟩ := hgood h
    exact ⟨by simpa [fgi] using a, b⟩
  · intro h prev hp hr
    obtain ⟨a, hok, _⟩ := hbad h
    obtain ⟨b, hl, _⟩ := hok prev hp hr
    refine ⟨a, b, ?_⟩
    have : liveIn Domain.gpt c3 = liveIn Domain.gpt (destroyGPT
        { c0 with m_conversationInitialized := false, m_gptIndex := newIndex, heap := h1,
                  m_gptReady := false }) ++
        [⟨c0.nextHandle, Domain.gpt, prev.m_featureID,
          gptChainBlocks rt (hardwareBlocks c0) prev⟩] := by
      unfold liveIn
      rw [hl]
      simp [List.filter_append]
    rw [this, hlive0]
    rfl
  · intro h hr
    obtain ⟨a, _, hfail⟩ := hbad h
    exact ⟨a, (hfail hr).1⟩

theorem bind_eq_ok {ε α β : Type} (x : Except ε α) (f : α → Except ε β) (b : β) :
    x.bind f = .ok b ↔ ∃ a, x = .ok a ∧ f a = .ok b := by
  cases x <;> simp [Except.bind]

theorem map_eq_ok {ε α β : Type} (x : Except ε α) (f : α → β) (b : β) :
    x.map f = .ok b ↔ ∃ a, x = .ok a ∧ f a = b := by
  cases x <;> simp [Except.map]

theorem GptEffect_refl (c : NVIGIContext) : GptEffect c c false := by
  simp [GptEffect]

theorem GptEffect_trans (c d e : NVIGIContext) (b : Bool) (h1 : GptEffect c d false)
    (h2 : GptEffect d e b) : GptEffect c e b := by
  unfold GptEffect at *
  obtain ⟨a1, a2, a3, a4, a5, a6⟩ := h1
  obtain ⟨b1, b2, b3, b4⟩ := h2
  refine ⟨b1.trans a1, b2.trans a2, b3.trans a3, ?_⟩
  cases b with
  | true =>
    simp only [if_true] at b4 ⊢
    obtain ⟨inst, hd, hl, hg, hi⟩ := b4
    exact ⟨inst, hd, by rw [hl, a4], hg, hi⟩
  | false =>
    simp only [Bool.false_eq_true, if_false] at b4 ⊢
    exact ⟨b4.1.trans a4, b4.2.1.trans a5, fun h => b4.2.2 (a6 h)⟩

theorem loadAndCreateGPT_post (rt : Runtime) (c d : NVIGIContext) (fid : PluginID)
    (p : Option Nat) (b : Bool) (h : loadAndCreateGPT rt c fid p = .ok (d, b)) :
    GptEffect c d b ∧ d.heap = c.heap ∧ d.m_gptIndex = c.m_gptIndex := by
  unfold loadAndCreateGPT at h
  split at h
  · simp only [bind_eq_ok] at h
    obtain ⟨q, _, blocks, _, h⟩ := h
    split at h
    · injection h with h
      injection h with h1 h2
      subst h1; subst h2
      refine ⟨⟨rfl, rfl, rfl, ?_⟩, rfl, rfl⟩
      simp only [if_true]
      exact ⟨⟨c.nextHandle, Domain.gpt, fid, blocks⟩, rfl, rfl, rfl, by simp⟩
    · injection h with h
      injection h with h1 h2
      subst h1; subst h2
      simp [GptEffect]
  · injection h with h
    injection h with h1 h2
    subst h1; subst h2
    simp [GptEffect]

theorem GptEffect_same_left (c c1 d : NVIGIContext) (b : Bool) (hs : SameBook c c1)
    (h : GptEffect c1 d b) : GptEffect c d b := by
  unfold SameBook at hs
  unfold GptEffect at *
  obtain ⟨s1, s2, s3, s4, s5, s6⟩ := hs
  obtain ⟨a1, a2, a3, a4⟩ := h
  rw [s1] at a1; rw [s2] at a2; rw [s6] at a3; rw [s5, s3, s4] at a4
  exact ⟨a1, a2, a3, a4⟩

theorem GptEffect_same_right (c d1 d : NVIGIContext) (b : Bool) (h : GptEffect c d1 b)
    (hs : SameBook d1 d) : GptEffect c d b := by
  unfold SameBook at hs
  unfold GptEffect at *
  obtain ⟨s1, s2, s3, s4, s5, s6⟩ := hs
  obtain ⟨a1, a2, a3, a4⟩ := h
  rw [← s1] at a1; rw [← s2] at a2; rw [← s6] at a3; rw [← s5, ← s3, ← s4] at a4
  exact ⟨a1, a2, a3, a4⟩

theorem AsrEffect_same_left (c c1 d : NVIGIContext) (b : Bool) (hs : SameBook c c1)
    (h : AsrEffect c1 d b) : AsrEffect c d b := by
  unfold SameBook at hs
  unfold AsrEffect at *
  obtain ⟨s1, s2, s3, s4, s5, s6⟩ := hs
  obtain ⟨a1, a2, a3, a4⟩ := h
  rw [s3] at a1; rw [s4] at a2; rw [s6] at a3; rw [s5, s1, s2] at a4
  exact ⟨a1, a2, a3, a4⟩

theorem AsrEffect_same_right (c d1 d : NVIGIContext) (b : Bool) (h : AsrEffect c d1 b)
    (hs : SameBook d1 d) : AsrEffect c d b := by
  unfold SameBook at hs
  unfold AsrEffect at *
  obtain ⟨s1, s2, s3, s4, s5, s6⟩ := hs
  obtain ⟨a1, a2, a3, a4⟩ := h
  rw [← s3] at a1; rw [← s4] at a2; rw [← s6] at a3; rw [← s5, ← s1, ← s2] at a4
  exact ⟨a1, a2, a3, a4⟩

theorem loadAndCreateASR_post (rt : Runtime) (c d : NVIGIContext) (fid : PluginID)
    (p : Option Nat) (b : Bool) (h : loadAndCreateASR rt c fid p = .ok (d, b)) :
    AsrEffect c d b ∧ d.heap = c.heap ∧ d.m_asrIndex = c.m_asrIndex := by
  unfold loadAndCreateASR at h
  split at h
  · simp only [bind_eq_ok] at h
    obtain ⟨q, _, blocks, _, h⟩ := h
    split at h
    · injection h with h
      injection h with h1 h2
      subst h1; subst h2
      refine ⟨⟨rfl, rfl, rfl, ?_⟩, rfl, rfl⟩
      simp only [if_true]
      exact ⟨⟨c.nextHandle, Domain.asr, fid, blocks⟩, rfl, rfl, rfl, by simp⟩
    · injection h with h
      injection h with h1 h2
      subst h1; subst h2
      simp [AsrEffect]
  · injection h with h
    injection h with h1 h2
    subst h1; subst h2
    simp [AsrEffect]

theorem recreatePrevious_post (rt : Runtime) (c d : NVIGIContext) (params : Option Nat)
    (prevInfo : Option PluginModelInfo) (b : Bool)
    (h : recreatePrevious rt c params prevInfo = .ok (d, b)) : GptEffect c d b := by
  unfold recreatePrevious at h
  split at h
  · exact (loadAndCreateGPT_post rt c d _ _ b h).1
  · injection h with h
    injection h with h1 h2
    subst h1; subst h2
    exact GptEffect_refl c

theorem rollbackGPT_post (rt : Runtime) (c d : NVIGIContext) (prevIndex : Int)
    (prevInfo : Option PluginModelInfo) (h : rollbackGPT rt c prevIndex prevInfo = .ok d) :
    ∃ b, GptEffect c d b := by
  unfold rollbackGPT at h
  simp only [bind_eq_ok, map_eq_ok] at h
  obtain ⟨r, _, dd, hrec, h2, _, hd⟩ := h
  have he := recreatePrevious_post rt _ dd.1 r.2 prevInfo dd.2 hrec
  refine ⟨dd.2, GptEffect_same_left c _ d dd.2 ?_ (GptEffect_same_right _ dd.1 d dd.2 he ?_)⟩
  · simp [SameBook]
  · subst hd
    simp [SameBook]

theorem loadModelGPT_post (rt : Runtime) (c d : NVIGIContext) (prevIndex : Int)
    (prevInfo newInfo : Option PluginModelInfo) (params1 : Option Nat)
    (h : loadModelGPT rt c prevIndex prevInfo newInfo params1 = .ok d) :
    ∃ b, GptEffect c d b := by
  unfold loadModelGPT at h
  split at h
  · injection h with h
    subst h
    exact ⟨false, by simp [GptEffect]⟩
  · simp only [bind_eq_ok] at h
    obtain ⟨info, _, cc, hcreate, h⟩ := h
    have he := (loadAndCreateGPT_post rt c cc.1 _ _ cc.2 hcreate).1
    split at h
    · rename_i hb
      simp only [map_eq_ok] at h
      obtain ⟨h2, _, hd⟩ := h
      subst hd
      rw [hb] at he
      exact ⟨true, GptEffect_same_right c cc.1 _ true he (by simp [SameBook])⟩
    · rename_i hb
      simp only [bind_eq_ok] at h
      obtain ⟨h2, _, hroll⟩ := h
      obtain ⟨b, hr⟩ := rollbackGPT_post rt _ d prevIndex prevInfo hroll
      have hb2 : cc.2 = false := by simpa using hb
      rw [hb2] at he
      exact ⟨b, GptEffect_trans c cc.1 d b he
        (GptEffect_same_left cc.1 _ d b (by simp [SameBook]) hr)⟩

theorem loadInitialGPT_post (rt : Runtime) (c d : NVIGIContext)
    (h : loadInitialGPT rt c = .ok d) : ∃ b, GptEffect c d b := by
  unfold loadInitialGPT at h
  simp only [bind_eq_ok] at h
  obtain ⟨info, _, h⟩ := h
  split at h
  · simp only [bind_eq_ok, map_eq_ok] at h
    obtain ⟨r, _, cc, hcreate, h2, _, hd⟩ := h
    have he := (loadAndCreateGPT_post rt _ cc.1 _ _ cc.2 hcreate).1
    subst hd
    exact ⟨cc.2, GptEffect_same_left c _ _ cc.2 (by simp [SameBook])
      (GptEffect_same_right _ cc.1 _ cc.2 he (by simp [SameBook]))⟩
  · injection h with h
    subst h
    exact ⟨false, by simp [GptEffect]⟩

theorem loadInitialASR_post (rt : Runtime) (c d : NVIGIContext)
    (h : loadInitialASR rt c = .ok d) : ∃ b, AsrEffect c d b := by
  unfold loadInitialASR at h
  simp only [bind_eq_ok] at h
  obtain ⟨info, _, h⟩ := h
  split at h
  · simp only [bind_eq_ok, map_eq_ok] at h
    obtain ⟨r, _, cc, hcreate, h2, _, hd⟩ := h
    have he := (loadAndCreateASR_post rt _ cc.1 _ _ cc.2 hcreate).1
    subst hd
    exact ⟨cc.2, AsrEffect_same_left c _ _ cc.2 (by simp [SameBook])
      (AsrEffect_same_right _ cc.1 _ cc.2 he (by simp [SameBook]))⟩
  · injection h with h
    subst h
    exact ⟨false, by simp [AsrEffect]⟩

theorem loadModelASR_post (rt : Runtime) (c d : NVIGIContext)
    (newInfo : Option PluginModelInfo) (h : loadModelASR rt c newInfo = .ok d) :
    ∃ b, AsrEffect c d b := by
  unfold loadModelASR at h
  simp only [bind_eq_ok] at h
  obtain ⟨r, _, h⟩ := h
  split at h
  · simp only [bind_eq_ok, map_eq_ok] at h
    obtain ⟨cc, hcreate, h2, _, hd⟩ := h
    have he := (loadAndCreateASR_post rt _ cc.1 _ _ cc.2 hcreate).1
    subst hd
    exact ⟨cc.2, AsrEffect_same_left c _ _ cc.2 (by simp [SameBook])
      (AsrEffect_same_right _ cc.1 _ cc.2 he (by simp [SameBook]))⟩
  · injection h with h
    subst h
    exact ⟨false, by simp [AsrEffect]⟩

theorem mem_liveIn (d : Domain) (c : NVIGIContext) (i : LiveInstance) :
    i ∈ liveIn d c ↔ i ∈ c.live ∧ i.domain = d := by
  simp [liveIn]

theorem tracked_of_liveIn_nil_gpt (c : NVIGIContext) (h : liveIn Domain.gpt c = []) :
    GptTracked c := by
  intro i hi hd
  have : i ∈ liveIn Domain.gpt c := (mem_liveIn _ _ _).2 ⟨hi, hd⟩
  rw [h] at this
  cases this

theorem tracked_of_liveIn_nil_asr (c : NVIGIContext) (h : liveIn Domain.asr c = []) :
    AsrTracked c := by
  intro i hi hd
  have : i ∈ liveIn Domain.asr c := (mem_liveIn _ _ _).2 ⟨hi, hd⟩
  rw [h] at this
  cases this

/-- Text-generation lifecycle code that starts with no live text-generation instance leaves
at most one, tracked by `m_gpt`, and leaves the speech-recognition side as it was. -/
theorem GptEffect_inv (c d : NVIGIContext) (b : Bool) (he : GptEffect c d b)
    (hg : liveIn Domain.gpt c = []) (ha : AsrTracked c) :
    GptTracked d ∧ AsrTracked d ∧ (liveIn Domain.gpt d).length ≤ 1 ∧
      liveIn Domain.asr d = liveIn Domain.asr c ∧ d.m_loadingThread = c.m_loadingThread := by
  obtain ⟨e1, e2, e3, e4⟩ := he
  cases b with
  | false =>
    simp only [Bool.false_eq_true, if_false] at e4
    obtain ⟨hl, _, _⟩ := e4
    have hg2 : liveIn Domain.gpt d = [] := by unfold liveIn at *; rw [hl]; exact hg
    refine ⟨tracked_of_liveIn_nil_gpt d hg2, ?_, by rw [hg2]; simp, ?_, e3⟩
    · intro i hi hd
      rw [hl] at hi
      rw [e1, e2]
      exact ha i hi hd
    · unfold liveIn; rw [hl]
  | true =>
    simp only [if_true] at e4
    obtain ⟨inst, hdom, hl, hgpt, higpt⟩ := e4
    have hg2 : liveIn Domain.gpt d = [inst] := by
      unfold liveIn at *
      rw [hl, List.filter_append, hg]
      simp [hdom]
    have ha2 : liveIn Domain.asr d = liveIn Domain.asr c := by
      unfold liveIn
      rw [hl, List.filter_append]
      simp [hdom]
    refine ⟨?_, ?_, by rw [hg2]; simp, ha2, e3⟩
    · intro i hi hd
      have : i ∈ liveIn Domain.gpt d := (mem_liveIn _ _ _).2 ⟨hi, hd⟩
      rw [hg2] at this
      simp only [List.mem_singleton] at this
      subst this
      exact ⟨hgpt, higpt⟩
    · intro i hi hd
      have : i ∈ liveIn Domain.asr d := (mem_liveIn _ _ _).2 ⟨hi, hd⟩
      rw [ha2] at this
      rw [e1, e2]
      exact ha i ((mem_liveIn _ _ _).1 this).1 hd

/-- The same for speech-recognition lifecycle code. -/
theorem AsrEffect_inv (c d : NVIGIContext) (b : Bool) (he : AsrEffect c d b)
    (ha : liveIn Domain.asr c = []) (hg : GptTracked c) :
    AsrTracked d ∧ GptTracked d ∧ (liveIn Domain.asr d).length ≤ 1 ∧
      liveIn Domain.gpt d = liveIn Domain.gpt c ∧ d.m_loadingThread = c.m_loadingThread := by
  obtain ⟨e1, e2, e3, e4⟩ := he
  cases b with
  | false =>
    simp only [Bool.false_eq_true, if_false] at e4
    obtain ⟨hl, _, _⟩ := e4
    have ha2 : liveIn Domain.asr d = [] := by unfold liveIn at *; rw [hl]; exact ha
    refine ⟨tracked_of_liveIn_nil_asr d ha2, ?_, by rw [ha2]; simp, ?_, e3⟩
    · intro i hi hd
      rw [hl] at hi
      rw [e1, e2]
      exact hg i hi hd
    · unfold liveIn; rw [hl]
  | true =>
    simp only [if_true] at e4
    obtain ⟨inst, hdom, hl, hasr, hiasr⟩ := e4
    have ha2 : liveIn Domain.asr d = [inst] := by
      unfold liveIn at *
      rw [hl, List.filter_append, ha]
      simp [hdom]
    have hg2 : liveIn Domain.gpt d = liveIn Domain.gpt c := by
      unfold liveIn
      rw [hl, List.filter_append]
      simp [hdom]
    refine ⟨?_, ?_, by rw [ha2]; simp, hg2, e3⟩
    · intro i hi hd
      have : i ∈ liveIn Domain.asr d := (mem_liveIn _ _ _).2 ⟨hi, hd⟩
      rw [ha2] at this
      simp only [List.mem_singleton] at this
      subst this
      exact ⟨hasr, hiasr⟩
    · intro i hi hd
      have : i ∈ liveIn Domain.gpt d := (mem_liveIn _ _ _).2 ⟨hi, hd⟩
      rw [hg2] at this
      rw [e1, e2]
      exact hg i ((mem_liveIn _ _ _).1 this).1 hd

theorem destroyASR_frame (c : NVIGIContext) :
    (destroyASR c).heap = c.heap ∧ (destroyASR c).calls = c.calls ∧
    (destroyASR c).nextHandle = c.nextHandle ∧
    (destroyASR c).m_gptPluginModels = c.m_gptPluginModels ∧
    (destroyASR c).m_asrPluginModels = c.m_asrPluginModels ∧
    (destroyASR c).m_gptIndex = c.m_gptIndex ∧ (destroyASR c).m_asrIndex = c.m_asrIndex ∧
    (destroyASR c).m_gptReady = c.m_gptReady ∧ (destroyASR c).m_asrReady = c.m_asrReady ∧
    (destroyASR c).m_d3d12Params = c.m_d3d12Params ∧ (destroyASR c).m_igpt = c.m_igpt ∧
    (destroyASR c).m_iasr = c.m_iasr ∧ (destroyASR c).m_gpt = c.m_gpt ∧
    (destroyASR c).m_loadingThread = c.m_loadingThread := by
  unfold destroyASR
  cases h : c.m_iasr <;> simp [h]

theorem destroyASR_live_sublist (c : NVIGIContext) : (destroyASR c).live.Sublist c.live := by
  unfold destroyASR
  cases c.m_iasr
  · exact List.Sublist.refl _
  · exact List.filter_sublist _

/-- After the destroy step no speech-recognition instance is live. -/
theorem destroyASR_liveIn (c : NVIGIContext) (h : AsrTracked c) :
    liveIn Domain.asr (destroyASR c) = [] := by
  unfold liveIn
  rw [List.filter_eq_nil_iff]
  intro i hi hd
  have hd2 : i.domain = Domain.asr := by simpa using hd
  have hmem : i ∈ c.live := (destroyASR_live_sublist c).subset hi
  obtain ⟨hg, hig⟩ := h i hmem hd2
  unfold destroyASR at hi
  cases hcase : c.m_iasr with
  | none => exact hig hcase
  | some f =>
    rw [hcase] at hi
    simp only [List.mem_filter, decide_eq_true_eq] at hi
    exact hi.2 hg.symm

theorem liveIn_length_of_sublist (d : Domain) (c e : NVIGIContext) (h : e.live.Sublist c.live) :
    (liveIn d e).length ≤ (liveIn d c).length :=
  (List.Sublist.filter _ h).length_le

/-- Joining the load thread keeps the lifecycle invariant and leaves no pending task. -/
theorem joinLoadingThread_inv (rt : Runtime) (c d : NVIGIContext)
    (h : joinLoadingThread rt c = .ok d) (hinv : LifecycleInv c) :
    LifecycleInv d ∧ d.m_loadingThread = none := by
  obtain ⟨hg, ha, hng, hna, hp⟩ := hinv
  unfold joinLoadingThread at h
  cases hlt : c.m_loadingThread with
  | none =>
    rw [hlt] at h
    injection h with h
    subst h
    exact ⟨⟨hg, ha, hng, hna, hp⟩, hlt⟩
  | some task =>
    rw [hlt] at h
    simp only at h
    unfold PendingOk at hp
    rw [hlt] at hp
    cases task with
    | loadASR =>
      simp only at hp
      simp only [runTask, loadASR, bind_eq_ok] at h
      obtain ⟨c1, h1, h2⟩ := h
      obtain ⟨b1, e1⟩ := loadInitialGPT_post rt _ c1 h1
      obtain ⟨b2, e2⟩ := loadInitialASR_post rt c1 d h2
      have hl0 : ({ c with m_loadingThread := none } : NVIGIContext).live = [] := hp
      obtain ⟨g1, a1, n1, la1, t1⟩ := GptEffect_inv _ c1 b1 e1 (by simp [liveIn, hp])
        (tracked_of_liveIn_nil_asr _ (by simp [liveIn, hp]))
      have la0 : liveIn Domain.asr c1 = [] := by rw [la1]; simp [liveIn, hp]
      obtain ⟨a2, g2, n2, lg2, t2⟩ := AsrEffect_inv c1 d b2 e2 la0 g1
      have hlt2 : d.m_loadingThread = none := by rw [t2, t1]
      refine ⟨⟨g2, a2, by rw [lg2]; exact n1, n2, ?_⟩, hlt2⟩
      unfold PendingOk
      rw [hlt2]
      trivial
    | loadModelGPT prevIndex prevInfo newInfo params1 =>
      simp only at hp
      simp only [runTask] at h
      obtain ⟨b, e⟩ := loadModelGPT_post rt _ d _ _ _ _ h
      obtain ⟨g1, a1, n1, la1, t1⟩ := GptEffect_inv _ d b e hp ha
      have hlt2 : d.m_loadingThread = none := t1
      refine ⟨⟨g1, a1, n1, by rw [la1]; exact hna, ?_⟩, hlt2⟩
      unfold PendingOk
      rw [hlt2]
      trivial
    | loadModelASR newInfo =>
      simp only at hp
      simp only [runTask] at h
      obtain ⟨b, e⟩ := loadModelASR_post rt _ d _ h
      obtain ⟨a1, g1, n1, lg1, t1⟩ := AsrEffect_inv _ d b e hp hg
      have hlt2 : d.m_loadingThread = none := t1
      refine ⟨⟨g1, a1, by rw [lg1]; exact hng, n1, ?_⟩, hlt2⟩
      unfold PendingOk
      rw [hlt2]
      trivial

theorem LifecycleInv_same (c d : NVIGIContext) (hs : SameBook c d) (h : LifecycleInv c) :
    LifecycleInv d := by
  obtain ⟨s1, s2, s3, s4, s5, s6⟩ := hs
  obtain ⟨hg, ha, hng, hna, hp⟩ := h
  refine ⟨?_, ?_, ?_, ?_, ?_⟩
  · intro i hi hd
    rw [s5] at hi
    rw [s3, s4]
    exact hg i hi hd
  · intro i hi hd
    rw [s5] at hi
    rw [s1, s2]
    exact ha i hi hd
  · unfold liveIn at *; rw [s5]; exact hng
  · unfold liveIn at *; rw [s5]; exact hna
  · unfold PendingOk liveIn at *
    rw [s6, s5]
    exact hp

/-- The foreground part of a text-generation swap keeps the lifecycle invariant. -/
theorem ReloadGPTModel_inv (rt : Runtime) (c d : NVIGIContext) (index : Int)
    (h : ReloadGPTModel rt c index = .ok d) (hinv : LifecycleInv c) : LifecycleInv d := by
  unfold ReloadGPTModel at h
  simp only [bind_eq_ok] at h
  obtain ⟨c0, hjoin, prevInfo, _, newInfo, _, r, _, h⟩ := h
  obtain ⟨hinv0, hlt0⟩ := joinLoadingThread_inv rt c c0 hjoin hinv
  split at h
  · injection h with h
    subst h
    exact LifecycleInv_same c0 _ (by simp [SameBook]) hinv0
  · rename_i p hp
    injection h with h
    subst h
    have hx : LifecycleInv
        { c0 with m_conversationInitialized := false, m_gptIndex := index, heap := r.1,
                  m_gptReady := false } :=
      LifecycleInv_same c0 _ (by simp [SameBook]) hinv0
    obtain ⟨hg, ha, hng, hna, _⟩ := hx
    obtain ⟨_, _, _, _, _, _, _, _, _, _, _, fiasr, fasr, _⟩ := destroyGPT_frame
      { c0 with m_conversationInitialized := false, m_gptIndex := index, heap := r.1,
                m_gptReady := false }
    have hsub := destroyGPT_live_sublist
      { c0 with m_conversationInitialized := false, m_gptIndex := index, heap := r.1,
                m_gptReady := false }
    have hnil := destroyGPT_liveIn _ hg
    refine ⟨?_, ?_, ?_, ?_, ?_⟩
    · exact tracked_of_liveIn_nil_gpt _ hnil
    · intro i hi hd
      have hi2 := hsub.subset hi
      have := ha i hi2 hd
      simpa [fiasr, fasr] using this
    · have : liveIn Domain.gpt _ = [] := hnil
      simp only [liveIn] at this ⊢
      rw [this]
      simp
    · exact le_trans (liveIn_length_of_sublist Domain.asr _ _ hsub) hna
    · exact hnil

/-- The foreground part of a speech-recognition swap keeps the lifecycle invariant. -/
theorem ReloadASRModel_inv (rt : Runtime) (c d : NVIGIContext) (index : Int)
    (h : ReloadASRModel rt c index = .ok d) (hinv : LifecycleInv c) : LifecycleInv d := by
  unfold ReloadASRModel at h
  simp only [bind_eq_ok] at h
  obtain ⟨c0, hjoin, newInfo, _, h⟩ := h
  obtain ⟨hinv0, hlt0⟩ := joinLoadingThread_inv rt c c0 hjoin hinv
  injection h with h
  subst h
  have hx : LifecycleInv { c0 with m_asrReady := false, m_asrIndex := index } :=
    LifecycleInv_same c0 _ (by simp [SameBook]) hinv0
  obtain ⟨hg, ha, hng, hna, _⟩ := hx
  obtain ⟨_, _, _, _, _, _, _, _, _, _, figpt, _, fgpt, _⟩ := destroyASR_frame
    { c0 with m_asrReady := false, m_asrIndex := index }
  have hsub := destroyASR_live_sublist { c0 with m_asrReady := false, m_asrIndex := index }
  have hnil := destroyASR_liveIn _ ha
  refine ⟨?_, ?_, ?_, ?_, ?_⟩
  · intro i hi hd
    have hi2 := hsub.subset hi
    have := hg i hi2 hd
    simpa [figpt, fgpt] using this
  · exact tracked_of_liveIn_nil_asr _ hnil
  · exact le_trans (liveIn_length_of_sublist Domain.gpt _ _ hsub) hng
  · have : liveIn Domain.asr _ = [] := hnil
    simp only [liveIn] at this ⊢
    rw [this]
    simp
  · exact hnil

/-- Every reachable state satisfies the lifecycle invariant. -/
theorem Reachable_inv (rt : Runtime) (s : NVIGIContext) (h : Reachable rt s) :
    LifecycleInv s := by
  induction h with
  | init ctx hl =>
    refine ⟨?_, ?_, ?_, ?_, ?_⟩
    · intro i hi; simp [Initialize_postDevice, hl] at hi
    · intro i hi; simp [Initialize_postDevice, hl] at hi
    · simp [liveIn, Initialize_postDevice, hl]
    · simp [liveIn, Initialize_postDevice, hl]
    · simp [PendingOk, Initialize_postDevice, hl]
  | step c d op _ hop ih =>
    cases op with
    | reloadGPT index => exact ReloadGPTModel_inv rt c d index hop ih
    | reloadASR index => exact ReloadASRModel_inv rt c d index hop ih
    | join => exact (joinLoadingThread_inv rt c d hop ih).1

/-- C6: at most one live instance per domain. In every state the lifecycle reaches from
`Initialize_postDevice` (started with no live instance) through the initial load task,
`ReloadGPTModel`, `ReloadASRModel` and the joins of their load tasks, rollback included, at
most one text-generation instance and at most one speech-recognition instance is live. -/
theorem C6_at_most_one_live_instance (rt : Runtime) (s : NVIGIContext) (h : Reachable rt s) :
    (liveIn Domain.gpt s).length ≤ 1 ∧ (liveIn Domain.asr s).length ≤ 1 := by
  obtain ⟨_, _, hg, ha, _⟩ := Reachable_inv rt s h
  exact ⟨hg, ha⟩

/-- After the join no load task is pending. -/
theorem joinLoadingThread_idle (rt : Runtime) (c d : NVIGIContext)
    (h : joinLoadingThread rt c = .ok d) : d.m_loadingThread = none := by
  unfold joinLoadingThread at h
  cases hlt : c.m_loadingThread with
  | none =>
    rw [hlt] at h
    injection h with h
    subst h
    exact hlt
  | some task =>
    rw [hlt] at h
    simp only at h
    cases task with
    | loadASR =>
      simp only [runTask, loadASR, bind_eq_ok] at h
      obtain ⟨c1, h1, h2⟩ := h
      obtain ⟨b1, e1⟩ := loadInitialGPT_post rt _ c1 h1
      obtain ⟨b2, e2⟩ := loadInitialASR_post rt c1 d h2
      rw [e2.2.2.1, e1.2.2.1]
    | loadModelGPT prevIndex prevInfo newInfo params1 =>
      simp only [runTask] at h
      obtain ⟨b, e⟩ := loadModelGPT_post rt _ d _ _ _ _ h
      rw [e.2.2.1]
    | loadModelASR newInfo =>
      simp only [runTask] at h
      obtain ⟨b, e⟩ := loadModelASR_post rt _ d _ h
      rw [e.2.2.1]

/-- A speech-recognition build that returns null had no model at the selection. -/
theorem GetASRCreationParams_none (ctx : NVIGIContext) (h : Heap)
    (hb : GetASRCreationParams ctx false none = .ok (h, none)) :
    GetASRPluginModel ctx ctx.m_asrIndex = .ok none := by
  cases hsel : GetASRPluginModel ctx ctx.m_asrIndex with
  | error e => rw [GetASRCreationParams_fault ctx none e hsel] at hb; cases hb
  | ok oinfo =>
    cases oinfo with
    | none => rfl
    | some info =>
      obtain ⟨h2, hrun, _⟩ := GetASRCreationParams_selected ctx none info hsel
      rw [hrun] at hb
      injection hb with hb
      injection hb with _ hp
      cases hp

/-- C5, amended: when the creation parameters for the requested index cannot be built, a
speech-recognition swap ends, once its load task has finished, with `m_asrReady = false`
whatever it was before; a text-generation swap starts no load task and returns with
`m_gptReady` and `m_gptIndex` as they were when the call began its work (after the join of the
earlier task), so a domain that was ready stays ready on its previous model. -/
theorem C5_build_failure_outcome (rt : Runtime) (ctx c0 : NVIGIContext) (index : Int) (h : Heap)
    (hjoin : joinLoadingThread rt ctx = .ok c0) :
    (GetASRCreationParams { c0 with m_asrReady := false, m_asrIndex := index } false none =
        .ok (h, none) →
      ∃ c1 c3, ReloadASRModel rt ctx index = .ok c1 ∧ joinLoadingThread rt c1 = .ok c3 ∧
        c3.m_asrReady = false) ∧
    (∀ prevInfo, GetGPTPluginModel c0 c0.m_gptIndex = .ok prevInfo →
      GetGPTCreationParams rt { c0 with m_conversationInitialized := false, m_gptIndex := index }
        false none = .ok (h, none) →
      ∃ c1, ReloadGPTModel rt ctx index = .ok c1 ∧ joinLoadingThread rt c1 = .ok c1 ∧
        c1.m_gptReady = c0.m_gptReady ∧ c1.m_gptIndex = c0.m_gptIndex) := by
  constructor
  · intro hb
    have hsel := GetASRCreationParams_none _ h hb
    have hsel2 : GetASRPluginModel { c0 with m_asrReady := false, m_asrIndex := index } index =
        .ok none := hsel
    obtain ⟨fheap, _, _, _, fam, _, fai, _, _, _, _, _, _, _⟩ :=
      destroyASR_frame { c0 with m_asrReady := false, m_asrIndex := index }
    have hsel3 : GetASRPluginModel
        { destroyASR { c0 with m_asrReady := false, m_asrIndex := index } with
          m_loadingThread := none }
        ({ destroyASR { c0 with m_asrReady := false, m_asrIndex := index } with
          m_loadingThread := none } : NVIGIContext).m_asrIndex = .ok none := by
      simp only [GetASRPluginModel, fam, fai]
      exact hsel
    refine ⟨{ destroyASR { c0 with m_asrReady := false, m_asrIndex := index } with
        m_loadingThread := some (LoadTask.loadModelASR none) },
      { destroyASR { c0 with m_asrReady := false, m_asrIndex := index } with
        m_loadingThread := none, m_asrReady := false }, ?_, ?_, ?_⟩
    · simp only [ReloadASRModel, hjoin, Except.bind, hsel2]
    · simp only [joinLoadingThread, runTask, loadModelASR,
        GetASRCreationParams_unselected _ none hsel3, Except.bind]
    · rfl
  · intro prevInfo hprev hb
    have hprev2 : GetGPTPluginModel { c0 with m_conversationInitialized := false } c0.m_gptIndex =
        .ok prevInfo := hprev
    have hidle := joinLoadingThread_idle rt ctx c0 hjoin
    cases hsel : GetGPTPluginModel
        { c0 with m_conversationInitialized := false, m_gptIndex := index } index with
    | error e =>
      rw [GetGPTCreationParams_fault rt _ none e hsel] at hb
      cases hb
    | ok newInfo =>
      refine ⟨{ c0 with m_conversationInitialized := false, heap := h }, ?_, ?_, rfl, rfl⟩
      · simp only [ReloadGPTModel, hjoin, Except.bind, hprev2, hsel, hb]
      · simp only [joinLoadingThread, hidle]

/-- C4 at a concrete input, the scenario of the claim: entry A (local) is selected and
loaded, entry B (cloud) fails to create; swapping to B ends with A selected, ready, and A's
recreated instance the only live text-generation instance. -/
theorem C4_swap_outcome_witness :
    ∃ c1 c3, ReloadGPTModel swapRuntime loadedContext 1 = .ok c1 ∧
      joinLoadingThread swapRuntime c1 = .ok c3 ∧
      c3.m_gptIndex = 0 ∧ c3.m_gptReady = true ∧
      liveIn Domain.gpt c3 = [⟨1, Domain.gpt, PluginID.gpt_ggml_cuda,
        gptChainBlocks swapRuntime [] sampleLocalModel⟩] := by
  obtain ⟨c1, c3, h1, h2, _, hb, _⟩ :=
    C4_swap_outcome swapRuntime loadedContext loadedContext 1 (some sampleLocalModel)
      sampleCloudModel rfl (by simp [GptTracked, loadedContext]) rfl rfl rfl
  exact ⟨c1, c3, h1, h2, hb rfl sampleLocalModel rfl rfl⟩

/-- C5 as stated fails for text generation: the local entry is loaded and ready, the cloud
entry's credential is unset, so the parameters for index 1 cannot be built; after
`ReloadGPTModel(1)` and the join, `m_gptReady` is still true. -/
theorem C5_counterexample_gpt_stays_ready :
    ∃ h c1 c3,
      GetGPTCreationParams sampleRuntime
        { loadedContext with m_conversationInitialized := false, m_gptIndex := 1 } false none =
        .ok (h, none) ∧
      ReloadGPTModel sampleRuntime loadedContext 1 = .ok c1 ∧
      joinLoadingThread sampleRuntime c1 = .ok c3 ∧ c3.m_gptReady = true :=
  ⟨_, _, _, rfl, rfl, rfl, rfl⟩

/-- C5, amended, at a concrete input: the requested index is -1 in a context whose local
entries are loaded. -/
theorem C5_build_failure_outcome_witness :
    (∃ c1 c3, ReloadASRModel sampleRuntime loadedContext (-1) = .ok c1 ∧
      joinLoadingThread sampleRuntime c1 = .ok c3 ∧ c3.m_asrReady = false) ∧
    (∃ c1, ReloadGPTModel sampleRuntime loadedContext (-1) = .ok c1 ∧
      joinLoadingThread sampleRuntime c1 = .ok c1 ∧
      c1.m_gptReady = true ∧ c1.m_gptIndex = 0) :=
  ⟨(C5_build_failure_outcome sampleRuntime loadedContext loadedContext (-1) loadedContext.heap
      rfl).1 rfl,
    (C5_build_failure_outcome sampleRuntime loadedContext loadedContext (-1) loadedContext.heap
      rfl).2 (some sampleLocalModel) rfl rfl⟩

/-- C6 at a concrete reachable state: startup, a swap to the failing cloud entry, and the
join of its load task. -/
theorem C6_at_most_one_live_instance_witness :
    (liveIn Domain.gpt swappedContext).length ≤ 1 ∧
      (liveIn Domain.asr swappedContext).length ≤ 1 :=
  C6_at_most_one_live_instance swapRuntime swappedContext
    (Reachable.step _ _ LifecycleOp.join
      (Reachable.step _ _ (LifecycleOp.reloadGPT 1) (Reachable.init sampleContext rfl) rfl) rfl)

/-! ## Catalog population -/

/-- The method `AddGPTPlugin` whenever the compatibility check returns: it completes, appends exactly the
backend's contribution to the text-generation catalog and leaves the other catalog alone. -/
theorem AddGPTPlugin_spec (rt : Runtime) (ctx : NVIGIContext) (id : PluginID)
    (name root : String) (compat : Bool) (hc : CheckPluginCompat ctx id = .ok compat) :
    ∃ d b, AddGPTPlugin rt ctx id name root = .ok (d, b) ∧
      d.m_gptPluginModels = ctx.m_gptPluginModels ++ gptContribution rt ctx compat id name root ∧
      d.m_asrPluginModels = ctx.m_asrPluginModels ∧ SameSetup ctx d ∧
      d.calls = ctx.calls + (if compat then (if rt.loadInterface ctx.calls id then 2 else 1)
        else 0) := by
  obtain ⟨h1, hrun, hcont, _, hch, hbrk⟩ := GetGPTCreationParams_generic rt ctx (some root)
  have hlen : (buildAddrs ctx.heap.brk (hardwareBlocks ctx).length 0).length ≤ h1.brk := by
    rw [buildAddrs_length, hbrk]; omega
  obtain ⟨h2, hfree, _⟩ := FreeCreationParams_ok h1 _ _ hch hlen
  have hcont2 : h1.contents (some (ctx.heap.brk + 1)) = .ok (genericGptBlocks ctx root) := by
    rw [hcont]; rfl
  unfold AddGPTPlugin gptContribution
  cases compat with
  | false => exact ⟨ctx, false, by simp [hc, Except.bind], by simp, rfl, by simp [SameSetup], by simp⟩
  | true =>
    cases hli : rt.loadInterface ctx.calls id with
    | false =>
      exact ⟨{ ctx with calls := ctx.calls + 1 }, false, by simp [hc, Except.bind, hli], by simp,
        rfl, by simp [SameSetup], by simp⟩
    | true =>
      cases hq : (rt.getCaps (ctx.calls + 1) id (genericGptBlocks ctx root)).apply none with
      | none =>
        exact ⟨{ ctx with calls := ctx.calls + 2, heap := h2 }, false,
          by simp [hc, Except.bind, hli, hrun, hcont2, hq, hfree, Except.map],
          by simp, rfl, by simp [SameSetup], by simp⟩
      | some models =>
        exact ⟨{ ctx with calls := ctx.calls + 2, heap := h2,
                          m_gptPluginModels := ctx.m_gptPluginModels ++
                            models.models.map (localEntry rt id name root) }, true,
          by simp [hc, Except.bind, hli, hrun, hcont2, hq, hfree, Except.map],
          by simp, rfl, by simp [SameSetup], by simp⟩

/-- The method `AddASRPlugin` whenever the compatibility check returns: it completes, appends exactly the
backend's contribution to the speech-recognition catalog and leaves the other catalog alone. -/
theorem AddASRPlugin_spec (rt : Runtime) (ctx : NVIGIContext) (id : PluginID)
    (name root : String) (compat : Bool) (hc : CheckPluginCompat ctx id = .ok compat) :
    ∃ d b, AddASRPlugin rt ctx id name root = .ok (d, b) ∧
      d.m_asrPluginModels = ctx.m_asrPluginModels ++ asrContribution rt ctx compat id name root ∧
      d.m_gptPluginModels = ctx.m_gptPluginModels ∧ SameSetup ctx d ∧
      d.calls = ctx.calls + (if compat then (if rt.loadInterface ctx.calls id then 2 else 1)
        else 0) := by
  obtain ⟨h1, hrun, hcont, _, hch, hbrk⟩ := GetASRCreationParams_generic ctx (some root)
  have hlen : (buildAddrs ctx.heap.brk (hardwareBlocks ctx).length 0).length ≤ h1.brk := by
    rw [buildAddrs_length, hbrk]; omega
  obtain ⟨h2, hfree, _⟩ := FreeCreationParams_ok h1 _ _ hch hlen
  have hcont2 : h1.contents (some (ctx.heap.brk + 1)) = .ok (genericAsrBlocks ctx root) := by
    rw [hcont]; rfl
  unfold AddASRPlugin asrContribution
  cases compat with
  | false => exact ⟨ctx, false, by simp [hc, Except.bind], by simp, rfl, by simp [SameSetup], by simp⟩
  | true =>
    cases hli : rt.loadInterface ctx.calls id with
    | false =>
      exact ⟨{ ctx with calls := ctx.calls + 1 }, false, by simp [hc, Except.bind, hli], by simp,
        rfl, by simp [SameSetup], by simp⟩
    | true =>
      cases hq : rt.getCapsASR (ctx.calls + 1) id (genericAsrBlocks ctx root) with
      | none =>
        exact ⟨{ ctx with calls := ctx.calls + 2, heap := h2 }, false,
          by simp [hc, Except.bind, hli, hrun, hcont2, hq, hfree, Except.map],
          by simp, rfl, by simp [SameSetup], by simp⟩
      | some models =>
        exact ⟨{ ctx with calls := ctx.calls + 2, heap := h2,
                          m_asrPluginModels := ctx.m_asrPluginModels ++
                            models.models.map (localEntry rt id name root) }, true,
          by simp [hc, Except.bind, hli, hrun, hcont2, hq, hfree, Except.map],
          by simp, rfl, by simp [SameSetup], by simp⟩

/-- The cloud backend is skipped, with both catalogs as they were, when it is incompatible,
when its interface fails to load or when its first capability query returns nothing. -/
theorem AddGPTCloudPlugin_skip (rt : Runtime) (ctx : NVIGIContext) (compat : Bool)
    (hc : CheckPluginCompat ctx PluginID.gpt_cloud_rest = .ok compat)
    (hskip : compat = false ∨ rt.loadInterface ctx.calls PluginID.gpt_cloud_rest = false ∨
      (rt.getCaps (ctx.calls + 1) PluginID.gpt_cloud_rest
        (genericGptBlocks ctx ctx.m_shippedModelsPath)).apply none = none) :
    ∃ d, AddGPTCloudPlugin rt ctx = .ok (d, false) ∧
      d.m_gptPluginModels = ctx.m_gptPluginModels ∧
      d.m_asrPluginModels = ctx.m_asrPluginModels ∧ SameSetup ctx d := by
  obtain ⟨h1, hrun, hcont, _, hch, hbrk⟩ := GetGPTCreationParams_generic rt ctx none
  have hlen : (buildAddrs ctx.heap.brk (hardwareBlocks ctx).length 0).length ≤ h1.brk := by
    rw [buildAddrs_length, hbrk]; omega
  obtain ⟨h2, hfree, _⟩ := FreeCreationParams_ok h1 _ _ hch hlen
  have hcont2 : h1.contents (some (ctx.heap.brk + 1)) =
      .ok (genericGptBlocks ctx ctx.m_shippedModelsPath) := by
    rw [hcont]; rfl
  unfold AddGPTCloudPlugin
  cases compat with
  | false => exact ⟨ctx, by simp [hc, Except.bind], rfl, rfl, by simp [SameSetup]⟩
  | true =>
    cases hli : rt.loadInterface ctx.calls PluginID.gpt_cloud_rest with
    | false =>
      exact ⟨{ ctx with calls := ctx.calls + 1 }, by simp [hc, Except.bind, hli], rfl, rfl,
        by simp [SameSetup]⟩
    | true =>
      rcases hskip with h | h | h
      · cases h
      · rw [hli] at h; cases h
      · exact ⟨{ ctx with calls := ctx.calls + 2, heap := h2 },
          by simp [hc, Except.bind, hli, hrun, hcont2, h, hfree, Except.map], rfl, rfl,
          by simp [SameSetup]⟩

/-- The per-model loop of the cloud backend, when it completes, has appended one entry per
item, in order, each of status `AVAILABLE_CLOUD`, and touched nothing else of the catalogs. -/
theorem cloudModelLoop_post (rt : Runtime) (id : PluginID) (name : String)
    (commonParams : Option Nat) (params1 : Nat) (items : List (String × String)) :
    ∀ (c d : NVIGIContext) (models : Option Caps),
      cloudModelLoop rt id name commonParams params1 items c models = .ok d →
      d.m_asrPluginModels = c.m_asrPluginModels ∧ SameSetup c d ∧
      ∃ entries, d.m_gptPluginModels = c.m_gptPluginModels ++ entries ∧
        entries.map (fun e => (e.m_guid, e.m_modelName)) = items ∧
        ∀ e ∈ entries, e.m_modelStatus = ModelStatus.AVAILABLE_CLOUD ∧ e.m_featureID = id := by
  induction items with
  | nil =>
    intro c d models h
    simp only [cloudModelLoop] at h
    injection h with h
    subst h
    exact ⟨rfl, by simp [SameSetup], [], by simp, rfl, by simp⟩
  | cons item rest ih =>
    intro c d models h
    simp only [cloudModelLoop, bind_eq_ok] at h
    obtain ⟨cp, _, b, _, h1, _, blocks, _, caps, _, url, _, h⟩ := h
    obtain ⟨ha, hs, entries, hg, hm, hall⟩ := ih _ d _ h
    refine ⟨ha, ?_, cloudEntry id name c.m_shippedModelsPath item.1 item.2 url :: entries, ?_, ?_, ?_⟩
    · simpa [SameSetup] using hs
    · rw [hg]; simp
    · simp [hm, cloudEntry]
    · intro e he
      rcases List.mem_cons.1 he with h0 | h0
      · subst h0; exact ⟨rfl, rfl⟩
      · exact hall e h0

theorem SameSetup_trans (c d e : NVIGIContext) (h1 : SameSetup c d) (h2 : SameSetup d e) :
    SameSetup c e := by
  unfold SameSetup at h1 h2 ⊢
  refine ⟨h2.1.trans h1.1, h2.2.1.trans h1.2.1, h2.2.2.1.trans h1.2.2.1, ?_, ?_, ?_⟩
  · exact h2.2.2.2.1.trans h1.2.2.2.1
  · exact h2.2.2.2.2.1.trans h1.2.2.2.2.1
  · exact h2.2.2.2.2.2.trans h1.2.2.2.2.2

theorem CheckPluginCompat_congr (c d : NVIGIContext) (id : PluginID) (h : SameSetup c d) :
    CheckPluginCompat d id = CheckPluginCompat c id := by
  unfold CheckPluginCompat
  rw [h.1, h.2.1]

/-- The method `AddGPTCloudPlugin`, when it completes, has appended only entries of the cloud backend
with status `AVAILABLE_CLOUD` and left the speech-recognition catalog alone. -/
theorem AddGPTCloudPlugin_post (rt : Runtime) (c d : NVIGIContext) (b : Bool)
    (h : AddGPTCloudPlugin rt c = .ok (d, b)) :
    d.m_asrPluginModels = c.m_asrPluginModels ∧ SameSetup c d ∧
    ∃ entries, d.m_gptPluginModels = c.m_gptPluginModels ++ entries ∧
      ∀ e ∈ entries, e.m_modelStatus = ModelStatus.AVAILABLE_CLOUD ∧
        e.m_featureID = PluginID.gpt_cloud_rest := by
  unfold AddGPTCloudPlugin at h
  simp only [bind_eq_ok] at h
  obtain ⟨compat, _, h⟩ := h
  split at h
  · split at h
    · simp only [bind_eq_ok] at h
      obtain ⟨r, _, h⟩ := h
      split at h
      · injection h with h
        injection h with h1 h2
        subst h1
        exact ⟨rfl, by simp [SameSetup], [], by simp, by simp⟩
      · simp only [bind_eq_ok] at h
        obtain ⟨blocks, _, h⟩ := h
        split at h
        · simp only [map_eq_ok] at h
          obtain ⟨h2, _, h⟩ := h
          injection h with h1 _
          subst h1
          exact ⟨rfl, by simp [SameSetup], [], by simp, by simp⟩
        · simp only [bind_eq_ok, map_eq_ok] at h
          obtain ⟨cp, _, c1, hloop, h2, _, h⟩ := h
          injection h with h1 _
          subst h1
          obtain ⟨ha, hs, entries, hg, _, hall⟩ := cloudModelLoop_post rt _ _ _ _ _ _ c1 _ hloop
          exact ⟨ha, by simpa [SameSetup] using hs, entries, hg, hall⟩
    · injection h with h
      injection h with h1 h2
      subst h1
      exact ⟨rfl, by simp [SameSetup], [], by simp, by simp⟩
  · injection h with h
    injection h with h1 h2
    subst h1
    exact ⟨rfl, by simp [SameSetup], [], by simp, by simp⟩

theorem AddGPTPlugin_compat (rt : Runtime) (c : NVIGIContext) (id : PluginID)
    (name root : String) (r : NVIGIContext × Bool)
    (h : AddGPTPlugin rt c id name root = .ok r) :
    ∃ compat, CheckPluginCompat c id = .ok compat := by
  unfold AddGPTPlugin at h
  simp only [bind_eq_ok] at h
  obtain ⟨compat, hc, _⟩ := h
  exact ⟨compat, hc⟩

theorem AddASRPlugin_compat (rt : Runtime) (c : NVIGIContext) (id : PluginID)
    (name root : String) (r : NVIGIContext × Bool)
    (h : AddASRPlugin rt c id name root = .ok r) :
    ∃ compat, CheckPluginCompat c id = .ok compat := by
  unfold AddASRPlugin at h
  simp only [bind_eq_ok] at h
  obtain ⟨compat, hc, _⟩ := h
  exact ⟨compat, hc⟩

/-- Catalog population in a fixed order: when `Initialize_preDeviceManager` completes, the
text-generation catalog is the initial one followed by the contributions of `ggml.cuda`, of
the cloud backend and of `onnxgenai`, in that order, and the speech-recognition catalog is the
initial one followed by the contributions of `ggml.cuda` and `ggml.cpu`; a skipped backend
contributes the empty list and the later ones are still asked; the selected indices are the
default selections over the final catalogs. -/
theorem Initialize_preDeviceManager_catalogs (rt : Runtime) (ctx d : NVIGIContext)
    (h : Initialize_preDeviceManager rt ctx = .ok d) :
    ∃ (c2 c4 c5 : NVIGIContext) (k1 k3 k5 k6 : Bool) (cloud : List PluginModelInfo),
      CheckPluginCompat (selectAdapter ctx) PluginID.gpt_ggml_cuda = .ok k1 ∧
      CheckPluginCompat (selectAdapter ctx) PluginID.gpt_onnxgenai_dml = .ok k3 ∧
      CheckPluginCompat (selectAdapter ctx) PluginID.asr_ggml_cuda = .ok k5 ∧
      CheckPluginCompat (selectAdapter ctx) PluginID.asr_ggml_cpu = .ok k6 ∧
      SameSetup (selectAdapter ctx) c2 ∧ c4.m_d3d12Params = ctx.m_d3d12Params ∧
      c5.m_d3d12Params = ctx.m_d3d12Params ∧
      (∀ e ∈ cloud, e.m_modelStatus = ModelStatus.AVAILABLE_CLOUD ∧
        e.m_featureID = PluginID.gpt_cloud_rest) ∧
      d.m_gptPluginModels = ctx.m_gptPluginModels ++
        gptContribution rt (selectAdapter ctx) k1 PluginID.gpt_ggml_cuda "ggml.cuda"
          ctx.m_shippedModelsPath ++ cloud ++
        gptContribution rt c2 k3 PluginID.gpt_onnxgenai_dml "onnxgenai"
          ctx.m_shippedModelsPath ∧
      d.m_asrPluginModels = ctx.m_asrPluginModels ++
        asrContribution rt c4 k5 PluginID.asr_ggml_cuda "ggml.cuda" ctx.m_shippedModelsPath ++
        asrContribution rt c5 k6 PluginID.asr_ggml_cpu "ggml.cpu" ctx.m_shippedModelsPath ∧
      d.m_gptIndex = defaultIndex d.m_gptPluginModels ctx.m_gptIndex ∧
      d.m_asrIndex = defaultIndex d.m_asrPluginModels ctx.m_asrIndex := by
  unfold Initialize_preDeviceManager at h
  simp only [bind_eq_ok] at h
  obtain ⟨r1, h1, r2, h2, r3, h3, r5, h5, r6, h6, hd⟩ := h
  injection hd with hd
  subst hd
  have hs0 : (selectAdapter ctx).m_shippedModelsPath = ctx.m_shippedModelsPath := rfl
  have hg0 : (selectAdapter ctx).m_gptPluginModels = ctx.m_gptPluginModels := rfl
  have ha0 : (selectAdapter ctx).m_asrPluginModels = ctx.m_asrPluginModels := rfl
  have hd0 : (selectAdapter ctx).m_d3d12Params = ctx.m_d3d12Params := rfl
  -- ggml.cuda
  obtain ⟨k1, hk1⟩ := AddGPTPlugin_compat rt _ _ _ _ r1 h1
  obtain ⟨d1, b1, e1, g1, a1, s1, _⟩ := AddGPTPlugin_spec rt (selectAdapter ctx)
    PluginID.gpt_ggml_cuda "ggml.cuda" (selectAdapter ctx).m_shippedModelsPath k1 hk1
  rw [e1] at h1
  injection h1 with h1
  subst h1
  -- cloud.rest
  obtain ⟨a2, s2, cloud, g2, hcloud⟩ := AddGPTCloudPlugin_post rt d1 r2.1 r2.2 h2
  have s02 := SameSetup_trans _ _ _ s1 s2
  -- onnxgenai
  obtain ⟨k3, hk3⟩ := AddGPTPlugin_compat rt _ _ _ _ r3 h3
  obtain ⟨d3, b3, e3, g3, a3, s3, _⟩ := AddGPTPlugin_spec rt r2.1
    PluginID.gpt_onnxgenai_dml "onnxgenai" r2.1.m_shippedModelsPath k3 hk3
  rw [e3] at h3
  injection h3 with h3
  subst h3
  have s03 := SameSetup_trans _ _ _ s02 s3
  -- ggml.cuda (speech recognition)
  obtain ⟨k5, hk5⟩ := AddASRPlugin_compat rt _ _ _ _ r5 h5
  obtain ⟨d5, b5, e5, a5, g5, s5, _⟩ := AddASRPlugin_spec rt (selectDefaultGPT d3)
    PluginID.asr_ggml_cuda "ggml.cuda" (selectDefaultGPT d3).m_shippedModelsPath k5 hk5
  rw [e5] at h5
  injection h5 with h5
  subst h5
  -- ggml.cpu
  obtain ⟨k6, hk6⟩ := AddASRPlugin_compat rt _ _ _ _ r6 h6
  obtain ⟨d6, b6, e6, a6, g6, s6, _⟩ := AddASRPlugin_spec rt d5
    PluginID.asr_ggml_cpu "ggml.cpu" d5.m_shippedModelsPath k6 hk6
  rw [e6] at h6
  injection h6 with h6
  subst h6
  have hp3 : (selectDefaultGPT d3).m_pluginInfo = (selectAdapter ctx).m_pluginInfo := s03.1
  have hm3 : (selectDefaultGPT d3).m_adapter = (selectAdapter ctx).m_adapter := s03.2.1
  have hk5b : CheckPluginCompat (selectAdapter ctx) PluginID.asr_ggml_cuda = .ok k5 := by
    rw [← hk5]; unfold CheckPluginCompat; rw [hp3, hm3]
  have hk6b : CheckPluginCompat (selectAdapter ctx) PluginID.asr_ggml_cpu = .ok k6 := by
    rw [← hk6]; unfold CheckPluginCompat; rw [s5.1, s5.2.1, hp3, hm3]
  have hk3b : CheckPluginCompat (selectAdapter ctx) PluginID.gpt_onnxgenai_dml = .ok k3 := by
    rw [← hk3]; exact (CheckPluginCompat_congr _ _ _ s02).symm
  have hsh2 : r2.1.m_shippedModelsPath = ctx.m_shippedModelsPath := s02.2.2.1
  have hsh4 : (selectDefaultGPT d3).m_shippedModelsPath = ctx.m_shippedModelsPath := s03.2.2.1
  have hsh5 : d5.m_shippedModelsPath = ctx.m_shippedModelsPath := by
    rw [s5.2.2.1]; exact hsh4
  have hgsame : (selectDefaultASR d6).m_gptPluginModels = d3.m_gptPluginModels := by
    show d6.m_gptPluginModels = _
    rw [g6, g5]
    rfl
  have hgi : d3.m_gptIndex = ctx.m_gptIndex := s03.2.2.2.2.1
  have hai : d6.m_asrIndex = ctx.m_asrIndex := by
    rw [s6.2.2.2.2.2, s5.2.2.2.2.2]
    exact s03.2.2.2.2.2
  refine ⟨r2.1, selectDefaultGPT d3, d5, k1, k3, k5, k6, cloud, hk1, hk3b, hk5b, hk6b, s02,
    s03.2.2.2.1, ?_, hcloud, ?_, ?_, ?_, ?_⟩
  · rw [s5.2.2.2.1]; exact s03.2.2.2.1
  · show (selectDefaultASR d6).m_gptPluginModels = _
    have : (selectDefaultASR d6).m_gptPluginModels = d6.m_gptPluginModels := rfl
    rw [this, g6, g5]
    show d3.m_gptPluginModels = _
    rw [g3, g2, g1, hg0, hs0, hsh2]
  · show (selectDefaultASR d6).m_asrPluginModels = _
    have : (selectDefaultASR d6).m_asrPluginModels = d6.m_asrPluginModels := rfl
    rw [this, a6, a5, hsh4, hsh5]
    show d3.m_asrPluginModels ++ _ ++ _ = _
    rw [a3, a2, a1, ha0]
  · rw [hgsame, ← hgi]
    show d6.m_gptIndex = _
    rw [s6.2.2.2.2.1, s5.2.2.2.2.1]
    rfl
  · show defaultIndex d6.m_asrPluginModels d6.m_asrIndex = _
    rw [hai]
    rfl

/-- With an adapter of another vendor selected the NVIDIA-only backends are skipped and the
later backends are still populated. -/
theorem population_skips_incompatible_backend :
    (Initialize_preDeviceManager populationRuntime otherVendorContext).map
        (fun c => (c.m_gptPluginModels.map (fun e => e.m_caption),
          c.m_asrPluginModels.map (fun e => e.m_caption))) =
      .ok (["cloud.rest : nim"], ["ggml.cpu : whisper"]) := rfl

/-- C10, at the failing input: no adapter is detected, the detected `ggml.cuda` backends
require the NVIDIA vendor, and the cloud backend, which accepts any vendor, reports one model.
The claim says the incompatible `ggml.cuda` backend is skipped and the cloud backend is still
populated; the code stops in the compatibility check of `ggml.cuda`, reading the vendor of the
absent adapter, so no backend is populated, although the cloud backend on its own contributes
its entry in this very context. -/
theorem C10_population_aborts_without_adapter :
    Initialize_preDeviceManager populationRuntime noAdapterContext = .error Fault.nullDeref ∧
    CheckPluginCompat (selectAdapter noAdapterContext) PluginID.gpt_ggml_cuda =
      .error Fault.nullDeref ∧
    (AddGPTCloudPlugin populationRuntime (selectAdapter noAdapterContext)).map
        (fun r => r.1.m_gptPluginModels.map (fun e => e.m_caption)) =
      .ok ["cloud.rest : nim"] :=
  ⟨rfl, rfl, rfl⟩


/-! ## Status classification of catalog entries -/

theorem Heap.toList_mem_cells (h : Heap) :
    ∀ (fuel : Nat) (p : Option Nat) (l : List (Nat × BlockData)), h.toList fuel p = .ok l →
      ∀ x ∈ l, ∃ b, h.cells x.1 = some b ∧ b.data = x.2 := by
  intro fuel
  induction fuel with
  | zero =>
    intro p l hl x hx
    cases p with
    | none => simp [Heap.toList] at hl; subst hl; simp at hx
    | some a => simp [Heap.toList] at hl
  | succ n ih =>
    intro p l hl x hx
    cases p with
    | none => simp [Heap.toList] at hl; subst hl; simp at hx
    | some a =>
      simp only [Heap.toList, bind_eq_ok, map_eq_ok] at hl
      obtain ⟨b, hb, rest, hrest, hl⟩ := hl
      subst hl
      rcases List.mem_cons.1 hx with h0 | h0
      · subst h0
        unfold Heap.read at hb
        cases hc : h.cells a with
        | none => simp [hc] at hb
        | some b0 =>
          simp [hc] at hb
          subst hb
          exact ⟨b0, rfl, rfl⟩
      · exact ih _ _ hrest x h0

/-- Overwriting the payload of the block at `c`, its link kept, changes the blocks of a chain
at `c` only. -/
theorem Heap.toList_write_data (h h1 : Heap) (c : Nat) (b : Block) (d : BlockData)
    (hb : h.cells c = some b) (hw : h.write c ⟨b.next, d⟩ = .ok h1) :
    ∀ (fuel : Nat) (p : Option Nat) (l : List (Nat × BlockData)), h.toList fuel p = .ok l →
      h1.toList fuel p = .ok (l.map fun x => if x.1 = c then (x.1, d) else x) := by
  have hcells : ∀ q, h1.cells q = if q = c then some ⟨b.next, d⟩ else h.cells q := by
    intro q
    simp [Heap.write, hb] at hw
    rw [← hw]
  intro fuel
  induction fuel with
  | zero =>
    intro p l hl
    cases p with
    | none => simp [Heap.toList] at hl ⊢; subst hl; rfl
    | some a => simp [Heap.toList] at hl
  | succ n ih =>
    intro p l hl
    cases p with
    | none => simp [Heap.toList] at hl ⊢; subst hl; rfl
    | some a =>
      simp only [Heap.toList, bind_eq_ok, map_eq_ok] at hl ⊢
      obtain ⟨b0, hb0, rest, hrest, hl⟩ := hl
      subst hl
      have hb0c : h.cells a = some b0 := by
        unfold Heap.read at hb0
        cases hc : h.cells a with
        | none => simp [hc] at hb0
        | some b1 => simp [hc] at hb0; rw [hb0]
      by_cases hac : a = c
      · subst hac
        rw [hb] at hb0c
        injection hb0c with hb0c
        subst hb0c
        refine ⟨⟨b.next, d⟩, by simp [Heap.read, hcells], _, ih _ _ hrest, by simp⟩
      · refine ⟨b0, by simp [Heap.read, hcells, hac, hb0c], _, ih _ _ hrest, by simp [hac]⟩

theorem Heap.IsChain_write_data (h h1 : Heap) (c : Nat) (b : Block) (d : BlockData)
    (hb : h.cells c = some b) (hw : h.write c ⟨b.next, d⟩ = .ok h1) (as : List Nat) :
    ∀ (p : Option Nat), h.IsChain p as → h1.IsChain p as := by
  have hcells : ∀ q, h1.cells q = if q = c then some ⟨b.next, d⟩ else h.cells q := by
    intro q
    simp [Heap.write, hb] at hw
    rw [← hw]
  induction as with
  | nil =>
    intro p hp
    cases p with
    | none => trivial
    | some a => exact hp
  | cons a as ih =>
    intro p hp
    cases p with
    | none => exact hp
    | some q =>
      obtain ⟨hq, b0, hb0, hrest⟩ := hp
      refine ⟨hq, ?_⟩
      by_cases hac : a = c
      · subst hac
        rw [hb] at hb0
        injection hb0 with hb0
        subst hb0
        exact ⟨⟨b.next, d⟩, by simp [hcells], ih _ hrest⟩
      · exact ⟨b0, by simp [hcells, hac, hb0], ih _ hrest⟩

theorem bindModelGUID_twice (b : BlockData) (g g1 : String) :
    bindModelGUID (bindModelGUID b g) g1 = bindModelGUID b g1 := by
  cases b <;> rfl

theorem boundBlocks_twice (blocks : List BlockData) (g g1 : String) :
    boundBlocks (boundBlocks blocks g) g1 = boundBlocks blocks g1 := by
  simp [boundBlocks, bindModelGUID_twice]

theorem cloudQueryUrls_bound (rt : Runtime) (id : PluginID) (blocks : List BlockData) (g : String)
    (items : List (String × String)) :
    ∀ (n : Nat) (models : Option Caps),
      cloudQueryUrls rt id (boundBlocks blocks g) n models items =
        cloudQueryUrls rt id blocks n models items := by
  induction items with
  | nil => intro n models; rfl
  | cons item rest ih =>
    intro n models
    simp only [cloudQueryUrls, boundBlocks_twice, ih]

/-- One pass of the per-model loop on the free store: after the model identifier is bound, the
chain holds the same blocks with `guid` in the common block, and is as fit for the next pass. -/
theorem CloudChain_bind (h : Heap) (p c : Nat) (blocks : List BlockData) (as : List Nat)
    (guid : String) (hinv : CloudChain h p c blocks as) :
    ∃ b h1, h.read c = .ok b ∧ h.write c ⟨b.next, bindModelGUID b.data guid⟩ = .ok h1 ∧
      h1.contents (some p) = .ok (boundBlocks blocks guid) ∧
      CloudChain h1 p c (boundBlocks blocks guid) as ∧ h1.brk = h.brk ∧ h1.events = h.events := by
  obtain ⟨⟨l, hl, hmap, hstable⟩, ⟨b, hb⟩, hchain, hlen⟩ := hinv
  have hw : h.write c ⟨b.next, bindModelGUID b.data guid⟩ =
      .ok { h with cells := fun q =>
        if q = c then some ⟨b.next, bindModelGUID b.data guid⟩ else h.cells q } := by
    simp [Heap.write, hb]
  have hl1 := Heap.toList_write_data h _ c b _ hb hw _ _ _ hl
  have hdata : ∀ x ∈ l, x.1 = c → x.2 = b.data := by
    intro x hx hxc
    obtain ⟨b0, hb0, hd⟩ := Heap.toList_mem_cells h _ _ _ hl x hx
    rw [hxc, hb] at hb0
    injection hb0 with hb0
    rw [← hd, ← hb0]
  refine ⟨b, _, by simp [Heap.read, hb], hw, ?_, ⟨⟨_, hl1, ?_, ?_⟩, ⟨⟨b.next, bindModelGUID b.data guid⟩, by simp⟩, ?_, hlen⟩, rfl, rfl⟩
  · simp only [Heap.contents, map_eq_ok]
    refine ⟨_, hl1, ?_⟩
    rw [← hmap]
    simp only [boundBlocks, List.map_map]
    apply List.map_congr_left
    intro x hx
    by_cases hxc : x.1 = c
    · simp [hxc, ← hdata x hx hxc]
    · simp [hxc, hstable x hx hxc]
  · rw [← hmap]
    simp only [boundBlocks, List.map_map]
    apply List.map_congr_left
    intro x hx
    by_cases hxc : x.1 = c
    · simp [hxc, ← hdata x hx hxc]
    · simp [hxc, hstable x hx hxc]
  · intro x hx hxc g
    obtain ⟨y, hy, hyx⟩ := List.mem_map.1 hx
    by_cases hyc : y.1 = c
    · simp [hyc] at hyx
      rw [← hyx] at hxc
      exact absurd rfl hxc
    · simp [hyc] at hyx
      rw [← hyx]
      exact hstable y hy hyc g
  · exact Heap.IsChain_write_data h _ c b _ hb hw as _ hchain

/-- The per-model loop of the cloud backend completes whenever every pass finds a URL behind
the out-parameter, and then appends, for each item in order, the cloud entry with the URL read
after the query with this item's identifier bound. -/
theorem cloudModelLoop_spec (rt : Runtime) (id : PluginID) (name : String) (p c : Nat)
    (as : List Nat) (items : List (String × String)) :
    ∀ (ctx : NVIGIContext) (models : Option Caps) (blocks : List BlockData) (urls : List String),
      CloudChain ctx.heap p c blocks as →
      cloudQueryUrls rt id blocks ctx.calls models items = some urls →
      ∃ d, cloudModelLoop rt id name (some c) p items ctx models = .ok d ∧
        d.m_gptPluginModels = ctx.m_gptPluginModels ++
          List.zipWith (fun item url => cloudEntry id name ctx.m_shippedModelsPath item.1 item.2 url)
            items urls ∧
        d.m_asrPluginModels = ctx.m_asrPluginModels ∧ SameSetup ctx d ∧
        d.heap.IsChain (some p) as ∧ as.length ≤ d.heap.brk ∧
        d.heap.events = ctx.heap.events := by
  induction items with
  | nil =>
    intro ctx models blocks urls hinv hq
    simp [cloudQueryUrls] at hq
    subst hq
    exact ⟨ctx, rfl, by simp, rfl, by simp [SameSetup], hinv.2.2.1, hinv.2.2.2, rfl⟩
  | cons item rest ih =>
    intro ctx models blocks urls hinv hq
    simp only [cloudQueryUrls] at hq
    cases hcaps : (rt.getCaps ctx.calls id (boundBlocks blocks item.1)).apply models with
    | none => simp [hcaps] at hq
    | some caps =>
      cases hurl : caps.cloudUrl with
      | none => simp [hcaps, hurl] at hq
      | some url =>
        simp only [hcaps, hurl, Option.map_eq_some'] at hq
        obtain ⟨us, hus, hurls⟩ := hq
        subst hurls
        obtain ⟨b, h1, hread, hwrite, hcont, hinv1, hbrk, hev⟩ :=
          CloudChain_bind ctx.heap p c blocks as item.1 hinv
        rw [← cloudQueryUrls_bound rt id blocks item.1] at hus
        obtain ⟨d, hd, hg, ha, hs, hch, hl, he⟩ :=
          ih { ctx with heap := h1, calls := ctx.calls + 1,
                        m_gptPluginModels := ctx.m_gptPluginModels ++
                          [cloudEntry id name ctx.m_shippedModelsPath item.1 item.2 url] }
            (some caps) (boundBlocks blocks item.1) us hinv1 hus
        refine ⟨d, ?_, ?_, ha, ?_, hch, hl, ?_⟩
        · simp only [cloudModelLoop, deref, Except.bind, hread, hwrite, hcont, hcaps, hurl]
          exact hd
        · rw [hg]; simp
        · simpa [SameSetup] using hs
        · rw [he, hev]

/-- The free store after a generic text-generation build, as the cloud backend's population
uses it: `findStruct` finds the common block, which is the only one of the chain. -/
theorem GetGPTCreationParams_generic_cloud (rt : Runtime) (ctx : NVIGIContext)
    (mr : Option String) :
    ∃ h1, GetGPTCreationParams rt ctx true mr = .ok (h1, some (ctx.heap.brk + 1)) ∧
      h1.contents (some (ctx.heap.brk + 1)) =
        .ok (genericGptBlocks ctx (resolveModelRoot ctx none mr)) ∧
      h1.findCommon h1.brk (some (ctx.heap.brk + 1)) = .ok (some ctx.heap.brk) ∧
      CloudChain h1 (ctx.heap.brk + 1) ctx.heap.brk
        (genericGptBlocks ctx (resolveModelRoot ctx none mr))
        (buildAddrs ctx.heap.brk (hardwareBlocks ctx).length 0) ∧
      h1.events = ctx.heap.events := by
  cases hd : ctx.m_d3d12Params <;>
  simp [Nat.add_assoc, GetGPTCreationParams, chainD3D12, hd, Except.bind, Heap.new, Heap.chain,
    Heap.lastOf, Heap.read, Heap.write, Heap.toList, Except.map, Heap.contents, hardwareBlocks,
    Heap.IsChain, buildAddrs, List.range_succ, genericGptBlocks, Heap.findCommon, CloudChain,
    bindModelGUID]
  · rintro a b (⟨_, hb⟩ | ⟨ha, _⟩) hne g
    · subst hb; rfl
    · exact absurd ha hne
  · rintro a b (⟨_, hb⟩ | ⟨_, hb⟩ | ⟨ha, _⟩) hne g
    · subst hb; rfl
    · subst hb; rfl
    · exact absurd ha hne

/-- The method `AddGPTCloudPlugin` when the backend is compatible, its interface loads, the
first query reports `models` and every pass of the per-model loop finds a URL behind the
out-parameter: it completes and appends one cloud entry per reported model, in order, each
with the URL its pass read (`cloudQueryUrls`). -/
theorem AddGPTCloudPlugin_spec (rt : Runtime) (ctx : NVIGIContext) (models : Caps)
    (urls : List String)
    (hc : CheckPluginCompat ctx PluginID.gpt_cloud_rest = .ok true)
    (hli : rt.loadInterface ctx.calls PluginID.gpt_cloud_rest = true)
    (hq : (rt.getCaps (ctx.calls + 1) PluginID.gpt_cloud_rest
      (genericGptBlocks ctx ctx.m_shippedModelsPath)).apply none = some models)
    (hu : cloudQueryUrls rt PluginID.gpt_cloud_rest (genericGptBlocks ctx ctx.m_shippedModelsPath)
      (ctx.calls + 2) (some models) (models.models.map fun m => (m.guid, m.name)) = some urls) :
    ∃ d, AddGPTCloudPlugin rt ctx = .ok (d, true) ∧
      d.m_gptPluginModels = ctx.m_gptPluginModels ++
        List.zipWith (fun m url => cloudEntry PluginID.gpt_cloud_rest "cloud.rest"
          ctx.m_shippedModelsPath m.guid m.name url) models.models urls ∧
      d.m_asrPluginModels = ctx.m_asrPluginModels ∧ SameSetup ctx d := by
  obtain ⟨h1, hrun, hcont, hfind, hinv, _⟩ := GetGPTCreationParams_generic_cloud rt ctx none
  have hroot : resolveModelRoot ctx none none = ctx.m_shippedModelsPath := rfl
  rw [hroot] at hcont hinv
  obtain ⟨d, hd, hg, ha, hs, hch, hl, _⟩ :=
    cloudModelLoop_spec rt PluginID.gpt_cloud_rest "cloud.rest" (ctx.heap.brk + 1) ctx.heap.brk _
      (models.models.map fun m => (m.guid, m.name))
      { ctx with calls := ctx.calls + 2, heap := h1 } (some models) _ urls hinv hu
  obtain ⟨h2, hfree, _⟩ := FreeCreationParams_ok d.heap _ _ hch hl
  refine ⟨{ d with heap := h2 }, ?_, ?_, ha, ?_⟩
  · simp only [AddGPTCloudPlugin, hc, Except.bind, hli, hrun, hcont, hq, hfind, hd, hfree,
      Except.map, if_true]
  · simp only [hg, List.zipWith_map_left]
  · simpa [SameSetup] using hs

theorem gptContribution_eq (rt : Runtime) (ctx : NVIGIContext) (compat : Bool) (id : PluginID)
    (name root : String) :
    gptContribution rt ctx compat id name root =
      (reportedGPT rt ctx compat id root).map (localEntry rt id name root) := by
  unfold gptContribution reportedGPT
  split
  · split <;> simp_all
  · rfl

theorem asrContribution_eq (rt : Runtime) (ctx : NVIGIContext) (compat : Bool) (id : PluginID)
    (name root : String) :
    asrContribution rt ctx compat id name root =
      (reportedASR rt ctx compat id root).map (localEntry rt id name root) := by
  unfold asrContribution reportedASR
  split
  · split <;> simp_all
  · rfl

/-- The entry the code builds for a reported model of a local backend is the one the spec
prescribes. -/
theorem localEntry_isLocalEntryFor (rt : Runtime) (id : PluginID) (name root : String)
    (m : ModelCaps) : IsLocalEntryFor rt id name m (localEntry rt id name root m) := by
  refine ⟨rfl, rfl, rfl, rfl, rfl, ?_, ?_⟩
  · intro h; simp [localEntry, h]
  · intro h; simp [localEntry, h]

theorem forall₂_map_localEntry (rt : Runtime) (id : PluginID) (name root : String)
    (ms : List ModelCaps) :
    List.Forall₂ (IsLocalEntryFor rt id name) ms (ms.map (localEntry rt id name root)) := by
  induction ms with
  | nil => exact List.Forall₂.nil
  | cons m ms ih => exact List.Forall₂.cons (localEntry_isLocalEntryFor rt id name root m) ih

theorem forall₂_zipWith_cloudEntry (shipped : String) (ms : List ModelCaps) :
    ∀ (urls : List String), ms.length = urls.length →
      List.Forall₂ (fun (mu : ModelCaps × String) e => IsCloudEntryFor mu.1 mu.2 e) (ms.zip urls)
        (List.zipWith (fun m url => cloudEntry PluginID.gpt_cloud_rest "cloud.rest" shipped
          m.guid m.name url) ms urls) := by
  induction ms with
  | nil => intro urls _; simp
  | cons m ms ih =>
    intro urls hl
    cases urls with
    | nil => simp at hl
    | cons u us =>
      simp only [List.zip_cons_cons, List.zipWith_cons_cons]
      exact List.Forall₂.cons ⟨rfl, rfl, rfl, rfl, rfl, rfl⟩ (ih us (by simpa using hl))

theorem cloudQueryUrls_length (rt : Runtime) (id : PluginID) (generic : List BlockData)
    (items : List (String × String)) :
    ∀ (n : Nat) (models : Option Caps) (urls : List String),
      cloudQueryUrls rt id generic n models items = some urls → urls.length = items.length := by
  induction items with
  | nil => intro n models urls h; simp [cloudQueryUrls] at h; subst h; rfl
  | cons item rest ih =>
    intro n models urls h
    simp only [cloudQueryUrls] at h
    split at h
    · split at h
      · simp only [Option.map_eq_some'] at h
        obtain ⟨us, hus, hu⟩ := h
        subst hu
        simp [ih _ _ _ hus]
      · cases h
    · cases h

theorem mem_gptContribution (rt : Runtime) (ctx : NVIGIContext) (compat : Bool) (id : PluginID)
    (name root : String) (e : PluginModelInfo) (he : e ∈ gptContribution rt ctx compat id name root) :
    e.m_featureID = id ∧ e.m_modelStatus ≠ ModelStatus.AVAILABLE_CLOUD := by
  rw [gptContribution_eq] at he
  obtain ⟨m, _, hm⟩ := List.mem_map.1 he
  subst hm
  refine ⟨rfl, ?_⟩
  simp only [localEntry]
  split <;> simp

theorem mem_asrContribution (rt : Runtime) (ctx : NVIGIContext) (compat : Bool) (id : PluginID)
    (name root : String) (e : PluginModelInfo) (he : e ∈ asrContribution rt ctx compat id name root) :
    e.m_featureID = id ∧ e.m_modelStatus ≠ ModelStatus.AVAILABLE_CLOUD := by
  rw [asrContribution_eq] at he
  obtain ⟨m, _, hm⟩ := List.mem_map.1 he
  subst hm
  refine ⟨rfl, ?_⟩
  simp only [localEntry]
  split <;> simp

/-- The per-model loop of the cloud backend stops in a read through a null pointer as soon as
a per-model query leaves no capabilities, or capabilities without a cloud block. -/
theorem cloudModelLoop_fault (rt : Runtime) (id : PluginID) (name : String) (p c : Nat)
    (as : List Nat) (items : List (String × String)) :
    ∀ (ctx : NVIGIContext) (models : Option Caps) (blocks : List BlockData),
      CloudChain ctx.heap p c blocks as →
      cloudQueryUrls rt id blocks ctx.calls models items = none →
      cloudModelLoop rt id name (some c) p items ctx models = .error Fault.nullDeref := by
  induction items with
  | nil =>
    intro ctx models blocks _ hq
    simp [cloudQueryUrls] at hq
  | cons item rest ih =>
    intro ctx models blocks hinv hq
    obtain ⟨b, h1, hread, hwrite, hcont, hinv1, _, _⟩ :=
      CloudChain_bind ctx.heap p c blocks as item.1 hinv
    simp only [cloudQueryUrls] at hq
    cases hcaps : (rt.getCaps ctx.calls id (boundBlocks blocks item.1)).apply models with
    | none => simp [cloudModelLoop, deref, Except.bind, hread, hwrite, hcont, hcaps]
    | some caps =>
      cases hurl : caps.cloudUrl with
      | none => simp [cloudModelLoop, deref, Except.bind, hread, hwrite, hcont, hcaps, hurl]
      | some url =>
        simp only [hcaps, hurl, Option.map_eq_none'] at hq
        rw [← cloudQueryUrls_bound rt id blocks item.1] at hq
        have := ih { ctx with heap := h1, calls := ctx.calls + 1,
                              m_gptPluginModels := ctx.m_gptPluginModels ++
                                [cloudEntry id name ctx.m_shippedModelsPath item.1 item.2 url] }
          (some caps) (boundBlocks blocks item.1) hinv1 hq
        simp only [cloudModelLoop, deref, Except.bind, hread, hwrite, hcont, hcaps, hurl]
        exact this

/-- The method `AddGPTCloudPlugin` when the first query reports `models` and some pass of the
per-model loop finds no URL behind the out-parameter: the call does not return. -/
theorem AddGPTCloudPlugin_fault (rt : Runtime) (ctx : NVIGIContext) (models : Caps)
    (hc : CheckPluginCompat ctx PluginID.gpt_cloud_rest = .ok true)
    (hli : rt.loadInterface ctx.calls PluginID.gpt_cloud_rest = true)
    (hq : (rt.getCaps (ctx.calls + 1) PluginID.gpt_cloud_rest
      (genericGptBlocks ctx ctx.m_shippedModelsPath)).apply none = some models)
    (hu : cloudQueryUrls rt PluginID.gpt_cloud_rest (genericGptBlocks ctx ctx.m_shippedModelsPath)
      (ctx.calls + 2) (some models) (models.models.map fun m => (m.guid, m.name)) = none) :
    AddGPTCloudPlugin rt ctx = .error Fault.nullDeref := by
  obtain ⟨h1, hrun, hcont, hfind, hinv, _⟩ := GetGPTCreationParams_generic_cloud rt ctx none
  have hroot : resolveModelRoot ctx none none = ctx.m_shippedModelsPath := rfl
  rw [hroot] at hcont hinv
  have hloop := cloudModelLoop_fault rt PluginID.gpt_cloud_rest "cloud.rest" (ctx.heap.brk + 1)
    ctx.heap.brk _ (models.models.map fun m => (m.guid, m.name))
    { ctx with calls := ctx.calls + 2, heap := h1 } (some models) _ hinv hu
  simp only [AddGPTCloudPlugin, hc, Except.bind, hli, hrun, hcont, hq, hfind, hloop, if_true]

/-- Every return of `AddGPTCloudPlugin` with `true` comes from a first query that reported
models and passes of the per-model loop that all found a URL behind the out-parameter, and
the entries appended are the cloud entries of these models with the URLs read. -/
theorem AddGPTCloudPlugin_returns_true (rt : Runtime) (ctx d : NVIGIContext)
    (h : AddGPTCloudPlugin rt ctx = .ok (d, true)) :
    ∃ (models : Caps) (urls : List String),
      (rt.getCaps (ctx.calls + 1) PluginID.gpt_cloud_rest
        (genericGptBlocks ctx ctx.m_shippedModelsPath)).apply none = some models ∧
      cloudQueryUrls rt PluginID.gpt_cloud_rest (genericGptBlocks ctx ctx.m_shippedModelsPath)
        (ctx.calls + 2) (some models) (models.models.map fun m => (m.guid, m.name)) = some urls ∧
      d.m_gptPluginModels = ctx.m_gptPluginModels ++
        List.zipWith (fun m url => cloudEntry PluginID.gpt_cloud_rest "cloud.rest"
          ctx.m_shippedModelsPath m.guid m.name url) models.models urls := by
  have hcompat : ∃ compat, CheckPluginCompat ctx PluginID.gpt_cloud_rest = .ok compat := by
    unfold AddGPTCloudPlugin at h
    simp only [bind_eq_ok] at h
    obtain ⟨compat, hc, _⟩ := h
    exact ⟨compat, hc⟩
  obtain ⟨compat, hc⟩ := hcompat
  have hskip : ∀ (hs : compat = false ∨
      rt.loadInterface ctx.calls PluginID.gpt_cloud_rest = false ∨
      (rt.getCaps (ctx.calls + 1) PluginID.gpt_cloud_rest
        (genericGptBlocks ctx ctx.m_shippedModelsPath)).apply none = none), False := by
    intro hs
    obtain ⟨d1, hd1, _⟩ := AddGPTCloudPlugin_skip rt ctx compat hc hs
    rw [hd1] at h
    injection h with h
    injection h with _ hb
    cases hb
  cases compat with
  | false => exact absurd (Or.inl rfl) hskip
  | true =>
    cases hli : rt.loadInterface ctx.calls PluginID.gpt_cloud_rest with
    | false => exact absurd (Or.inr (Or.inl hli)) hskip
    | true =>
      cases hq : (rt.getCaps (ctx.calls + 1) PluginID.gpt_cloud_rest
          (genericGptBlocks ctx ctx.m_shippedModelsPath)).apply none with
      | none => exact absurd (Or.inr (Or.inr hq)) hskip
      | some models =>
        cases hu : cloudQueryUrls rt PluginID.gpt_cloud_rest
            (genericGptBlocks ctx ctx.m_shippedModelsPath) (ctx.calls + 2) (some models)
            (models.models.map fun m => (m.guid, m.name)) with
        | none =>
          rw [AddGPTCloudPlugin_fault rt ctx models hc hli hq hu] at h
          cases h
        | some urls =>
          obtain ⟨d1, hd1, hg, _⟩ := AddGPTCloudPlugin_spec rt ctx models urls hc hli hq hu
          rw [hd1] at h
          injection h with h
          injection h with hd _
          subst hd
          exact ⟨models, urls, rfl, hu, hg⟩

/-- Every return of `AddGPTCloudPlugin` with `false` has left the catalog as it was. -/
theorem AddGPTCloudPlugin_returns_false (rt : Runtime) (ctx d : NVIGIContext)
    (h : AddGPTCloudPlugin rt ctx = .ok (d, false)) :
    d.m_gptPluginModels = ctx.m_gptPluginModels := by
  have hcompat : ∃ compat, CheckPluginCompat ctx PluginID.gpt_cloud_rest = .ok compat := by
    unfold AddGPTCloudPlugin at h
    simp only [bind_eq_ok] at h
    obtain ⟨compat, hc, _⟩ := h
    exact ⟨compat, hc⟩
  obtain ⟨compat, hc⟩ := hcompat
  have hskip : ∀ (_ : compat = false ∨
      rt.loadInterface ctx.calls PluginID.gpt_cloud_rest = false ∨
      (rt.getCaps (ctx.calls + 1) PluginID.gpt_cloud_rest
        (genericGptBlocks ctx ctx.m_shippedModelsPath)).apply none = none),
      d.m_gptPluginModels = ctx.m_gptPluginModels := by
    intro hs
    obtain ⟨d1, hd1, hg, _⟩ := AddGPTCloudPlugin_skip rt ctx compat hc hs
    rw [hd1] at h
    injection h with h
    injection h with hd _
    rw [← hd]
    exact hg
  cases compat with
  | false => exact hskip (Or.inl rfl)
  | true =>
    cases hli : rt.loadInterface ctx.calls PluginID.gpt_cloud_rest with
    | false => exact hskip (Or.inr (Or.inl hli))
    | true =>
      cases hq : (rt.getCaps (ctx.calls + 1) PluginID.gpt_cloud_rest
          (genericGptBlocks ctx ctx.m_shippedModelsPath)).apply none with
      | none => exact hskip (Or.inr (Or.inr hq))
      | some models =>
        cases hu : cloudQueryUrls rt PluginID.gpt_cloud_rest
            (genericGptBlocks ctx ctx.m_shippedModelsPath) (ctx.calls + 2) (some models)
            (models.models.map fun m => (m.guid, m.name)) with
        | none =>
          rw [AddGPTCloudPlugin_fault rt ctx models hc hli hq hu] at h
          cases h
        | some urls =>
          obtain ⟨d1, hd1, _⟩ := AddGPTCloudPlugin_spec rt ctx models urls hc hli hq hu
          rw [hd1] at h
          injection h with h
          injection h with _ hb
          cases hb

/-- The part of the status classification that holds on every input. `AddGPTPlugin` and
`AddASRPlugin`, whenever the compatibility check returns, complete and append one entry per
model the backend reports, in the reported order, each with the backend's id, the reported
name and identifier, the caption `name ++ " : " ++ model name`, and the status
`AVAILABLE_MANUAL_DOWNLOAD` when the model's flags meet the requires-download bit and
`AVAILABLE_LOCALLY` otherwise. `AddGPTCloudPlugin`, when every pass of its loop finds a URL
behind the out-parameter, completes and appends one entry per reported model with status
`AVAILABLE_CLOUD` and the URL that pass read (`cloudQueryUrls`, which is the previous query's
answer when the query of the pass failed); and on every path on which it returns, each entry
it appended is an `AVAILABLE_CLOUD` entry of the cloud backend, none when it returns `false`,
and the entries of the reported models with the URLs the passes read when it returns `true`.
Hence in the catalogs `Initialize_preDeviceManager` builds from empty ones an entry has status
`AVAILABLE_CLOUD` exactly when it belongs to the cloud backend. -/
theorem catalog_entry_status (rt : Runtime) (ctx : NVIGIContext) :
    (∀ (id : PluginID) (name root : String) (compat : Bool),
      CheckPluginCompat ctx id = .ok compat →
      ∃ d b entries, AddGPTPlugin rt ctx id name root = .ok (d, b) ∧
        d.m_gptPluginModels = ctx.m_gptPluginModels ++ entries ∧
        d.m_asrPluginModels = ctx.m_asrPluginModels ∧
        List.Forall₂ (IsLocalEntryFor rt id name) (reportedGPT rt ctx compat id root) entries) ∧
    (∀ (id : PluginID) (name root : String) (compat : Bool),
      CheckPluginCompat ctx id = .ok compat →
      ∃ d b entries, AddASRPlugin rt ctx id name root = .ok (d, b) ∧
        d.m_asrPluginModels = ctx.m_asrPluginModels ++ entries ∧
        d.m_gptPluginModels = ctx.m_gptPluginModels ∧
        List.Forall₂ (IsLocalEntryFor rt id name) (reportedASR rt ctx compat id root) entries) ∧
    (∀ (models : Caps) (urls : List String),
      CheckPluginCompat ctx PluginID.gpt_cloud_rest = .ok true →
      rt.loadInterface ctx.calls PluginID.gpt_cloud_rest = true →
      (rt.getCaps (ctx.calls + 1) PluginID.gpt_cloud_rest
        (genericGptBlocks ctx ctx.m_shippedModelsPath)).apply none = some models →
      cloudQueryUrls rt PluginID.gpt_cloud_rest (genericGptBlocks ctx ctx.m_shippedModelsPath)
        (ctx.calls + 2) (some models) (models.models.map fun m => (m.guid, m.name)) = some urls →
      ∃ d entries, AddGPTCloudPlugin rt ctx = .ok (d, true) ∧
        d.m_gptPluginModels = ctx.m_gptPluginModels ++ entries ∧
        d.m_asrPluginModels = ctx.m_asrPluginModels ∧
        List.Forall₂ (fun (mu : ModelCaps × String) e => IsCloudEntryFor mu.1 mu.2 e)
          (models.models.zip urls) entries ∧
        entries.length = models.models.length) ∧
    (∀ (d : NVIGIContext) (b : Bool), AddGPTCloudPlugin rt ctx = .ok (d, b) →
      ∃ entries, d.m_gptPluginModels = ctx.m_gptPluginModels ++ entries ∧
        (∀ e ∈ entries, e.m_modelStatus = ModelStatus.AVAILABLE_CLOUD ∧
          e.m_featureID = PluginID.gpt_cloud_rest) ∧
        (b = false → entries = []) ∧
        (b = true → ∃ (models : Caps) (urls : List String),
          (rt.getCaps (ctx.calls + 1) PluginID.gpt_cloud_rest
            (genericGptBlocks ctx ctx.m_shippedModelsPath)).apply none = some models ∧
          cloudQueryUrls rt PluginID.gpt_cloud_rest
            (genericGptBlocks ctx ctx.m_shippedModelsPath) (ctx.calls + 2) (some models)
            (models.models.map fun m => (m.guid, m.name)) = some urls ∧
          List.Forall₂ (fun (mu : ModelCaps × String) e => IsCloudEntryFor mu.1 mu.2 e)
            (models.models.zip urls) entries)) ∧
    (∀ d : NVIGIContext, Initialize_preDeviceManager rt ctx = .ok d →
      ctx.m_gptPluginModels = [] → ctx.m_asrPluginModels = [] →
      (∀ e ∈ d.m_gptPluginModels,
        e.m_modelStatus = ModelStatus.AVAILABLE_CLOUD ↔ e.m_featureID = PluginID.gpt_cloud_rest) ∧
      (∀ e ∈ d.m_asrPluginModels,
        e.m_modelStatus = ModelStatus.AVAILABLE_CLOUD ↔
          e.m_featureID = PluginID.gpt_cloud_rest)) := by
  refine ⟨?_, ?_, ?_, ?_, ?_⟩
  · intro id name root compat hc
    obtain ⟨d, b, hd, hg, ha, _, _⟩ := AddGPTPlugin_spec rt ctx id name root compat hc
    refine ⟨d, b, _, hd, hg, ha, ?_⟩
    rw [gptContribution_eq]
    exact forall₂_map_localEntry rt id name root _
  · intro id name root compat hc
    obtain ⟨d, b, hd, ha, hg, _, _⟩ := AddASRPlugin_spec rt ctx id name root compat hc
    refine ⟨d, b, _, hd, ha, hg, ?_⟩
    rw [asrContribution_eq]
    exact forall₂_map_localEntry rt id name root _
  · intro models urls hc hli hq hu
    obtain ⟨d, hd, hg, ha, _⟩ := AddGPTCloudPlugin_spec rt ctx models urls hc hli hq hu
    have hlen : models.models.length = urls.length := by
      have := cloudQueryUrls_length rt _ _ _ _ _ _ hu
      simpa using this.symm
    refine ⟨d, _, hd, hg, ha, forall₂_zipWith_cloudEntry _ _ _ hlen, ?_⟩
    simp [hlen]
  · intro d b hd
    obtain ⟨_, _, entries, hg, hall⟩ := AddGPTCloudPlugin_post rt ctx d b hd
    refine ⟨entries, hg, hall, ?_, ?_⟩
    · intro hb
      subst hb
      have h0 := AddGPTCloudPlugin_returns_false rt ctx d hd
      rw [hg] at h0
      exact List.append_right_eq_self.1 h0
    · intro hb
      subst hb
      obtain ⟨models, urls, hq, hu, hg1⟩ := AddGPTCloudPlugin_returns_true rt ctx d hd
      have hlen : models.models.length = urls.length := by
        have := cloudQueryUrls_length rt _ _ _ _ _ _ hu
        simpa using this.symm
      refine ⟨models, urls, hq, hu, ?_⟩
      rw [hg] at hg1
      rw [List.append_cancel_left hg1]
      exact forall₂_zipWith_cloudEntry _ _ _ hlen
  · intro d hd hg0 ha0
    obtain ⟨c2, c4, c5, k1, k3, k5, k6, cloud, _, _, _, _, _, _, _, hcloud, hg, ha, _, _⟩ :=
      Initialize_preDeviceManager_catalogs rt ctx d hd
    constructor
    · intro e he
      rw [hg, hg0] at he
      simp only [List.nil_append, List.mem_append] at he
      rcases he with (he | he) | he
      · obtain ⟨hid, hst⟩ := mem_gptContribution _ _ _ _ _ _ e he
        constructor
        · intro h; exact absurd h hst
        · intro h; rw [hid] at h; cases h
      · obtain ⟨hst, hid⟩ := hcloud e he
        exact ⟨fun _ => hid, fun _ => hst⟩
      · obtain ⟨hid, hst⟩ := mem_gptContribution _ _ _ _ _ _ e he
        constructor
        · intro h; exact absurd h hst
        · intro h; rw [hid] at h; cases h
    · intro e he
      rw [ha, ha0] at he
      simp only [List.nil_append, List.mem_append] at he
      rcases he with he | he
      · obtain ⟨hid, hst⟩ := mem_asrContribution _ _ _ _ _ _ e he
        constructor
        · intro h; exact absurd h hst
        · intro h; rw [hid] at h; cases h
      · obtain ⟨hid, hst⟩ := mem_asrContribution _ _ _ _ _ _ e he
        constructor
        · intro h; exact absurd h hst
        · intro h; rw [hid] at h; cases h

/-- The classification at a concrete startup: one NVIDIA adapter, the `ggml.cuda` backend
reporting two models and the cloud backend one model with its URL. -/
theorem catalog_entry_status_on_nvidia_adapter :
    (∃ d b entries,
      AddGPTPlugin populationRuntime (selectAdapter nvidiaContext) PluginID.gpt_ggml_cuda
        "ggml.cuda" "../../nvigi.models" = .ok (d, b) ∧
      d.m_gptPluginModels = (selectAdapter nvidiaContext).m_gptPluginModels ++ entries ∧
      d.m_asrPluginModels = (selectAdapter nvidiaContext).m_asrPluginModels ∧
      List.Forall₂ (IsLocalEntryFor populationRuntime PluginID.gpt_ggml_cuda "ggml.cuda")
        (reportedGPT populationRuntime (selectAdapter nvidiaContext) true PluginID.gpt_ggml_cuda
          "../../nvigi.models") entries) ∧
    (∃ d entries, AddGPTCloudPlugin populationRuntime (selectAdapter nvidiaContext) = .ok (d, true) ∧
      d.m_gptPluginModels = (selectAdapter nvidiaContext).m_gptPluginModels ++ entries ∧
      d.m_asrPluginModels = (selectAdapter nvidiaContext).m_asrPluginModels ∧
      List.Forall₂ (fun (mu : ModelCaps × String) e => IsCloudEntryFor mu.1 mu.2 e)
        ([(⟨"nim", "guid-c", 0⟩ : ModelCaps)].zip ["https://integrate.api.nvidia.com/v1"]) entries ∧
      entries.length = [(⟨"nim", "guid-c", 0⟩ : ModelCaps)].length) ∧
    ((∀ e ∈ (stateOf (Initialize_preDeviceManager populationRuntime nvidiaContext)).m_gptPluginModels,
        e.m_modelStatus = ModelStatus.AVAILABLE_CLOUD ↔ e.m_featureID = PluginID.gpt_cloud_rest) ∧
      (∀ e ∈ (stateOf (Initialize_preDeviceManager populationRuntime nvidiaContext)).m_asrPluginModels,
        e.m_modelStatus = ModelStatus.AVAILABLE_CLOUD ↔
          e.m_featureID = PluginID.gpt_cloud_rest)) :=
  ⟨(catalog_entry_status populationRuntime (selectAdapter nvidiaContext)).1
      PluginID.gpt_ggml_cuda "ggml.cuda" "../../nvigi.models" true rfl,
    (catalog_entry_status populationRuntime (selectAdapter nvidiaContext)).2.2.1
      ⟨[⟨"nim", "guid-c", 0⟩], some "https://integrate.api.nvidia.com/v1"⟩
      ["https://integrate.api.nvidia.com/v1"] rfl rfl rfl rfl,
    (catalog_entry_status populationRuntime nvidiaContext).2.2.2.2
      (stateOf (Initialize_preDeviceManager populationRuntime nvidiaContext)) rfl rfl rfl⟩

/-- The catalogs, the adapter and the default selections of a startup on one NVIDIA adapter:
the reported order is kept, the entry that requires a download is marked so, and the cloud
entry follows the entries of `ggml.cuda`. -/
theorem population_on_nvidia_adapter :
    (Initialize_preDeviceManager populationRuntime nvidiaContext).map
        (fun c => (c.m_gptPluginModels.map (fun e => (e.m_caption, e.m_modelStatus)),
          c.m_asrPluginModels.map (fun e => (e.m_caption, e.m_modelStatus)), c.m_adapter,
          c.m_gptIndex, c.m_asrIndex)) =
      .ok ([("ggml.cuda : llama", ModelStatus.AVAILABLE_LOCALLY),
            ("ggml.cuda : big", ModelStatus.AVAILABLE_MANUAL_DOWNLOAD),
            ("cloud.rest : nim", ModelStatus.AVAILABLE_CLOUD)],
           [("ggml.cuda : whisper", ModelStatus.AVAILABLE_LOCALLY),
            ("ggml.cpu : whisper", ModelStatus.AVAILABLE_LOCALLY)], 0, 0, 0) := rfl


/-! ## Composition of built chains -/

theorem base_composition (ctx : NVIGIContext) (head common : BlockData) (extra : List BlockData)
    (hh : head.isCommon = false ∧ head.isD3D12 = false)
    (hc : common.isCommon = true ∧ common.isD3D12 = false)
    (he : ∀ b ∈ extra, b.isCommon = false ∧ b.isD3D12 = false) :
    HasBaseComposition ctx ([head] ++ hardwareBlocks ctx ++ [common] ++ extra) := by
  have hcount : extra.countP BlockData.isCommon = 0 := by
    rw [List.countP_eq_zero]
    intro b hb
    simp [(he b hb).1]
  have hno : ¬ ∃ b ∈ extra, b.isD3D12 = true := by
    rintro ⟨b, hb, h⟩
    rw [(he b hb).2] at h
    cases h
  unfold HasBaseComposition
  cases hd : ctx.m_d3d12Params with
  | none =>
    simp only [hardwareBlocks, hd, List.append_nil, List.countP_append, List.countP_cons,
      List.countP_nil, hh.1, hc.1, hcount]
    refine ⟨by simp, ?_⟩
    constructor
    · rintro ⟨b, hb, h⟩
      simp only [List.mem_append, List.mem_singleton] at hb
      rcases hb with (hb | hb) | hb
      · subst hb; rw [hh.2] at h; cases h
      · subst hb; rw [hc.2] at h; cases h
      · exact absurd ⟨b, hb, h⟩ hno
    · intro h; exact absurd rfl h
  | some d =>
    simp only [hardwareBlocks, hd, List.countP_append, List.countP_cons,
      List.countP_nil, hh.1, hc.1, hcount]
    refine ⟨by simp [BlockData.isCommon], ?_⟩
    constructor
    · intro _; simp
    · intro _
      exact ⟨BlockData.D3D12Parameters d.1 d.2, by simp, rfl⟩

theorem GetGPTCreationParams_composition (rt : Runtime) (ctx : NVIGIContext) (genericInit : Bool)
    (modelRoot : Option String) (h1 : Heap) (p : Nat)
    (hb : GetGPTCreationParams rt ctx genericInit modelRoot = .ok (h1, some p)) :
    ∃ blocks, h1.contents (some p) = .ok blocks ∧ HasBaseComposition ctx blocks ∧
      (genericInit = true → NoBackendBlock blocks) ∧
      (genericInit = false → ∃ info, GetGPTPluginModel ctx ctx.m_gptIndex = .ok (some info) ∧
        HasBackendComposition info blocks) := by
  cases genericInit with
  | true =>
    obtain ⟨h2, hrun, hcont, _⟩ := GetGPTCreationParams_generic rt ctx modelRoot
    rw [hrun] at hb
    injection hb with hb
    injection hb with hh hp
    injection hp with hp
    subst hh hp
    refine ⟨_, hcont, ?_, ?_, fun h => by cases h⟩
    · have := base_composition ctx (BlockData.GPTCreationParameters (-1) 200 4096)
        (BlockData.CommonCreationParameters 1 8192 (resolveModelRoot ctx none modelRoot) none) []
        ⟨rfl, rfl⟩ ⟨rfl, rfl⟩ (by simp)
      simpa using this
    · intro _ b hb
      simp only [List.mem_append, List.mem_singleton] at hb
      rcases hb with (hb | hb) | hb
      · subst hb; exact ⟨rfl, rfl⟩
      · unfold hardwareBlocks at hb
        cases hd : ctx.m_d3d12Params <;> simp [hd] at hb
        subst hb; exact ⟨rfl, rfl⟩
      · subst hb; exact ⟨rfl, rfl⟩
  | false =>
    cases hsel : GetGPTPluginModel ctx ctx.m_gptIndex with
    | error e => rw [GetGPTCreationParams_fault rt ctx modelRoot e hsel] at hb; cases hb
    | ok sel =>
      cases sel with
      | none => rw [GetGPTCreationParams_unselected rt ctx modelRoot hsel] at hb; cases hb
      | some info =>
        have hhw : ∀ b ∈ hardwareBlocks ctx, b.isOnnxgenai = false ∧ b.isREST = false := by
          intro b hb
          unfold hardwareBlocks at hb
          cases hd : ctx.m_d3d12Params <;> simp [hd] at hb
          subst hb; exact ⟨rfl, rfl⟩
        by_cases ho : info.m_featureID = PluginID.gpt_onnxgenai_dml
        · obtain ⟨h2, hrun, hcont, _⟩ := GetGPTCreationParams_onnxgenai rt ctx modelRoot info hsel ho
          rw [hrun] at hb
          injection hb with hb
          injection hb with hh hp
          injection hp with hp
          subst hh hp
          refine ⟨_, hcont, ?_, (fun h => by cases h), fun _ => ⟨info, rfl, ?_, ?_, ?_⟩⟩
          · have := base_composition ctx (BlockData.GPTCreationParameters (-1) 200 4096)
              (BlockData.CommonCreationParameters 1 8192
                (resolveModelRoot ctx (some info) modelRoot) (some info.m_guid))
              [BlockData.GPTOnnxgenaiCreationParameters false false]
              ⟨rfl, rfl⟩ ⟨rfl, rfl⟩ (by simp [BlockData.isCommon, BlockData.isD3D12])
            simpa using this
          · exact ⟨fun _ => ho, fun _ =>
              ⟨BlockData.GPTOnnxgenaiCreationParameters false false, by simp, rfl⟩⟩
          · intro b hb hon
            simp only [List.mem_append, List.mem_singleton, List.mem_cons, List.mem_nil_iff,
              or_false] at hb
            rcases hb with (hb | hb) | hb | hb
            · subst hb; cases hon
            · rw [(hhw b hb).1] at hon; cases hon
            · subst hb; cases hon
            · exact hb
          · constructor
            · rintro ⟨b, hb, hr⟩
              simp only [List.mem_append, List.mem_singleton, List.mem_cons, List.mem_nil_iff,
                or_false] at hb
              rcases hb with (hb | hb) | hb | hb
              · subst hb; cases hr
              · rw [(hhw b hb).2] at hr; cases hr
              · subst hb; cases hr
              · subst hb; cases hr
            · intro hc; rw [ho] at hc; cases hc
        · by_cases hc : info.m_featureID = PluginID.gpt_cloud_rest
          · cases hk : cloudKey rt info.m_url with
            | none =>
              obtain ⟨h2, hrun, _⟩ := GetGPTCreationParams_cloud_missing rt ctx modelRoot info hsel hc hk
              rw [hrun] at hb
              injection hb with hb
              injection hb with _ hp
              cases hp
            | some key =>
              obtain ⟨h2, hrun, hcont, _⟩ := GetGPTCreationParams_cloud rt ctx modelRoot info key hsel hc hk
              rw [hrun] at hb
              injection hb with hb
              injection hb with hh hp
              injection hp with hp
              subst hh hp
              refine ⟨_, hcont, ?_, (fun h => by cases h), fun _ => ⟨info, rfl, ?_, ?_, ?_⟩⟩
              · have := base_composition ctx (BlockData.GPTCreationParameters (-1) 200 4096)
                  (BlockData.CommonCreationParameters 1 8192
                    (resolveModelRoot ctx (some info) modelRoot) (some info.m_guid))
                  [BlockData.RESTParameters info.m_url key true]
                  ⟨rfl, rfl⟩ ⟨rfl, rfl⟩ (by simp [BlockData.isCommon, BlockData.isD3D12])
                simpa using this
              · constructor
                · rintro ⟨b, hb, hr⟩
                  simp only [List.mem_append, List.mem_singleton, List.mem_cons, List.mem_nil_iff,
                    or_false] at hb
                  rcases hb with (hb | hb) | hb | hb
                  · subst hb; cases hr
                  · rw [(hhw b hb).1] at hr; cases hr
                  · subst hb; cases hr
                  · subst hb; cases hr
                · intro h; exact absurd h ho
              · intro b hb hon
                simp only [List.mem_append, List.mem_singleton, List.mem_cons, List.mem_nil_iff,
                  or_false] at hb
                rcases hb with (hb | hb) | hb | hb
                · subst hb; cases hon
                · rw [(hhw b hb).1] at hon; cases hon
                · subst hb; cases hon
                · subst hb; cases hon
              · exact ⟨fun _ => hc, fun _ =>
                  ⟨BlockData.RESTParameters info.m_url key true, by simp, rfl⟩⟩
          · obtain ⟨h2, hrun, hcont, _⟩ := GetGPTCreationParams_plain rt ctx modelRoot info hsel ho hc
            rw [hrun] at hb
            injection hb with hb
            injection hb with hh hp
            injection hp with hp
            subst hh hp
            refine ⟨_, hcont, ?_, (fun h => by cases h), fun _ => ⟨info, rfl, ?_, ?_, ?_⟩⟩
            · have := base_composition ctx (BlockData.GPTCreationParameters (-1) 200 4096)
                (BlockData.CommonCreationParameters 1 8192
                  (resolveModelRoot ctx (some info) modelRoot) (some info.m_guid)) []
                ⟨rfl, rfl⟩ ⟨rfl, rfl⟩ (by simp)
              simpa using this
            · constructor
              · rintro ⟨b, hb, hr⟩
                simp only [List.mem_append, List.mem_singleton] at hb
                rcases hb with (hb | hb) | hb
                · subst hb; cases hr
                · rw [(hhw b hb).1] at hr; cases hr
                · subst hb; cases hr
              · intro h; exact absurd h ho
            · intro b hb hon
              simp only [List.mem_append, List.mem_singleton] at hb
              rcases hb with (hb | hb) | hb
              · subst hb; cases hon
              · rw [(hhw b hb).1] at hon; cases hon
              · subst hb; cases hon
            · constructor
              · rintro ⟨b, hb, hr⟩
                simp only [List.mem_append, List.mem_singleton] at hb
                rcases hb with (hb | hb) | hb
                · subst hb; cases hr
                · rw [(hhw b hb).2] at hr; cases hr
                · subst hb; cases hr
              · intro h; exact absurd h hc

theorem GetASRCreationParams_composition (ctx : NVIGIContext) (genericInit : Bool)
    (modelRoot : Option String) (h1 : Heap) (p : Nat)
    (hb : GetASRCreationParams ctx genericInit modelRoot = .ok (h1, some p)) :
    ∃ blocks, h1.contents (some p) = .ok blocks ∧ HasBaseComposition ctx blocks ∧
      NoBackendBlock blocks := by
  have hhw : ∀ b ∈ hardwareBlocks ctx, b.isOnnxgenai = false ∧ b.isREST = false := by
    intro b hb
    unfold hardwareBlocks at hb
    cases hd : ctx.m_d3d12Params <;> simp [hd] at hb
    subst hb; exact ⟨rfl, rfl⟩
  have key : ∀ (guid : Option String) (info : Option PluginModelInfo),
      HasBaseComposition ctx ([BlockData.ASRWhisperCreationParameters] ++ hardwareBlocks ctx ++
        [BlockData.CommonCreationParameters 4 3072 (resolveModelRoot ctx info modelRoot) guid]) ∧
      NoBackendBlock ([BlockData.ASRWhisperCreationParameters] ++ hardwareBlocks ctx ++
        [BlockData.CommonCreationParameters 4 3072 (resolveModelRoot ctx info modelRoot) guid]) := by
    intro guid info
    constructor
    · have := base_composition ctx BlockData.ASRWhisperCreationParameters
        (BlockData.CommonCreationParameters 4 3072 (resolveModelRoot ctx info modelRoot) guid) []
        ⟨rfl, rfl⟩ ⟨rfl, rfl⟩ (by simp)
      simpa using this
    · intro b hb
      simp only [List.mem_append, List.mem_singleton] at hb
      rcases hb with (hb | hb) | hb
      · subst hb; exact ⟨rfl, rfl⟩
      · exact hhw b hb
      · subst hb; exact ⟨rfl, rfl⟩
  cases genericInit with
  | true =>
    obtain ⟨h2, hrun, hcont, _⟩ := GetASRCreationParams_generic ctx modelRoot
    rw [hrun] at hb
    injection hb with hb
    injection hb with hh hp
    injection hp with hp
    subst hh hp
    exact ⟨_, hcont, (key none none).1, (key none none).2⟩
  | false =>
    cases hsel : GetASRPluginModel ctx ctx.m_asrIndex with
    | error e => rw [GetASRCreationParams_fault ctx modelRoot e hsel] at hb; cases hb
    | ok sel =>
      cases sel with
      | none => rw [GetASRCreationParams_unselected ctx modelRoot hsel] at hb; cases hb
      | some info =>
        obtain ⟨h2, hrun, hcont, _⟩ := GetASRCreationParams_selected ctx modelRoot info hsel
        rw [hrun] at hb
        injection hb with hb
        injection hb with hh hp
        injection hp with hp
        subst hh hp
        exact ⟨_, hcont, (key (some info.m_guid) (some info)).1,
          (key (some info.m_guid) (some info)).2⟩

/-- C12. Block composition of a built chain. Every non-null result of `GetGPTCreationParams`
and of `GetASRCreationParams` is a chain with exactly one common block, and with a
hardware-context block exactly when `m_d3d12Params` is set. A non-generic text-generation
chain, built for the selected entry, holds a tuning block exactly when that entry's backend is
onnxgenai, and every tuning block has `backgroundMode` and `allowAsync` false; it holds a REST
block exactly when the backend is the cloud backend; so it holds no backend-specific block for
any other backend. A generic chain and every speech-recognition chain hold no
backend-specific block, and a generic build returns a chain, never null. -/
theorem C12_block_composition (rt : Runtime) (ctx : NVIGIContext) (genericInit : Bool)
    (modelRoot : Option String) :
    (∀ h1 p, GetGPTCreationParams rt ctx genericInit modelRoot = .ok (h1, some p) →
      ∃ blocks, h1.contents (some p) = .ok blocks ∧ HasBaseComposition ctx blocks ∧
        (genericInit = true → NoBackendBlock blocks) ∧
        (genericInit = false → ∃ info, GetGPTPluginModel ctx ctx.m_gptIndex = .ok (some info) ∧
          HasBackendComposition info blocks)) ∧
    (∀ h1 p, GetASRCreationParams ctx genericInit modelRoot = .ok (h1, some p) →
      ∃ blocks, h1.contents (some p) = .ok blocks ∧ HasBaseComposition ctx blocks ∧
        NoBackendBlock blocks) ∧
    (∃ h1 p, GetGPTCreationParams rt ctx true modelRoot = .ok (h1, some p)) ∧
    (∃ h1 p, GetASRCreationParams ctx true modelRoot = .ok (h1, some p)) := by
  refine ⟨fun h1 p hb => GetGPTCreationParams_composition rt ctx genericInit modelRoot h1 p hb,
    fun h1 p hb => GetASRCreationParams_composition ctx genericInit modelRoot h1 p hb, ?_, ?_⟩
  · obtain ⟨h1, hrun, _⟩ := GetGPTCreationParams_generic rt ctx modelRoot
    exact ⟨h1, _, hrun⟩
  · obtain ⟨h1, hrun, _⟩ := GetASRCreationParams_generic ctx modelRoot
    exact ⟨h1, _, hrun⟩

/-- A context with a shared compute context established and the cloud entry selected. -/
theorem C12_block_composition_witness :
    (∃ blocks,
      (heapOf (GetGPTCreationParams swapRuntime
        { sampleContext with m_gptIndex := 1, m_d3d12Params := some (7, 8) } false none)).contents
          (some 1) = .ok blocks ∧
      HasBaseComposition { sampleContext with m_gptIndex := 1, m_d3d12Params := some (7, 8) }
        blocks ∧
      (false = true → NoBackendBlock blocks) ∧
      (false = false → ∃ info,
        GetGPTPluginModel { sampleContext with m_gptIndex := 1, m_d3d12Params := some (7, 8) }
          ({ sampleContext with m_gptIndex := 1, m_d3d12Params := some (7, 8) } :
            NVIGIContext).m_gptIndex = .ok (some info) ∧
        HasBackendComposition info blocks)) ∧
    (∃ blocks,
      (heapOf (GetASRCreationParams
        { sampleContext with m_gptIndex := 1, m_d3d12Params := some (7, 8) } false none)).contents
          (some 1) = .ok blocks ∧
      HasBaseComposition { sampleContext with m_gptIndex := 1, m_d3d12Params := some (7, 8) }
        blocks ∧
      NoBackendBlock blocks) :=
  ⟨(C12_block_composition swapRuntime
      { sampleContext with m_gptIndex := 1, m_d3d12Params := some (7, 8) } false none).1 _ 1 rfl,
    (C12_block_composition swapRuntime
      { sampleContext with m_gptIndex := 1, m_d3d12Params := some (7, 8) } false none).2.1 _ 1 rfl⟩

theorem commonGUIDs_append (a b : List BlockData) :
    commonGUIDs (a ++ b) = commonGUIDs a ++ commonGUIDs b := by
  simp [commonGUIDs, List.filterMap_append]

theorem commonGUIDs_hardwareBlocks (ctx : NVIGIContext) : commonGUIDs (hardwareBlocks ctx) = [] := by
  unfold hardwareBlocks
  cases ctx.m_d3d12Params <;> rfl

theorem GetGPTCreationParams_guid (rt : Runtime) (ctx : NVIGIContext) (modelRoot : Option String)
    (h1 : Heap) (p : Nat)
    (hb : GetGPTCreationParams rt ctx false modelRoot = .ok (h1, some p)) :
    ∃ info blocks, GetGPTPluginModel ctx ctx.m_gptIndex = .ok (some info) ∧
      h1.contents (some p) = .ok blocks ∧ commonGUIDs blocks = [some info.m_guid] := by
  cases hsel : GetGPTPluginModel ctx ctx.m_gptIndex with
  | error e => rw [GetGPTCreationParams_fault rt ctx modelRoot e hsel] at hb; cases hb
  | ok sel =>
    cases sel with
    | none => rw [GetGPTCreationParams_unselected rt ctx modelRoot hsel] at hb; cases hb
    | some info =>
      by_cases ho : info.m_featureID = PluginID.gpt_onnxgenai_dml
      · obtain ⟨h2, hrun, hcont, _⟩ := GetGPTCreationParams_onnxgenai rt ctx modelRoot info hsel ho
        rw [hrun] at hb
        injection hb with hb
        injection hb with hh hp
        injection hp with hp
        subst hh hp
        exact ⟨info, _, rfl, hcont, by
          rw [commonGUIDs_append, commonGUIDs_append, commonGUIDs_hardwareBlocks]; rfl⟩
      · by_cases hc : info.m_featureID = PluginID.gpt_cloud_rest
        · cases hk : cloudKey rt info.m_url with
          | none =>
            obtain ⟨h2, hrun, _⟩ := GetGPTCreationParams_cloud_missing rt ctx modelRoot info hsel hc hk
            rw [hrun] at hb
            injection hb with hb
            injection hb with _ hp
            cases hp
          | some key =>
            obtain ⟨h2, hrun, hcont, _⟩ :=
              GetGPTCreationParams_cloud rt ctx modelRoot info key hsel hc hk
            rw [hrun] at hb
            injection hb with hb
            injection hb with hh hp
            injection hp with hp
            subst hh hp
            exact ⟨info, _, rfl, hcont, by
              rw [commonGUIDs_append, commonGUIDs_append, commonGUIDs_hardwareBlocks]; rfl⟩
        · obtain ⟨h2, hrun, hcont, _⟩ := GetGPTCreationParams_plain rt ctx modelRoot info hsel ho hc
          rw [hrun] at hb
          injection hb with hb
          injection hb with hh hp
          injection hp with hp
          subst hh hp
          exact ⟨info, _, rfl, hcont, by
            rw [commonGUIDs_append, commonGUIDs_append, commonGUIDs_hardwareBlocks]; rfl⟩

theorem GetASRCreationParams_guid (ctx : NVIGIContext) (modelRoot : Option String)
    (h1 : Heap) (p : Nat)
    (hb : GetASRCreationParams ctx false modelRoot = .ok (h1, some p)) :
    ∃ info blocks, GetASRPluginModel ctx ctx.m_asrIndex = .ok (some info) ∧
      h1.contents (some p) = .ok blocks ∧ commonGUIDs blocks = [some info.m_guid] := by
  cases hsel : GetASRPluginModel ctx ctx.m_asrIndex with
  | error e => rw [GetASRCreationParams_fault ctx modelRoot e hsel] at hb; cases hb
  | ok sel =>
    cases sel with
    | none => rw [GetASRCreationParams_unselected ctx modelRoot hsel] at hb; cases hb
    | some info =>
      obtain ⟨h2, hrun, hcont, _⟩ := GetASRCreationParams_selected ctx modelRoot info hsel
      rw [hrun] at hb
      injection hb with hb
      injection hb with hh hp
      injection hp with hp
      subst hh hp
      exact ⟨info, _, rfl, hcont, by
        rw [commonGUIDs_append, commonGUIDs_append, commonGUIDs_hardwareBlocks]; rfl⟩

/-- C13. Model identifier binding. In both builders a generic build returns a chain whose one
common block has the model identifier unbound, whatever `m_gptIndex` and `m_asrIndex` are;
every non-null result of a non-generic build is a chain whose one common block carries the
identifier of the currently selected catalog entry; and a non-generic build with no selection
(index -1) returns null and leaves the free store as it was, so no block was allocated. -/
theorem C13_model_identifier_binding (rt : Runtime) (ctx : NVIGIContext)
    (modelRoot : Option String) :
    (∃ h1 p blocks, GetGPTCreationParams rt ctx true modelRoot = .ok (h1, some p) ∧
      h1.contents (some p) = .ok blocks ∧ commonGUIDs blocks = [none]) ∧
    (∃ h1 p blocks, GetASRCreationParams ctx true modelRoot = .ok (h1, some p) ∧
      h1.contents (some p) = .ok blocks ∧ commonGUIDs blocks = [none]) ∧
    (∀ h1 p, GetGPTCreationParams rt ctx false modelRoot = .ok (h1, some p) →
      ∃ info blocks, GetGPTPluginModel ctx ctx.m_gptIndex = .ok (some info) ∧
        h1.contents (some p) = .ok blocks ∧ commonGUIDs blocks = [some info.m_guid]) ∧
    (∀ h1 p, GetASRCreationParams ctx false modelRoot = .ok (h1, some p) →
      ∃ info blocks, GetASRPluginModel ctx ctx.m_asrIndex = .ok (some info) ∧
        h1.contents (some p) = .ok blocks ∧ commonGUIDs blocks = [some info.m_guid]) ∧
    (ctx.m_gptIndex = -1 → GetGPTCreationParams rt ctx false modelRoot = .ok (ctx.heap, none)) ∧
    (ctx.m_asrIndex = -1 → GetASRCreationParams ctx false modelRoot = .ok (ctx.heap, none)) := by
  refine ⟨?_, ?_, fun h1 p hb => GetGPTCreationParams_guid rt ctx modelRoot h1 p hb,
    fun h1 p hb => GetASRCreationParams_guid ctx modelRoot h1 p hb, ?_, ?_⟩
  · obtain ⟨h1, hrun, hcont, _⟩ := GetGPTCreationParams_generic rt ctx modelRoot
    exact ⟨h1, _, _, hrun, hcont, by
      rw [commonGUIDs_append, commonGUIDs_append, commonGUIDs_hardwareBlocks]; rfl⟩
  · obtain ⟨h1, hrun, hcont, _⟩ := GetASRCreationParams_generic ctx modelRoot
    exact ⟨h1, _, _, hrun, hcont, by
      rw [commonGUIDs_append, commonGUIDs_append, commonGUIDs_hardwareBlocks]; rfl⟩
  · intro h
    apply GetGPTCreationParams_unselected
    simp [GetGPTPluginModel, getPluginModel, h]
  · intro h
    apply GetASRCreationParams_unselected
    simp [GetASRPluginModel, getPluginModel, h]

/-- The sample context with the local entries selected, and with no selection. -/
theorem C13_model_identifier_binding_witness :
    (∃ info blocks, GetGPTPluginModel sampleContext sampleContext.m_gptIndex = .ok (some info) ∧
      (heapOf (GetGPTCreationParams sampleRuntime sampleContext false none)).contents (some 1) =
        .ok blocks ∧ commonGUIDs blocks = [some info.m_guid]) ∧
    (∃ info blocks, GetASRPluginModel sampleContext sampleContext.m_asrIndex = .ok (some info) ∧
      (heapOf (GetASRCreationParams sampleContext false none)).contents (some 1) = .ok blocks ∧
      commonGUIDs blocks = [some info.m_guid]) ∧
    GetGPTCreationParams sampleRuntime { sampleContext with m_gptIndex := -1, m_asrIndex := -1 }
        false none =
      .ok (({ sampleContext with m_gptIndex := -1, m_asrIndex := -1 } : NVIGIContext).heap, none) ∧
    GetASRCreationParams { sampleContext with m_gptIndex := -1, m_asrIndex := -1 } false none =
      .ok (({ sampleContext with m_gptIndex := -1, m_asrIndex := -1 } : NVIGIContext).heap, none) :=
  ⟨(C13_model_identifier_binding sampleRuntime sampleContext none).2.2.1 _ 1 rfl,
    (C13_model_identifier_binding sampleRuntime sampleContext none).2.2.2.1 _ 1 rfl,
    (C13_model_identifier_binding sampleRuntime
      { sampleContext with m_gptIndex := -1, m_asrIndex := -1 } none).2.2.2.2.1 rfl,
    (C13_model_identifier_binding sampleRuntime
      { sampleContext with m_gptIndex := -1, m_asrIndex := -1 } none).2.2.2.2.2 rfl⟩


/-! ## Inference callbacks and drivers -/

theorem appendToBack_ok (messages : List Message) (str : String) (h : messages ≠ []) :
    ∃ ms, appendToBack messages str = .ok ms ∧ ms ≠ [] ∧ ms.length = messages.length := by
  unfold appendToBack
  cases hl : messages.getLast? with
  | none => exact absurd (List.getLast?_eq_none_iff.1 hl) h
  | some m =>
    refine ⟨_, rfl, by simp, ?_⟩
    simp only [List.length_append, List.length_dropLast, List.length_singleton]
    have : 0 < messages.length := List.length_pos.2 h
    omega

theorem gptAccumulate_ok (nvigi : NVIGIContext) (str : String) (h : nvigi.messages ≠ []) :
    ∃ n1, gptAccumulate nvigi str = .ok n1 ∧ n1.messages ≠ [] ∧
      n1.m_gpt = nvigi.m_gpt ∧
      n1.m_conversationInitialized = nvigi.m_conversationInitialized ∧
      n1.evaluated = nvigi.evaluated ∧ n1.calls = nvigi.calls ∧
      n1.m_inferThread = nvigi.m_inferThread := by
  unfold gptAccumulate
  obtain ⟨ms, hms, hne, _⟩ := appendToBack_ok nvigi.messages str h
  by_cases hi : nvigi.m_conversationInitialized = true
  · by_cases hm : strContains str "<JSON>" = true
    · exact ⟨nvigi, by simp [hi, hm], h, rfl, rfl, rfl, rfl, rfl⟩
    · exact ⟨{ nvigi with messages := ms }, by simp [hi, hm, hms, Except.map], hne, rfl, rfl,
        rfl, rfl, rfl⟩
  · exact ⟨nvigi, by simp [hi], h, rfl, rfl, rfl, rfl, rfl⟩

/-- An invocation of `gptCallback` with the context as user data, for a report that carries
the response slot when it has an execution context: it returns the reported state, stores it
as the last callback state, and leaves the instance, the conversation flag and the record of
`evaluate` calls alone. -/
theorem gptCallback_ok (nvigi : NVIGIContext) (r : CallbackReport)
    (hr : r.Carries DataSlotKey.kGPTDataSlotResponse) (h : nvigi.messages ≠ []) :
    ∃ n1, gptCallback nvigi r.ctx r.state (some ()) = .ok (n1, r.state) ∧
      n1.m_gptCallbackState = r.state ∧ n1.messages ≠ [] ∧ n1.m_gpt = nvigi.m_gpt ∧
      n1.m_conversationInitialized = nvigi.m_conversationInitialized ∧
      n1.evaluated = nvigi.evaluated ∧ n1.calls = nvigi.calls ∧
      n1.m_inferThread = nvigi.m_inferThread := by
  unfold gptCallback
  cases hc : r.ctx with
  | none => exact ⟨_, rfl, rfl, h, rfl, rfl, rfl, rfl, rfl⟩
  | some c =>
    have hs := hr c hc
    cases hf : findAndValidateSlot c.outputs DataSlotKey.kGPTDataSlotResponse with
    | none => rw [hf] at hs; cases hs
    | some str =>
      obtain ⟨n1, hn1, hm, hg, hi, he, hcalls, ht⟩ := gptAccumulate_ok nvigi str h
      exact ⟨{ n1 with m_gptCallbackState := r.state },
        by simp [deref, Except.bind, hf, hn1, Except.map], rfl, hm, hg, hi, he, hcalls, ht⟩

/-- The callbacks of one text-generation call, delivered in order: the last callback state is
the state of the last report. -/
theorem deliver_gptCallback_ok (reports : List CallbackReport) :
    ∀ (nvigi : NVIGIContext),
      (∀ r ∈ reports, r.Carries DataSlotKey.kGPTDataSlotResponse) → nvigi.messages ≠ [] →
      ∃ n1, deliver gptCallback nvigi reports = .ok n1 ∧
        (∀ r, reports.getLast? = some r → n1.m_gptCallbackState = r.state) ∧
        (reports = [] → n1 = nvigi) ∧
        n1.messages ≠ [] ∧ n1.m_gpt = nvigi.m_gpt ∧
        n1.m_conversationInitialized = nvigi.m_conversationInitialized ∧
        n1.evaluated = nvigi.evaluated ∧ n1.calls = nvigi.calls ∧
        n1.m_inferThread = nvigi.m_inferThread := by
  induction reports with
  | nil =>
    intro nvigi _ h
    exact ⟨nvigi, rfl, by simp, fun _ => rfl, h, rfl, rfl, rfl, rfl, rfl⟩
  | cons r rest ih =>
    intro nvigi hr h
    obtain ⟨n1, hn1, hs1, hm1, hg1, hi1, he1, hc1, ht1⟩ :=
      gptCallback_ok nvigi r (hr r (List.mem_cons_self _ _)) h
    obtain ⟨n2, hn2, hs2, hnil, hm2, hg2, hi2, he2, hc2, ht2⟩ :=
      ih n1 (fun x hx => hr x (List.mem_cons_of_mem _ hx)) hm1
    refine ⟨n2, by simp [deliver, hn1, Except.bind, hn2], ?_, by simp, hm2, hg2.trans hg1,
      hi2.trans hi1, he2.trans he1, hc2.trans hc1, ht2.trans ht1⟩
    intro x hx
    cases rest with
    | nil =>
      simp at hx
      rw [hnil rfl, hs1, hx]
    | cons r1 rest1 =>
      rw [List.getLast?_cons_cons] at hx
      exact hs2 x hx

/-- One turn completes when the plugin runtime completes its turns: the call is recorded after
the earlier ones, on the instance `m_gpt` holds and under the slot of the turn kind. -/
theorem eval_ok (irt : InferenceRuntime) (nvigi : NVIGIContext) (inst : Nat) (prompt : String)
    (initConversation : Bool) (hrt : CompletesTurns irt) (hinst : nvigi.m_gpt = some inst)
    (h : nvigi.messages ≠ []) :
    ∃ n1, eval irt nvigi prompt initConversation = .ok n1 ∧
      n1.evaluated = nvigi.evaluated ++
        [⟨inst, if initConversation then DataSlotKey.kGPTDataSlotSystem
          else DataSlotKey.kGPTDataSlotUser, prompt⟩] ∧
      n1.messages ≠ [] ∧ n1.m_gpt = some inst ∧
      n1.m_conversationInitialized = nvigi.m_conversationInitialized ∧
      n1.m_inferThread = nvigi.m_inferThread := by
  obtain ⟨hcar, hlast⟩ := hrt nvigi.calls inst
    (if initConversation then DataSlotKey.kGPTDataSlotSystem else DataSlotKey.kGPTDataSlotUser)
    prompt
  obtain ⟨n1, hn1, hs, _, hm, hg, hi, he, _, ht⟩ := deliver_gptCallback_ok _
    { nvigi with
      m_gptCallbackState := InferenceExecutionState.kInferenceExecutionStateDataPending,
      m_gptRunning := true, calls := nvigi.calls + 1,
      evaluated := nvigi.evaluated ++
        [⟨inst, if initConversation then DataSlotKey.kGPTDataSlotSystem
          else DataSlotKey.kGPTDataSlotUser, prompt⟩] } hcar h
  have hd : deref nvigi.m_gpt = .ok inst := by rw [hinst]; rfl
  refine ⟨n1, ?_, he, hm, hg.trans hinst, hi, ht⟩
  unfold eval
  simp only [hd, Except.bind]
  rw [hn1]
  cases hok : (irt.evaluateGPT nvigi.calls inst
    (if initConversation then DataSlotKey.kGPTDataSlotSystem else DataSlotKey.kGPTDataSlotUser)
    prompt).ok with
  | false => simp
  | true =>
    obtain ⟨r, hr, hne⟩ := hlast hok
    have hw : waitPredicate n1 = true := by simp [waitPredicate, hs r hr, hne]
    simp [hw]

/-- The body of the text-generation thread: the system turn when the conversation is not
initialised, then the user turn; the conversation is initialised afterwards. -/
theorem LaunchGPT_l_ok (irt : InferenceRuntime) (nvigi : NVIGIContext) (inst : Nat)
    (prompt : String) (hrt : CompletesTurns irt) (hinst : nvigi.m_gpt = some inst)
    (h : nvigi.messages ≠ []) :
    ∃ d, LaunchGPT_l irt nvigi prompt = .ok d ∧
      d.evaluated = nvigi.evaluated ++
        (if nvigi.m_conversationInitialized then
          [⟨inst, DataSlotKey.kGPTDataSlotUser, prompt⟩]
        else
          [⟨inst, DataSlotKey.kGPTDataSlotSystem, initialPrompt⟩,
           ⟨inst, DataSlotKey.kGPTDataSlotUser, prompt⟩]) ∧
      d.m_conversationInitialized = true ∧ d.messages ≠ [] ∧ d.m_gpt = some inst ∧
      d.m_inferThread = nvigi.m_inferThread := by
  unfold LaunchGPT_l
  by_cases hi : nvigi.m_conversationInitialized = true
  · obtain ⟨n2, hn2, he, hm, hg, hci, ht⟩ :=
      eval_ok irt { nvigi with m_inferThreadRunning := true } inst prompt false hrt hinst h
    have hcond : (!nvigi.m_conversationInitialized) = false := by simp [hi]
    refine ⟨{ n2 with m_gptRunning := false, m_inferThreadRunning := false }, ?_, ?_, ?_, hm, hg,
      ht⟩
    · simp only [hcond, Bool.false_eq_true, if_false, Except.bind, hn2, Except.map]
    · rw [if_pos hi]
      simpa using he
    · exact hci.trans hi
  · obtain ⟨n1, hn1, he1, hm1, hg1, _, ht1⟩ :=
      eval_ok irt { nvigi with m_inferThreadRunning := true } inst initialPrompt true hrt hinst h
    obtain ⟨n2, hn2, he2, hm2, hg2, hci2, ht2⟩ :=
      eval_ok irt { n1 with m_conversationInitialized := true } inst prompt false hrt hg1 hm1
    have hcond : (!nvigi.m_conversationInitialized) = true := by simpa using hi
    refine ⟨{ n2 with m_gptRunning := false, m_inferThreadRunning := false }, ?_, ?_, hci2, hm2,
      hg2, ht2.trans ht1⟩
    · simp only [hcond, if_true, Except.bind, hn1, Except.map, hn2]
    · rw [if_neg hi]
      simp only [he2, he1]
      simp

theorem expectedTurns_append (inst : Nat) (initialized : Bool) (a b : List String) :
    expectedTurns inst initialized (a ++ b) =
      expectedTurns inst initialized a ++
        expectedTurns inst (initialized || !a.isEmpty) b := by
  cases a with
  | nil => simp [expectedTurns]
  | cons x xs =>
    cases b with
    | nil => simp [expectedTurns]
    | cons y ys => simp [expectedTurns]

/-- A sequence of chat turns, started with the thread `pend` still to be joined: the record of
`evaluate` calls grows by the turns the spec prescribes. -/
theorem chatTurns_ok (irt : InferenceRuntime) (inst : Nat) (hrt : CompletesTurns irt)
    (prompts : List String) :
    ∀ (nvigi : NVIGIContext) (pend : Option String), nvigi.m_gpt = some inst →
      nvigi.messages ≠ [] → nvigi.m_inferThread = pend.map InferTask.gpt →
      ∃ d, chatTurns irt nvigi prompts = .ok d ∧
        d.evaluated = nvigi.evaluated ++
          expectedTurns inst nvigi.m_conversationInitialized (pend.toList ++ prompts) ∧
        d.m_conversationInitialized =
          (nvigi.m_conversationInitialized || !(pend.toList ++ prompts).isEmpty) := by
  have flush : ∀ (nvigi : NVIGIContext) (pend : Option String), nvigi.m_gpt = some inst →
      nvigi.messages ≠ [] → nvigi.m_inferThread = pend.map InferTask.gpt →
      ∃ d, FlushInferenceThread irt nvigi = .ok d ∧
        d.evaluated = nvigi.evaluated ++
          expectedTurns inst nvigi.m_conversationInitialized pend.toList ∧
        d.m_conversationInitialized = (nvigi.m_conversationInitialized || !pend.toList.isEmpty) ∧
        d.m_gpt = some inst ∧ d.messages ≠ [] ∧ d.m_inferThread = none := by
    intro nvigi pend hg hm ht
    cases pend with
    | none =>
      simp only [Option.map_none'] at ht
      exact ⟨nvigi, by simp [FlushInferenceThread, ht], by simp [expectedTurns], by simp, hg, hm, ht⟩
    | some q =>
      simp only [Option.map_some'] at ht
      obtain ⟨d, hd, he, hi, hm1, hg1, ht1⟩ :=
        LaunchGPT_l_ok irt { nvigi with m_inferThread := none } inst q hrt hg hm
      refine ⟨d, by simp [FlushInferenceThread, ht, runInferTask, hd], ?_, by simp [hi], hg1, hm1,
        ht1⟩
      rw [he]
      cases hc : nvigi.m_conversationInitialized <;> simp [expectedTurns, hc]
  induction prompts with
  | nil =>
    intro nvigi pend hg hm ht
    obtain ⟨d, hd, he, hi, _⟩ := flush nvigi pend hg hm ht
    exact ⟨d, by simp [chatTurns, hd], by simpa using he, by simpa using hi⟩
  | cons p ps ih =>
    intro nvigi pend hg hm ht
    obtain ⟨n1, hn1, he1, hi1, hg1, hm1, _⟩ := flush nvigi pend hg hm ht
    obtain ⟨d, hd, he, hi⟩ := ih (LaunchGPT n1 p) (some p) hg1 hm1 rfl
    refine ⟨d, by simp [chatTurns, hn1, Except.bind, hd], ?_, ?_⟩
    · rw [he]
      simp only [LaunchGPT, he1, hi1, Option.toList_some, List.singleton_append, List.append_assoc]
      rw [expectedTurns_append inst nvigi.m_conversationInitialized pend.toList (p :: ps)]
    · rw [hi]
      simp [LaunchGPT, hi1]

theorem sampleInference_completes : CompletesTurns sampleInference := by
  intro n inst slot prompt
  refine ⟨?_, fun _ => ⟨_, rfl, by decide⟩⟩
  intro r hr c hc
  simp only [sampleInference, List.mem_cons, List.mem_singleton, List.mem_nil_iff, or_false] at hr
  rcases hr with rfl | rfl
  · cases hc; rfl
  · cases hc; rfl

/-- C14. Conversation initialisation happens once per conversation session. With an instance
loaded, a message on the list and a plugin runtime that completes the turns it accepts, the
background task of `LaunchGPT(prompt)` returns, and the `evaluate` calls it issued are, in
order, the system-slot call with the fixed instruction and the user-slot call with `prompt`
when `m_conversationInitialized` was false at its start, and the user-slot call alone when it
was true; afterwards `m_conversationInitialized` is true. Hence a non-empty sequence of
`LaunchGPT` calls, each joined before the next as `BuildGPTUI` does and with no reset in
between, issues exactly one system turn, before every user turn, when it starts with the
conversation not initialised, and no system turn when it starts with it initialised. -/
theorem C14_conversation_initialized_once (irt : InferenceRuntime) (nvigi : NVIGIContext)
    (inst : Nat) (hrt : CompletesTurns irt) (hinst : nvigi.m_gpt = some inst)
    (hmsg : nvigi.messages ≠ []) :
    (∀ prompt, ∃ d, LaunchGPT_l irt nvigi prompt = .ok d ∧
      (nvigi.m_conversationInitialized = false →
        d.evaluated = nvigi.evaluated ++
          [⟨inst, DataSlotKey.kGPTDataSlotSystem, initialPrompt⟩,
           ⟨inst, DataSlotKey.kGPTDataSlotUser, prompt⟩]) ∧
      (nvigi.m_conversationInitialized = true →
        d.evaluated = nvigi.evaluated ++ [⟨inst, DataSlotKey.kGPTDataSlotUser, prompt⟩]) ∧
      d.m_conversationInitialized = true) ∧
    (∀ prompts, prompts ≠ [] → nvigi.m_inferThread = none →
      ∃ d, chatTurns irt nvigi prompts = .ok d ∧ d.m_conversationInitialized = true ∧
        (nvigi.m_conversationInitialized = false →
          d.evaluated = nvigi.evaluated ++
            ⟨inst, DataSlotKey.kGPTDataSlotSystem, initialPrompt⟩ ::
              prompts.map fun p => ⟨inst, DataSlotKey.kGPTDataSlotUser, p⟩) ∧
        (nvigi.m_conversationInitialized = true →
          d.evaluated = nvigi.evaluated ++
            prompts.map fun p => ⟨inst, DataSlotKey.kGPTDataSlotUser, p⟩)) := by
  constructor
  · intro prompt
    obtain ⟨d, hd, he, hi, _⟩ := LaunchGPT_l_ok irt nvigi inst prompt hrt hinst hmsg
    refine ⟨d, hd, ?_, ?_, hi⟩
    · intro h; rw [he, h]; rfl
    · intro h; rw [he, h]; rfl
  · intro prompts hne ht
    obtain ⟨d, hd, he, hi⟩ := chatTurns_ok irt inst hrt prompts nvigi none hinst hmsg (by simp [ht])
    cases prompts with
    | nil => exact absurd rfl hne
    | cons p ps =>
      refine ⟨d, hd, ?_, ?_, ?_⟩
      · simpa using hi
      · intro h; rw [he, h]; simp [expectedTurns]
      · intro h; rw [he, h]; simp [expectedTurns]

/-- The chat context with the sample plugin runtime: one turn, and a sequence of two. -/
theorem C14_conversation_initialized_once_witness :
    (∃ d, LaunchGPT_l sampleInference chatContext "hello" = .ok d ∧
      (chatContext.m_conversationInitialized = false →
        d.evaluated = chatContext.evaluated ++
          [⟨0, DataSlotKey.kGPTDataSlotSystem, initialPrompt⟩,
           ⟨0, DataSlotKey.kGPTDataSlotUser, "hello"⟩]) ∧
      (chatContext.m_conversationInitialized = true →
        d.evaluated = chatContext.evaluated ++ [⟨0, DataSlotKey.kGPTDataSlotUser, "hello"⟩]) ∧
      d.m_conversationInitialized = true) ∧
    (∃ d, chatTurns sampleInference chatContext ["hello", "again"] = .ok d ∧
      d.m_conversationInitialized = true ∧
      (chatContext.m_conversationInitialized = false →
        d.evaluated = chatContext.evaluated ++
          ⟨0, DataSlotKey.kGPTDataSlotSystem, initialPrompt⟩ ::
            ["hello", "again"].map fun p => ⟨0, DataSlotKey.kGPTDataSlotUser, p⟩) ∧
      (chatContext.m_conversationInitialized = true →
        d.evaluated = chatContext.evaluated ++
          ["hello", "again"].map fun p => ⟨0, DataSlotKey.kGPTDataSlotUser, p⟩)) :=
  ⟨(C14_conversation_initialized_once sampleInference chatContext 0 sampleInference_completes rfl
      (by simp [chatContext])).1 "hello",
    (C14_conversation_initialized_once sampleInference chatContext 0 sampleInference_completes rfl
      (by simp [chatContext])).2 ["hello", "again"] (by simp) rfl⟩

/-- The end-to-end scenario of the spec: on the loaded sample context one chat turn results in
the system-turn call followed by the user-turn call, and the answer holds the streamed
fragments of the user turn only. -/
theorem chat_end_to_end :
    (chatTurns sampleInference chatContext ["hello"]).map
        (fun c => (c.evaluated, c.messages, c.m_conversationInitialized, c.m_gptCallbackState)) =
      .ok ([⟨0, DataSlotKey.kGPTDataSlotSystem,
              "You are a helpful AI assistant answering user questions.\n"⟩,
            ⟨0, DataSlotKey.kGPTDataSlotUser, "hello"⟩],
           [⟨MessageType.Question, "hello"⟩, ⟨MessageType.Answer, "Hello there"⟩], true,
           InferenceExecutionState.kInferenceExecutionStateDone) := rfl

/-- Every invocation of `gptCallback` that returns, made with the context as user data, has
stored the reported state as the last callback state. -/
theorem gptCallback_state (nvigi n1 : NVIGIContext) (ctx : Option InferenceExecutionContext)
    (state s : InferenceExecutionState)
    (h : gptCallback nvigi ctx state (some ()) = .ok (n1, s)) :
    n1.m_gptCallbackState = state ∧ s = state := by
  unfold gptCallback at h
  simp only [map_eq_ok] at h
  obtain ⟨a, _, h⟩ := h
  injection h with h1 h2
  subst h1
  exact ⟨rfl, h2.symm⟩

theorem waitPredicate_eq_false (nvigi : NVIGIContext) :
    waitPredicate nvigi = false ↔
      nvigi.m_gptCallbackState = InferenceExecutionState.kInferenceExecutionStateDataPending := by
  simp [waitPredicate]

/-- The invariant of a turn whose reports are `pend`, all data-pending, and then `last`, done:
what is still due is a tail of the reports; while something is due the last callback state is
data-pending and the thread has not passed the wait; once nothing is due the state is done. -/
theorem turn_invariant (nvigi : NVIGIContext) (pend : List CallbackReport) (last : CallbackReport)
    (hpend : ∀ r ∈ pend,
      r.state = InferenceExecutionState.kInferenceExecutionStateDataPending)
    (hlast : last.state = InferenceExecutionState.kInferenceExecutionStateDone)
    (c : TurnConfig)
    (hc : Relation.ReflTransGen (TurnStep true) (turnStart nvigi (pend ++ [last])) c) :
    (∃ pre, pend ++ [last] = pre ++ c.due) ∧
    (c.due ≠ [] →
      c.nvigi.m_gptCallbackState = InferenceExecutionState.kInferenceExecutionStateDataPending ∧
        c.phase ≠ TurnPhase.passed) ∧
    (c.due = [] →
      c.nvigi.m_gptCallbackState = InferenceExecutionState.kInferenceExecutionStateDone) := by
  induction hc with
  | refl =>
    refine ⟨⟨[], rfl⟩, fun _ => ⟨rfl, by simp [turnStart]⟩, fun h => ?_⟩
    simp [turnStart] at h
  | @tail c0 c1 _ hstep ih =>
    obtain ⟨⟨pre, hpre⟩, hdue, hnone⟩ := ih
    cases hstep with
    | report r rest n1 s hd hcall =>
      obtain ⟨hst, _⟩ := gptCallback_state _ _ _ _ _ hcall
      rw [hd] at hpre
      refine ⟨⟨pre ++ [r], by simp [hpre]⟩, ?_, ?_⟩
      · intro hrest
        have hne : c0.due ≠ [] := by rw [hd]; simp
        refine ⟨?_, (hdue hne).2⟩
        show n1.m_gptCallbackState = _
        rw [hst]
        apply hpend
        have hsplit : rest = rest.dropLast ++ [rest.getLast hrest] :=
          (List.dropLast_append_getLast hrest).symm
        rw [hsplit] at hpre
        have h2 : pend ++ [last] = (pre ++ r :: rest.dropLast) ++ [rest.getLast hrest] := by
          rw [hpre]; simp
        have h3 := List.append_inj_left' h2 rfl
        rw [h3]
        simp
      · intro hrest
        show n1.m_gptCallbackState = _
        have hrest0 : rest = [] := hrest
        rw [hrest0] at hpre
        have h3 := List.append_inj_right' hpre rfl
        injection h3 with h3 _
        rw [hst, ← h3, hlast]
    | returned hphase =>
      refine ⟨⟨pre, hpre⟩, fun h => ⟨(hdue h).1, by simp⟩, hnone⟩
    | wake hphase hpred =>
      refine ⟨⟨pre, hpre⟩, fun h => ?_, hnone⟩
      have hp := (hdue h).1
      rw [← waitPredicate_eq_false] at hp
      rw [hp] at hpred
      cases hpred

/-- The plugin runtime making all its due reports, one step each. -/
theorem deliver_steps (ok : Bool) (phase : TurnPhase) (reports : List CallbackReport) :
    ∀ (nvigi n : NVIGIContext), deliver gptCallback nvigi reports = .ok n →
      Relation.ReflTransGen (TurnStep ok) ⟨nvigi, phase, reports⟩ ⟨n, phase, []⟩ := by
  induction reports with
  | nil =>
    intro nvigi n h
    simp only [deliver] at h
    injection h with h
    subst h
    exact Relation.ReflTransGen.refl
  | cons r rest ih =>
    intro nvigi n h
    simp only [deliver, bind_eq_ok] at h
    obtain ⟨x, hx, h⟩ := h
    exact Relation.ReflTransGen.head
      (TurnStep.report ⟨nvigi, phase, r :: rest⟩ r rest x.1 x.2 rfl hx) (ih x.1 n h)

/-- C15. Text-generation turn sequencing, over the steps of a turn whose `evaluate` call
returns `kResultOk`: the state is set to data-pending and the call submitted; the callback
then reports data-pending `pend.length` times, for any number of reports `pend`, and then
done. In every configuration the turn can reach, while a report is still due (so after each
of the data-pending reports, the done report not yet made) the wait predicate is false and the
driving thread has not passed the wait point; the predicate is true once the done report was
made; so a thread past the wait point implies that every report, the done report included,
was made. When the callback invocations return, the thread does get past the wait point. -/
theorem C15_turn_sequencing (nvigi : NVIGIContext) (pend : List CallbackReport)
    (last : CallbackReport)
    (hpend : ∀ r ∈ pend,
      r.state = InferenceExecutionState.kInferenceExecutionStateDataPending)
    (hlast : last.state = InferenceExecutionState.kInferenceExecutionStateDone) :
    (∀ c, Relation.ReflTransGen (TurnStep true) (turnStart nvigi (pend ++ [last])) c →
      (c.due ≠ [] → waitPredicate c.nvigi = false ∧ c.phase ≠ TurnPhase.passed) ∧
      (c.due = [] → waitPredicate c.nvigi = true) ∧
      (c.phase = TurnPhase.passed → c.due = []) ∧
      ∃ made, pend ++ [last] = made ++ c.due) ∧
    ((∀ r ∈ pend ++ [last], r.Carries DataSlotKey.kGPTDataSlotResponse) →
      nvigi.messages ≠ [] →
      ∃ c, Relation.ReflTransGen (TurnStep true) (turnStart nvigi (pend ++ [last])) c ∧
        c.phase = TurnPhase.passed) := by
  constructor
  · intro c hc
    obtain ⟨hpre, hdue, hnone⟩ := turn_invariant nvigi pend last hpend hlast c hc
    refine ⟨fun h => ⟨(waitPredicate_eq_false _).2 (hdue h).1, (hdue h).2⟩, ?_, ?_, hpre⟩
    · intro h
      simp [waitPredicate, hnone h]
    · intro hp
      by_contra h
      exact (hdue h).2 hp
  · intro hcar hmsg
    obtain ⟨n, hn, hs, _⟩ := deliver_gptCallback_ok (pend ++ [last])
      (turnStart nvigi (pend ++ [last])).nvigi hcar hmsg
    have hstate : n.m_gptCallbackState = InferenceExecutionState.kInferenceExecutionStateDone := by
      rw [hs last (by simp), hlast]
    have h1 := deliver_steps true TurnPhase.submitted (pend ++ [last]) _ n hn
    have h2 : TurnStep true ⟨n, TurnPhase.submitted, []⟩ ⟨n, TurnPhase.waiting, []⟩ :=
      TurnStep.returned ⟨n, TurnPhase.submitted, []⟩ rfl
    have h3 : TurnStep true ⟨n, TurnPhase.waiting, []⟩ ⟨n, TurnPhase.passed, []⟩ :=
      TurnStep.wake ⟨n, TurnPhase.waiting, []⟩ rfl (by simp [waitPredicate, hstate])
    exact ⟨⟨n, TurnPhase.passed, []⟩, (h1.tail h2).tail h3, rfl⟩

/-- A turn on the chat context with two data-pending reports and the done report. -/
theorem C15_turn_sequencing_witness :
    (∀ c, Relation.ReflTransGen (TurnStep true)
        (turnStart chatContext
          ([⟨some ⟨[(DataSlotKey.kGPTDataSlotResponse, "Hel")]⟩,
              InferenceExecutionState.kInferenceExecutionStateDataPending⟩,
            ⟨none, InferenceExecutionState.kInferenceExecutionStateDataPending⟩] ++
            [⟨none, InferenceExecutionState.kInferenceExecutionStateDone⟩])) c →
      (c.due ≠ [] → waitPredicate c.nvigi = false ∧ c.phase ≠ TurnPhase.passed) ∧
      (c.due = [] → waitPredicate c.nvigi = true) ∧
      (c.phase = TurnPhase.passed → c.due = []) ∧
      ∃ made,
        [⟨some ⟨[(DataSlotKey.kGPTDataSlotResponse, "Hel")]⟩,
            InferenceExecutionState.kInferenceExecutionStateDataPending⟩,
          ⟨none, InferenceExecutionState.kInferenceExecutionStateDataPending⟩] ++
          [(⟨none, InferenceExecutionState.kInferenceExecutionStateDone⟩ : CallbackReport)] =
            made ++ c.due) ∧
    ∃ c, Relation.ReflTransGen (TurnStep true)
        (turnStart chatContext
          ([⟨some ⟨[(DataSlotKey.kGPTDataSlotResponse, "Hel")]⟩,
              InferenceExecutionState.kInferenceExecutionStateDataPending⟩,
            ⟨none, InferenceExecutionState.kInferenceExecutionStateDataPending⟩] ++
            [⟨none, InferenceExecutionState.kInferenceExecutionStateDone⟩])) c ∧
      c.phase = TurnPhase.passed := by
  have hpend : ∀ r ∈ [(⟨some ⟨[(DataSlotKey.kGPTDataSlotResponse, "Hel")]⟩,
        InferenceExecutionState.kInferenceExecutionStateDataPending⟩ : CallbackReport),
      ⟨none, InferenceExecutionState.kInferenceExecutionStateDataPending⟩],
      r.state = InferenceExecutionState.kInferenceExecutionStateDataPending := by
    intro r hr
    simp only [List.mem_cons, List.mem_singleton, List.mem_nil_iff, or_false] at hr
    rcases hr with rfl | rfl
    · rfl
    · rfl
  have hcar : ∀ r ∈ [(⟨some ⟨[(DataSlotKey.kGPTDataSlotResponse, "Hel")]⟩,
        InferenceExecutionState.kInferenceExecutionStateDataPending⟩ : CallbackReport),
      ⟨none, InferenceExecutionState.kInferenceExecutionStateDataPending⟩] ++
      [⟨none, InferenceExecutionState.kInferenceExecutionStateDone⟩],
      r.Carries DataSlotKey.kGPTDataSlotResponse := by
    intro r hr c hc
    simp only [List.cons_append, List.nil_append, List.mem_cons, List.mem_singleton,
      List.mem_nil_iff, or_false] at hr
    rcases hr with rfl | rfl | rfl
    · cases hc; rfl
    · cases hc
    · cases hc
  exact ⟨(C15_turn_sequencing chatContext _ _ hpend rfl).1,
    (C15_turn_sequencing chatContext _ _ hpend rfl).2 hcar (by simp [chatContext])⟩

/-- The turn as the lambda `eval` runs it is an execution of the step relation: every report
is made, `evaluate` returns, and the thread gets past the wait point. -/
theorem eval_is_turn (irt : InferenceRuntime) (nvigi d : NVIGIContext) (prompt : String)
    (initConversation : Bool) (h : eval irt nvigi prompt initConversation = .ok d) :
    ∃ inst, nvigi.m_gpt = some inst ∧
      Relation.ReflTransGen
        (TurnStep (irt.evaluateGPT nvigi.calls inst
          (if initConversation then DataSlotKey.kGPTDataSlotSystem
            else DataSlotKey.kGPTDataSlotUser) prompt).ok)
        (turnStart
          { nvigi with calls := nvigi.calls + 1,
                       evaluated := nvigi.evaluated ++
                         [⟨inst, if initConversation then DataSlotKey.kGPTDataSlotSystem
                           else DataSlotKey.kGPTDataSlotUser, prompt⟩] }
          (irt.evaluateGPT nvigi.calls inst
            (if initConversation then DataSlotKey.kGPTDataSlotSystem
              else DataSlotKey.kGPTDataSlotUser) prompt).reports)
        ⟨d, TurnPhase.passed, []⟩ := by
  unfold eval at h
  simp only [bind_eq_ok] at h
  obtain ⟨inst, hinst, n2, hn2, h⟩ := h
  have hg : nvigi.m_gpt = some inst := by
    cases hm : nvigi.m_gpt with
    | none => simp [deref, hm] at hinst
    | some i => simp [deref, hm] at hinst; rw [hinst]
  refine ⟨inst, hg, ?_⟩
  have h1 := deliver_steps (irt.evaluateGPT nvigi.calls inst
      (if initConversation then DataSlotKey.kGPTDataSlotSystem
        else DataSlotKey.kGPTDataSlotUser) prompt).ok TurnPhase.submitted _ _ n2 hn2
  cases hok : (irt.evaluateGPT nvigi.calls inst
      (if initConversation then DataSlotKey.kGPTDataSlotSystem
        else DataSlotKey.kGPTDataSlotUser) prompt).ok with
  | false =>
    rw [hok] at h h1
    simp only [Bool.false_eq_true, if_false] at h
    injection h with h
    subst h
    exact h1.tail (TurnStep.returned ⟨n2, TurnPhase.submitted, []⟩ rfl)
  | true =>
    rw [hok] at h h1
    simp only [if_true] at h
    by_cases hw : waitPredicate n2 = true
    · simp only [hw, if_true] at h
      injection h with h
      subst h
      exact (h1.tail (TurnStep.returned ⟨n2, TurnPhase.submitted, []⟩ rfl)).tail
        (TurnStep.wake ⟨n2, TurnPhase.waiting, []⟩ rfl hw)
    · simp [hw] at h

/-- What `gptCallback` does with a response fragment while the conversation is initialised:
a fragment without the marker is appended to the text of the last message, and a fragment with
the marker leaves the messages as they were. -/
theorem gptCallback_accumulates (nvigi : NVIGIContext) (c : InferenceExecutionContext)
    (str : String) (state : InferenceExecutionState) (m : Message)
    (hslot : findAndValidateSlot c.outputs DataSlotKey.kGPTDataSlotResponse = some str)
    (hinit : nvigi.m_conversationInitialized = true)
    (hback : nvigi.messages.getLast? = some m) :
    ∃ n1, gptCallback nvigi (some c) state (some ()) = .ok (n1, state) ∧
      (strContains str "<JSON>" = false →
        n1.messages = nvigi.messages.dropLast ++ [{ m with text := m.text ++ str }]) ∧
      (strContains str "<JSON>" = true → n1.messages = nvigi.messages) := by
  cases hm : strContains str "<JSON>" with
  | false =>
    exact ⟨{ nvigi with
        messages := nvigi.messages.dropLast ++ [{ m with text := m.text ++ str }],
        m_gptCallbackState := state },
      by simp [gptCallback, hslot, deref, Except.bind, gptAccumulate, hinit, hm, appendToBack,
        hback, Except.map],
      fun _ => rfl, fun h => by cases h⟩
  | true =>
    exact ⟨{ nvigi with m_gptCallbackState := state },
      by simp [gptCallback, hslot, deref, Except.bind, gptAccumulate, hinit, hm, Except.map],
      (fun h => by cases h), fun _ => rfl⟩

/-- C16 as stated fails: the conversation is initialised, the last message is the answer
"Hi", and the fragment " there<JSON>" is delivered. The claim gives "Hi there", the previous
text followed by the fragment with the marker stripped; after the callback the answer is still
"Hi". -/
theorem C16_counterexample_marker_fragment_not_appended :
    (gptCallback
        { m_conversationInitialized := true, messages := [⟨MessageType.Answer, "Hi"⟩] }
        (some ⟨[(DataSlotKey.kGPTDataSlotResponse, " there<JSON>")]⟩)
        InferenceExecutionState.kInferenceExecutionStateDataPending (some ())).map
      (fun r => answerText r.1) = .ok (some "Hi") ∧
    "Hi" ++ regex_replace " there<JSON>" "<JSON>" = "Hi there" ∧
    ("Hi" : String) ≠ "Hi there" :=
  ⟨rfl, rfl, by decide⟩

/-- C16, amended. For every response fragment `str` delivered while the conversation is
initialised, to a message list whose last message is `m`: the callback returns the reported
state; when the fragment does not contain the marker "<JSON>" the answer accumulator, the text
of the last message, is afterwards its previous value followed by the fragment unchanged, and
the earlier messages are as they were; when the fragment contains the marker it is filtered
out, the messages are as they were, so neither the marker nor the rest of the fragment is
emitted. -/
theorem C16_gpt_accumulation (nvigi : NVIGIContext) (c : InferenceExecutionContext)
    (str : String) (state : InferenceExecutionState) (m : Message)
    (hslot : findAndValidateSlot c.outputs DataSlotKey.kGPTDataSlotResponse = some str)
    (hinit : nvigi.m_conversationInitialized = true)
    (hback : nvigi.messages.getLast? = some m) :
    ∃ n1, gptCallback nvigi (some c) state (some ()) = .ok (n1, state) ∧
      (strContains str "<JSON>" = false →
        answerText n1 = some (m.text ++ str) ∧
          n1.messages.dropLast = nvigi.messages.dropLast ∧
          n1.messages.length = nvigi.messages.length) ∧
      (strContains str "<JSON>" = true →
        n1.messages = nvigi.messages ∧ answerText n1 = some m.text) := by
  obtain ⟨n1, hn1, hplain, hmarker⟩ :=
    gptCallback_accumulates nvigi c str state m hslot hinit hback
  refine ⟨n1, hn1, ?_, ?_⟩
  · intro h
    have hne : nvigi.messages ≠ [] := by
      intro h0
      rw [h0] at hback
      cases hback
    have hlen : 0 < nvigi.messages.length := List.length_pos.2 hne
    rw [answerText, hplain h]
    refine ⟨by simp, by simp, ?_⟩
    simp only [List.length_append, List.length_dropLast, List.length_singleton]
    omega
  · intro h
    rw [answerText, hmarker h, hback]
    exact ⟨rfl, rfl⟩

/-- A fragment without the marker delivered to the answer "Hi". -/
theorem C16_gpt_accumulation_witness :
    ∃ n1, gptCallback
        { m_conversationInitialized := true, messages := [⟨MessageType.Answer, "Hi"⟩] }
        (some ⟨[(DataSlotKey.kGPTDataSlotResponse, " there")]⟩)
        InferenceExecutionState.kInferenceExecutionStateDataPending (some ()) =
          .ok (n1, InferenceExecutionState.kInferenceExecutionStateDataPending) ∧
      (strContains " there" "<JSON>" = false →
        answerText n1 = some ((⟨MessageType.Answer, "Hi"⟩ : Message).text ++ " there") ∧
          n1.messages.dropLast =
            ({ m_conversationInitialized := true, messages := [⟨MessageType.Answer, "Hi"⟩] } :
              NVIGIContext).messages.dropLast ∧
          n1.messages.length =
            ({ m_conversationInitialized := true, messages := [⟨MessageType.Answer, "Hi"⟩] } :
              NVIGIContext).messages.length) ∧
      (strContains " there" "<JSON>" = true →
        n1.messages =
          ({ m_conversationInitialized := true, messages := [⟨MessageType.Answer, "Hi"⟩] } :
            NVIGIContext).messages ∧
          answerText n1 = some (⟨MessageType.Answer, "Hi"⟩ : Message).text) :=
  C16_gpt_accumulation
    { m_conversationInitialized := true, messages := [⟨MessageType.Answer, "Hi"⟩] }
    ⟨[(DataSlotKey.kGPTDataSlotResponse, " there")]⟩ " there"
    InferenceExecutionState.kInferenceExecutionStateDataPending ⟨MessageType.Answer, "Hi"⟩
    rfl rfl rfl

/-- C17 as stated fails: the chunk "uh<JSON>" is not equal to the marker, yet the callback
appends it to neither accumulator. -/
theorem C17_counterexample_chunk_containing_marker :
    ("uh<JSON>" : String) ≠ "<JSON>" ∧
    (asrCallback { m_a2t := "so", m_gptInput := "so" }
        (some ⟨[(DataSlotKey.kASRWhisperDataSlotTranscribedText, "uh<JSON>")]⟩)
        InferenceExecutionState.kInferenceExecutionStateDataPending (some ())).map
      (fun r => (r.1.m_a2t, r.1.m_gptInput)) = .ok ("so", "so") ∧
    ("so" : String) ≠ "so" ++ "uh<JSON>" :=
  ⟨by decide, rfl, by decide⟩

/-- C17, amended. For every invocation of the speech-recognition callback with the context as
user data and an execution context that carries the chunk `str`: the callback returns the
reported state; a chunk that does not contain the marker "<JSON>" is appended to both the
transcript accumulator and the pending-prompt accumulator, the same text to both; a chunk that
contains the marker, in particular a chunk equal to it, changes neither; so accumulators that
were equal before the callback are equal after it. -/
theorem C17_asr_accumulation (nvigi : NVIGIContext) (c : InferenceExecutionContext)
    (str : String) (state : InferenceExecutionState)
    (hslot : findAndValidateSlot c.outputs DataSlotKey.kASRWhisperDataSlotTranscribedText =
      some str) :
    ∃ n1, asrCallback nvigi (some c) state (some ()) = .ok (n1, state) ∧
      (strContains str "<JSON>" = false →
        n1.m_a2t = nvigi.m_a2t ++ str ∧ n1.m_gptInput = nvigi.m_gptInput ++ str) ∧
      (strContains str "<JSON>" = true →
        n1.m_a2t = nvigi.m_a2t ∧ n1.m_gptInput = nvigi.m_gptInput) ∧
      (str = "<JSON>" → n1.m_a2t = nvigi.m_a2t ∧ n1.m_gptInput = nvigi.m_gptInput) ∧
      (nvigi.m_a2t = nvigi.m_gptInput → n1.m_a2t = n1.m_gptInput) := by
  cases hm : strContains str "<JSON>" with
  | false =>
    refine ⟨{ nvigi with
        m_a2t := nvigi.m_a2t ++ str, m_gptInput := nvigi.m_gptInput ++ str,
        m_gptInputReady := decide (state = .kInferenceExecutionStateDone) },
      by simp [asrCallback, hslot, deref, Except.map, hm], fun _ => ⟨rfl, rfl⟩,
      (fun h => by cases h), ?_, ?_⟩
    · intro h
      subst h
      have : strContains "<JSON>" "<JSON>" = true := by decide
      rw [this] at hm
      cases hm
    · intro h
      show nvigi.m_a2t ++ str = nvigi.m_gptInput ++ str
      rw [h]
  | true =>
    exact ⟨{ nvigi with m_gptInputReady := decide (state = .kInferenceExecutionStateDone) },
      by simp [asrCallback, hslot, deref, Except.map, hm], (fun h => by cases h),
      fun _ => ⟨rfl, rfl⟩, fun _ => ⟨rfl, rfl⟩, fun h => h⟩

/-- A chunk without the marker on equal accumulators. -/
theorem C17_asr_accumulation_witness :
    ∃ n1, asrCallback { m_a2t := "so", m_gptInput := "so" }
        (some ⟨[(DataSlotKey.kASRWhisperDataSlotTranscribedText, " far")]⟩)
        InferenceExecutionState.kInferenceExecutionStateDone (some ()) =
          .ok (n1, InferenceExecutionState.kInferenceExecutionStateDone) ∧
      (strContains " far" "<JSON>" = false →
        n1.m_a2t = ({ m_a2t := "so", m_gptInput := "so" } : NVIGIContext).m_a2t ++ " far" ∧
          n1.m_gptInput =
            ({ m_a2t := "so", m_gptInput := "so" } : NVIGIContext).m_gptInput ++ " far") ∧
      (strContains " far" "<JSON>" = true →
        n1.m_a2t = ({ m_a2t := "so", m_gptInput := "so" } : NVIGIContext).m_a2t ∧
          n1.m_gptInput = ({ m_a2t := "so", m_gptInput := "so" } : NVIGIContext).m_gptInput) ∧
      ((" far" : String) = "<JSON>" →
        n1.m_a2t = ({ m_a2t := "so", m_gptInput := "so" } : NVIGIContext).m_a2t ∧
          n1.m_gptInput = ({ m_a2t := "so", m_gptInput := "so" } : NVIGIContext).m_gptInput) ∧
      (({ m_a2t := "so", m_gptInput := "so" } : NVIGIContext).m_a2t =
          ({ m_a2t := "so", m_gptInput := "so" } : NVIGIContext).m_gptInput →
        n1.m_a2t = n1.m_gptInput) :=
  C17_asr_accumulation { m_a2t := "so", m_gptInput := "so" }
    ⟨[(DataSlotKey.kASRWhisperDataSlotTranscribedText, " far")]⟩ " far"
    InferenceExecutionState.kInferenceExecutionStateDone rfl

/-- C18. Speech-recognition input-ready signalling. An invocation of the callback with the
context as user data, whose execution context is null or carries the transcribed-text slot,
returns the reported state unchanged and leaves `m_gptInputReady` true when the reported state
is done and false for every other reported state; the same holds of every invocation with
non-null user data that returns at all. With null user data the callback returns the invalid
state and the context is as it was. -/
theorem C18_input_ready_signalling (nvigi : NVIGIContext)
    (ctx : Option InferenceExecutionContext) (state : InferenceExecutionState) :
    ((⟨ctx, state⟩ : CallbackReport).Carries DataSlotKey.kASRWhisperDataSlotTranscribedText →
      ∃ n1, asrCallback nvigi ctx state (some ()) = .ok (n1, state) ∧
        (state = InferenceExecutionState.kInferenceExecutionStateDone →
          n1.m_gptInputReady = true) ∧
        (state ≠ InferenceExecutionState.kInferenceExecutionStateDone →
          n1.m_gptInputReady = false)) ∧
    (∀ n1 s, asrCallback nvigi ctx state (some ()) = .ok (n1, s) →
      s = state ∧
      (state = InferenceExecutionState.kInferenceExecutionStateDone →
        n1.m_gptInputReady = true) ∧
      (state ≠ InferenceExecutionState.kInferenceExecutionStateDone →
        n1.m_gptInputReady = false)) ∧
    asrCallback nvigi ctx state none =
      .ok (nvigi, InferenceExecutionState.kInferenceExecutionStateInvalid) := by
  have post : ∀ n1 s, asrCallback nvigi ctx state (some ()) = .ok (n1, s) →
      s = state ∧
      (state = InferenceExecutionState.kInferenceExecutionStateDone →
        n1.m_gptInputReady = true) ∧
      (state ≠ InferenceExecutionState.kInferenceExecutionStateDone →
        n1.m_gptInputReady = false) := by
    intro n1 s h
    unfold asrCallback at h
    simp only [map_eq_ok] at h
    obtain ⟨a, _, h⟩ := h
    injection h with h1 h2
    subst h1
    exact ⟨h2.symm, fun hd => by simp [hd], fun hd => by simp [hd]⟩
  have total : (⟨ctx, state⟩ : CallbackReport).Carries
      DataSlotKey.kASRWhisperDataSlotTranscribedText →
      ∃ n1, asrCallback nvigi ctx state (some ()) = .ok (n1, state) := by
    intro hcar
    cases hc : ctx with
    | none => exact ⟨_, rfl⟩
    | some c =>
      have hs := hcar c hc
      cases hf : findAndValidateSlot c.outputs DataSlotKey.kASRWhisperDataSlotTranscribedText with
      | none => rw [hf] at hs; cases hs
      | some str =>
        by_cases hm : strContains str "<JSON>" = true
        · exact ⟨{ nvigi with m_gptInputReady := decide (state = .kInferenceExecutionStateDone) },
            by simp [asrCallback, hf, deref, Except.map, hm]⟩
        · exact ⟨{ nvigi with
              m_a2t := nvigi.m_a2t ++ str, m_gptInput := nvigi.m_gptInput ++ str,
              m_gptInputReady := decide (state = .kInferenceExecutionStateDone) },
            by simp [asrCallback, hf, deref, Except.map, hm]⟩
  refine ⟨?_, post, rfl⟩
  intro hcar
  obtain ⟨n1, hn1⟩ := total hcar
  exact ⟨n1, hn1, (post n1 state hn1).2⟩

/-- A done report that carries a chunk, delivered while the flag is false. -/
theorem C18_input_ready_signalling_witness :
    ∃ n1, asrCallback { m_gptInputReady := false }
        (some ⟨[(DataSlotKey.kASRWhisperDataSlotTranscribedText, "good")]⟩)
        InferenceExecutionState.kInferenceExecutionStateDone (some ()) =
          .ok (n1, InferenceExecutionState.kInferenceExecutionStateDone) ∧
      (InferenceExecutionState.kInferenceExecutionStateDone =
          InferenceExecutionState.kInferenceExecutionStateDone →
        n1.m_gptInputReady = true) ∧
      (InferenceExecutionState.kInferenceExecutionStateDone ≠
          InferenceExecutionState.kInferenceExecutionStateDone →
        n1.m_gptInputReady = false) :=
  (C18_input_ready_signalling { m_gptInputReady := false }
    (some ⟨[(DataSlotKey.kASRWhisperDataSlotTranscribedText, "good")]⟩)
    InferenceExecutionState.kInferenceExecutionStateDone).1
    (by intro c hc; cases hc; rfl)

/-- The input-ready flag over a transcription of two reports: set by the done report, and
cleared again by a later report of any other state. -/
theorem input_ready_follows_last_report :
    (deliver asrCallback {}
        [⟨some ⟨[(DataSlotKey.kASRWhisperDataSlotTranscribedText, "good")]⟩,
            InferenceExecutionState.kInferenceExecutionStateDataPending⟩,
          ⟨some ⟨[(DataSlotKey.kASRWhisperDataSlotTranscribedText, " day")]⟩,
            InferenceExecutionState.kInferenceExecutionStateDone⟩]).map
      (fun n => (n.m_a2t, n.m_gptInput, n.m_gptInputReady)) = .ok ("good day", "good day", true) ∧
    (deliver asrCallback {}
        [⟨none, InferenceExecutionState.kInferenceExecutionStateDone⟩,
          ⟨none, InferenceExecutionState.other 7⟩]).map
      (fun n => n.m_gptInputReady) = .ok false :=
  ⟨rfl, rfl⟩

/-! ## Speech-recognition swap -/

theorem loadAndCreateASR_index (rt : Runtime) (c : NVIGIContext) (fid : PluginID)
    (params : Option Nat) (r : NVIGIContext × Bool) (h : loadAndCreateASR rt c fid params = .ok r) :
    r.1.m_asrIndex = c.m_asrIndex := by
  unfold loadAndCreateASR at h
  split at h
  · simp only [bind_eq_ok] at h
    obtain ⟨p, _, blocks, _, h⟩ := h
    split at h <;> (injection h with h; subst h; rfl)
  · injection h with h; subst h; rfl

theorem loadModelASR_index (rt : Runtime) (c d : NVIGIContext)
    (newAsrInfo : Option PluginModelInfo) (h : loadModelASR rt c newAsrInfo = .ok d) :
    d.m_asrIndex = c.m_asrIndex := by
  unfold loadModelASR at h
  simp only [bind_eq_ok] at h
  obtain ⟨r, _, h⟩ := h
  split at h
  · simp only [bind_eq_ok, map_eq_ok] at h
    obtain ⟨cc, hcreate, h2, _, hd⟩ := h
    subst hd
    exact (loadAndCreateASR_index rt _ _ _ cc hcreate).trans rfl
  · injection h with h; subst h; rfl

/-- A speech-recognition swap never goes back to the previous selection: once
`ReloadASRModel(index)` and its load task have finished, `m_asrIndex` is `index`, whether the
instance was created or not. -/
theorem ReloadASRModel_keeps_new_index (rt : Runtime) (ctx c d : NVIGIContext) (index : Int)
    (h1 : ReloadASRModel rt ctx index = .ok c) (h2 : joinLoadingThread rt c = .ok d) :
    d.m_asrIndex = index := by
  unfold ReloadASRModel at h1
  simp only [bind_eq_ok] at h1
  obtain ⟨c0, _, newAsrInfo, _, h1⟩ := h1
  injection h1 with h1
  subst h1
  simp only [joinLoadingThread, runTask] at h2
  rw [loadModelASR_index rt _ d _ h2]
  simp only [destroyASR]
  split <;> rfl

/-- C19, at the failing input: two speech-recognition models, the first selected, loaded and
ready; the runtime creates instances of the first model's backend and refuses the second's;
`ReloadASRModel(1)` is called and its load task runs to the end. The claim says the previous
model is recreated, so that the swap ends with `m_asrIndex = 0` and `m_asrReady = true`. The
code has no rollback in this domain: it ends with `m_asrIndex = 1`, `m_asrReady = false` and
no speech-recognition instance; the runtime received two calls, the interface load and the
refused creation, and none for the previous model, whose instance it would create. -/
theorem C19_asr_swap_has_no_rollback :
    ((ReloadASRModel asrSwapRuntime asrLoadedContext 1).bind
        (joinLoadingThread asrSwapRuntime)).map
      (fun d => (d.m_asrIndex, d.m_asrReady, liveIn Domain.asr d, d.m_asr, d.calls)) =
      .ok (1, false, [], none, asrLoadedContext.calls + 2) ∧
    asrLoadedContext.m_asrIndex = 0 ∧ asrLoadedContext.m_asrReady = true ∧
    (∀ n, createsInstance asrSwapRuntime n PluginID.asr_ggml_cuda
      (asrChainBlocks [] sampleAsrModel) = true) :=
  ⟨rfl, rfl, rfl, fun _ => rfl⟩

/-! ## Adapter selection -/

/-- The scan of lines 366-375 from counter `i`, best architecture `arch` and member value `m`:
either no NVIDIA adapter of the list exceeds `arch` and the member is unchanged, or the member
is the position of an NVIDIA adapter that exceeds `arch` and that no NVIDIA adapter of the
list exceeds. -/
theorem scanAdapters_spec (l : List AdapterSpec) :
    ∀ (i : Int) (arch : Nat) (m : Int),
      (scanAdapters l i arch m = m ∧
        ∀ a ∈ l, a.vendor = VendorId.eNVDA → a.architecture ≤ arch) ∨
      (∃ (k : Nat) (a : AdapterSpec), l.get? k = some a ∧ scanAdapters l i arch m = i + k ∧
        a.vendor = VendorId.eNVDA ∧ arch < a.architecture ∧
        ∀ b ∈ l, b.vendor = VendorId.eNVDA → b.architecture ≤ a.architecture) := by
  induction l with
  | nil => intro i arch m; exact Or.inl ⟨rfl, by simp⟩
  | cons a rest ih =>
    intro i arch m
    by_cases hc : a.vendor = VendorId.eNVDA ∧ arch < a.architecture
    · have hs : scanAdapters (a :: rest) i arch m = scanAdapters rest (i + 1) a.architecture i := by
        simp [scanAdapters, hc]
      rcases ih (i + 1) a.architecture i with ⟨hr, hall⟩ | ⟨k, b, hk, hr, hv, hlt, hall⟩
      · refine Or.inr ⟨0, a, rfl, by rw [hs, hr]; simp, hc.1, hc.2, ?_⟩
        intro b hb hbv
        rcases List.mem_cons.1 hb with h0 | h0
        · rw [h0]
        · exact hall b h0 hbv
      · refine Or.inr ⟨k + 1, b, hk, by rw [hs, hr]; push_cast; ring, hv, by omega, ?_⟩
        intro x hx hxv
        rcases List.mem_cons.1 hx with h0 | h0
        · rw [h0]; omega
        · exact hall x h0 hxv
    · have hs : scanAdapters (a :: rest) i arch m = scanAdapters rest (i + 1) arch m := by
        simp only [scanAdapters, hc, if_false]
      rcases ih (i + 1) arch m with ⟨hr, hall⟩ | ⟨k, b, hk, hr, hv, hlt, hall⟩
      · refine Or.inl ⟨by rw [hs, hr], ?_⟩
        intro x hx hxv
        rcases List.mem_cons.1 hx with h0 | h0
        · rw [h0] at hxv ⊢
          by_contra hgt
          exact hc ⟨hxv, by omega⟩
        · exact hall x h0 hxv
      · refine Or.inr ⟨k + 1, b, hk, by rw [hs, hr]; push_cast; ring, hv, hlt, ?_⟩
        intro x hx hxv
        rcases List.mem_cons.1 hx with h0 | h0
        · rw [h0] at hxv ⊢
          by_contra hgt
          exact hc ⟨hxv, by omega⟩
        · exact hall x h0 hxv

/-- What adapter selection does guarantee, from the initial `m_adapter = -1`: the member is -1
exactly when no adapter was detected and otherwise a valid index; and when some detected
NVIDIA adapter reports a non-zero architecture, the selected adapter is an NVIDIA one whose
architecture no detected NVIDIA adapter exceeds. -/
theorem selectAdapter_spec (ctx : NVIGIContext) (h0 : ctx.m_adapter = -1) :
    ((selectAdapter ctx).m_adapter = -1 ↔ ctx.m_pluginInfo.detectedAdapters = []) ∧
    ((selectAdapter ctx).m_adapter = -1 ∨
      (0 ≤ (selectAdapter ctx).m_adapter ∧
        (selectAdapter ctx).m_adapter < ctx.m_pluginInfo.detectedAdapters.length)) ∧
    ((∃ a ∈ ctx.m_pluginInfo.detectedAdapters, a.vendor = VendorId.eNVDA ∧ 0 < a.architecture) →
      ∃ a, ctx.m_pluginInfo.detectedAdapters.get? (selectAdapter ctx).m_adapter.toNat = some a ∧
        0 ≤ (selectAdapter ctx).m_adapter ∧ a.vendor = VendorId.eNVDA ∧
        ∀ b ∈ ctx.m_pluginInfo.detectedAdapters, b.vendor = VendorId.eNVDA →
          b.architecture ≤ a.architecture) := by
  have hsel : (selectAdapter ctx).m_adapter =
      (if scanAdapters ctx.m_pluginInfo.detectedAdapters 0 0 ctx.m_adapter < 0 then
        (if ctx.m_pluginInfo.detectedAdapters.length ≠ 0 then 0
          else scanAdapters ctx.m_pluginInfo.detectedAdapters 0 0 ctx.m_adapter)
      else scanAdapters ctx.m_pluginInfo.detectedAdapters 0 0 ctx.m_adapter) := rfl
  rcases scanAdapters_spec ctx.m_pluginInfo.detectedAdapters 0 0 ctx.m_adapter with
    ⟨hr, hall⟩ | ⟨k, a, hk, hr, hv, hlt, hall⟩
  · rw [hr, h0] at hsel
    cases hl : ctx.m_pluginInfo.detectedAdapters with
    | nil =>
      rw [hl] at hsel
      simp at hsel
      refine ⟨by simp [hsel], Or.inl hsel, ?_⟩
      rintro ⟨a, ha, _⟩
      cases ha
    | cons x xs =>
      rw [hl] at hsel hall
      simp at hsel
      refine ⟨by simp [hsel], Or.inr (by simp [hsel]), ?_⟩
      rintro ⟨a, ha, hav, hpos⟩
      have := hall a ha hav
      omega
  · have hklt : k < ctx.m_pluginInfo.detectedAdapters.length := by
      rcases Nat.lt_or_ge k ctx.m_pluginInfo.detectedAdapters.length with h | h
      · exact h
      · rw [List.get?_eq_none.2 h] at hk; cases hk
    have hm : (selectAdapter ctx).m_adapter = (k : Int) := by
      rw [hsel, hr]
      simp
    have hne : ctx.m_pluginInfo.detectedAdapters ≠ [] := by
      intro h
      rw [h] at hklt
      simp at hklt
    refine ⟨?_, Or.inr ?_, ?_⟩
    · rw [hm]
      constructor
      · intro h; omega
      · intro h; exact absurd h hne
    · rw [hm]; omega
    · intro _
      refine ⟨a, ?_, by rw [hm]; omega, hv, hall⟩
      rw [hm]
      simpa using hk

/-- C20, at the failing input: two adapters are detected, the first of another vendor and the
second an NVIDIA adapter that reports architecture 0. The claim says the selected index refers
to an NVIDIA adapter. The scan starts from `nvdaArch = 0` and takes an NVIDIA adapter only when
its architecture is greater, so it takes none; the fallback, written for "No NVIDIA adapters
found", then sets `m_adapter = 0`, the adapter of the other vendor. -/
theorem C20_zero_architecture_adapter_not_selected :
    (selectAdapter zeroArchitectureContext).m_adapter = 0 ∧
    (zeroArchitectureContext.m_pluginInfo.detectedAdapters.get? 0).map (fun a => a.vendor) =
      some (VendorId.eOther 4098) ∧
    (zeroArchitectureContext.m_pluginInfo.detectedAdapters.get? 1).map (fun a => a.vendor) =
      some VendorId.eNVDA ∧
    zeroArchitectureContext.m_adapter = -1 :=
  ⟨rfl, rfl, rfl, rfl⟩


/-! ## Turns refused by the plugin runtime -/

/-- A turn whose `evaluate` call returns a result other than `kResultOk` never has its thread
at the wait, and while no report is due the last callback state stays data-pending. -/
theorem refused_turn_invariant (nvigi : NVIGIContext) (c : TurnConfig)
    (hc : Relation.ReflTransGen (TurnStep false) (turnStart nvigi []) c) :
    c.phase ≠ TurnPhase.waiting ∧ c.due = [] ∧
      c.nvigi.m_gptCallbackState = InferenceExecutionState.kInferenceExecutionStateDataPending := by
  induction hc with
  | refl => exact ⟨by simp [turnStart], rfl, rfl⟩
  | @tail c0 c1 _ hstep ih =>
    obtain ⟨hph, hdue, hst⟩ := ih
    cases hstep with
    | report r rest n1 s hd hcall => rw [hdue] at hd; cases hd
    | returned hphase => exact ⟨by simp, hdue, hst⟩
    | wake hphase hpred => exact absurd hphase hph

/-- The lambda `eval` on a call that the plugin runtime refuses at once. -/
theorem eval_refused (irt : InferenceRuntime) (nvigi : NVIGIContext) (inst : Nat)
    (prompt : String) (initConversation : Bool) (hinst : nvigi.m_gpt = some inst)
    (hres : irt.evaluateGPT nvigi.calls inst
      (if initConversation then DataSlotKey.kGPTDataSlotSystem else DataSlotKey.kGPTDataSlotUser)
      prompt = ⟨false, []⟩) :
    eval irt nvigi prompt initConversation =
      .ok { nvigi with
        m_gptCallbackState := InferenceExecutionState.kInferenceExecutionStateDataPending,
        m_gptRunning := true, calls := nvigi.calls + 1,
        evaluated := nvigi.evaluated ++
          [⟨inst, if initConversation then DataSlotKey.kGPTDataSlotSystem
            else DataSlotKey.kGPTDataSlotUser, prompt⟩] } := by
  have hd : deref nvigi.m_gpt = .ok inst := by rw [hinst]; rfl
  unfold eval
  simp only [hd, Except.bind, hres, deliver]
  rfl

/-- C24. A text-generation turn whose `evaluate` call returns at once a result other than
`kResultOk`, having invoked no callback, is treated as done waiting. With an instance loaded:
(1) the lambda `eval` returns on such a call, for the system slot and for the user slot alike,
and in the state it returns the last callback state is still data-pending, so the predicate of
the wait is false and the return did not come through the wait; (2) in the step relation of
that turn the driving thread is never at the wait, it gets past the wait point, and the state
is data-pending in every configuration: no terminal state is recorded; (3) when it is the
system turn of a conversation not yet initialised that is refused, the body of the inference
thread goes on: it is the user turn run on the state the refused turn left, with
`m_conversationInitialized` set to true; and when the plugin runtime completes the turns it
does accept, the body returns with the system-slot call and then the user-slot call issued and
`m_conversationInitialized` true. -/
theorem C24_refused_turn_is_done_waiting (irt : InferenceRuntime) (nvigi : NVIGIContext)
    (inst : Nat) (hinst : nvigi.m_gpt = some inst) :
    (∀ (prompt : String) (initConversation : Bool),
      irt.evaluateGPT nvigi.calls inst
        (if initConversation then DataSlotKey.kGPTDataSlotSystem
          else DataSlotKey.kGPTDataSlotUser) prompt = ⟨false, []⟩ →
      (∃ n2, eval irt nvigi prompt initConversation = .ok n2 ∧
        n2.m_gptCallbackState = InferenceExecutionState.kInferenceExecutionStateDataPending ∧
        waitPredicate n2 = false ∧
        n2.m_conversationInitialized = nvigi.m_conversationInitialized ∧
        n2.evaluated = nvigi.evaluated ++
          [⟨inst, if initConversation then DataSlotKey.kGPTDataSlotSystem
            else DataSlotKey.kGPTDataSlotUser, prompt⟩]) ∧
      (∀ c, Relation.ReflTransGen (TurnStep false) (turnStart nvigi []) c →
        c.phase ≠ TurnPhase.waiting ∧
        c.nvigi.m_gptCallbackState =
          InferenceExecutionState.kInferenceExecutionStateDataPending) ∧
      ∃ c, Relation.ReflTransGen (TurnStep false) (turnStart nvigi []) c ∧
        c.phase = TurnPhase.passed) ∧
    (∀ prompt : String, nvigi.m_conversationInitialized = false →
      irt.evaluateGPT nvigi.calls inst DataSlotKey.kGPTDataSlotSystem initialPrompt =
        ⟨false, []⟩ →
      (∃ n1, eval irt { nvigi with m_inferThreadRunning := true } initialPrompt true = .ok n1 ∧
        n1.m_gptCallbackState = InferenceExecutionState.kInferenceExecutionStateDataPending ∧
        LaunchGPT_l irt nvigi prompt =
          (eval irt { n1 with m_conversationInitialized := true } prompt false).map fun n2 =>
            { n2 with m_gptRunning := false, m_inferThreadRunning := false }) ∧
      (CompletesTurns irt → nvigi.messages ≠ [] →
        ∃ d, LaunchGPT_l irt nvigi prompt = .ok d ∧ d.m_conversationInitialized = true ∧
          d.evaluated = nvigi.evaluated ++
            [⟨inst, DataSlotKey.kGPTDataSlotSystem, initialPrompt⟩,
             ⟨inst, DataSlotKey.kGPTDataSlotUser, prompt⟩])) := by
  constructor
  · intro prompt initConversation hres
    refine ⟨⟨_, eval_refused irt nvigi inst prompt initConversation hinst hres, rfl, rfl, rfl,
      rfl⟩, fun c hc => ?_, ?_⟩
    · obtain ⟨h1, _, h3⟩ := refused_turn_invariant nvigi c hc
      exact ⟨h1, h3⟩
    · exact ⟨_, Relation.ReflTransGen.single (TurnStep.returned (turnStart nvigi []) rfl), rfl⟩
  · intro prompt hinit hres
    have hrun := eval_refused irt { nvigi with m_inferThreadRunning := true } inst initialPrompt
      true hinst hres
    constructor
    · refine ⟨_, hrun, rfl, ?_⟩
      have hcond : (!nvigi.m_conversationInitialized) = true := by simp [hinit]
      unfold LaunchGPT_l
      simp only [hcond, if_true, hrun, Except.map, Except.bind]
    · intro hrt hmsg
      obtain ⟨d, hd, he, hi, _⟩ := LaunchGPT_l_ok irt nvigi inst prompt hrt hinst hmsg
      refine ⟨d, hd, hi, ?_⟩
      rw [he, hinit]
      rfl

theorem refusingInference_completes : CompletesTurns refusingInference := by
  intro n inst slot prompt
  by_cases hs : slot = DataSlotKey.kGPTDataSlotSystem
  · subst hs
    exact ⟨(fun r hr => by cases hr), (fun h => by cases h)⟩
  · have he : refusingInference.evaluateGPT n inst slot prompt =
        sampleInference.evaluateGPT n inst slot prompt := by
      simp [refusingInference, hs]
    rw [he]
    exact sampleInference_completes n inst slot prompt

/-- C24 on the chat context with a plugin runtime that refuses the system turn: the refused
turn returns with the state data-pending, and the thread body still sets the flag and issues
the user turn. -/
theorem C24_refused_turn_is_done_waiting_witness :
    ((∃ n2, eval refusingInference chatContext initialPrompt true = .ok n2 ∧
        n2.m_gptCallbackState = InferenceExecutionState.kInferenceExecutionStateDataPending ∧
        waitPredicate n2 = false ∧
        n2.m_conversationInitialized = chatContext.m_conversationInitialized ∧
        n2.evaluated = chatContext.evaluated ++
          [⟨0, if true = true then DataSlotKey.kGPTDataSlotSystem
            else DataSlotKey.kGPTDataSlotUser, initialPrompt⟩]) ∧
      (∀ c, Relation.ReflTransGen (TurnStep false) (turnStart chatContext []) c →
        c.phase ≠ TurnPhase.waiting ∧
        c.nvigi.m_gptCallbackState =
          InferenceExecutionState.kInferenceExecutionStateDataPending) ∧
      ∃ c, Relation.ReflTransGen (TurnStep false) (turnStart chatContext []) c ∧
        c.phase = TurnPhase.passed) ∧
    ∃ d, LaunchGPT_l refusingInference chatContext "hello" = .ok d ∧
      d.m_conversationInitialized = true ∧
      d.evaluated = chatContext.evaluated ++
        [⟨0, DataSlotKey.kGPTDataSlotSystem, initialPrompt⟩,
         ⟨0, DataSlotKey.kGPTDataSlotUser, "hello"⟩] :=
  ⟨(C24_refused_turn_is_done_waiting refusingInference chatContext 0 rfl).1 initialPrompt true
      rfl,
    ((C24_refused_turn_is_done_waiting refusingInference chatContext 0 rfl).2 "hello" rfl
      rfl).2 refusingInference_completes (by simp [chatContext])⟩


/-! ## Per-model queries of the cloud backend that yield nothing -/

/-- C23, at the failing inputs: on a system with one NVIDIA adapter the cloud backend reports
one model, and the query repeated with that model's identifier bound (a) leaves `models` null,
or (b) leaves capabilities without a cloud-capabilities block. The claim says the missing
result is not dereferenced and the call goes on to unload the interface and release the chain;
the code reads `*models` (line 221) and `cloudCaps->url` (line 231) unchecked, so
`AddGPTCloudPlugin` stops in a read through a null pointer, before lines 235-236, and the
population of `Initialize_preDeviceManager` stops with it. -/
theorem C23_per_model_gap_is_dereferenced :
    AddGPTCloudPlugin (cloudGapRuntime (CapsResponse.wrote none)) (selectAdapter nvidiaContext) =
      .error Fault.nullDeref ∧
    AddGPTCloudPlugin
        (cloudGapRuntime (CapsResponse.wrote (some ⟨[⟨"nim", "guid-c", 0⟩], none⟩)))
        (selectAdapter nvidiaContext) = .error Fault.nullDeref ∧
    Initialize_preDeviceManager (cloudGapRuntime (CapsResponse.wrote none)) nvidiaContext =
      .error Fault.nullDeref :=
  ⟨rfl, rfl, rfl⟩

/-! ## Reads of the adapter record -/

/-- With no adapter selected, `CheckPluginCompat` returns whenever the plugin that decides the
call is absent (false) or accepts any vendor (true): on these paths the adapter is not read. -/
theorem CheckPluginCompat_no_adapter_returns (ctx : NVIGIContext) (id : PluginID)
    (hA : ctx.m_adapter < 0) :
    (ctx.m_pluginInfo.detectedPlugins.find? (fun q => decide (q.id = id)) = none →
      CheckPluginCompat ctx id = .ok false) ∧
    (∀ p, ctx.m_pluginInfo.detectedPlugins.find? (fun q => decide (q.id = id)) = some p →
      p.requiredAdapterVendor = VendorId.eAny ∨ p.requiredAdapterVendor = VendorId.eNone →
      CheckPluginCompat ctx id = .ok true) := by
  have hneg : ¬ (0 ≤ ctx.m_adapter) := by omega
  constructor
  · intro hP
    simp [CheckPluginCompat, adapterInfoOf, hneg, Except.bind, checkPluginLoop_eq_find, hP]
  · intro p hP hv
    rcases hv with hv | hv <;>
      simp [CheckPluginCompat, adapterInfoOf, hneg, Except.bind, checkPluginLoop_eq_find, hP,
        checkDetectedPlugin, vendorRejected, architectureRejected, driverRejected, hv]

/-- The architecture and driver tests read the adapter only behind a passed vendor test of a
plugin that requires the NVIDIA vendor, and then the adapter record is present. -/
theorem adapter_present_at_minimum_tests (adapterInfo : Option AdapterSpec) (plugin : PluginSpec)
    (hv : vendorRejected adapterInfo plugin = false)
    (hn : plugin.requiredAdapterVendor = VendorId.eNVDA) :
    ∃ a, adapterInfo = some a ∧
      architectureRejected adapterInfo plugin =
        .ok (decide (a.architecture < plugin.requiredAdapterArchitecture)) ∧
      driverRejected adapterInfo plugin =
        .ok (plugin.requiredAdapterDriverVersion.gt a.driverVersion) := by
  cases adapterInfo with
  | none => simp [vendorRejected, hn] at hv
  | some a => exact ⟨a, rfl, by simp [architectureRejected, hn, deref, Except.map],
      by simp [driverRejected, hn, deref, Except.map]⟩

/-- C25, at the failing input: no adapter is selected (`m_adapter = -1`, no adapter detected)
and the detected plugin with the requested id requires the vendor 0x1002. The claim says the
call reaches its result without reading the adapter's vendor; the vendor test is entered
through `!adapterInfo` and the code then evaluates `adapterInfo->vendor` for the error message
(line 110), a read through the null adapter pointer. -/
theorem C25_vendor_report_reads_missing_adapter :
    vendorRejected none ⟨PluginID.other 7, VendorId.eOther 4098, 0, ⟨0, 0⟩⟩ = true ∧
    CheckPluginCompat
      { m_adapter := -1,
        m_pluginInfo := ⟨[], [⟨PluginID.other 7, VendorId.eOther 4098, 0, ⟨0, 0⟩⟩]⟩ }
      (PluginID.other 7) = .error Fault.nullDeref :=
  ⟨rfl, rfl⟩


/-! ## Swaps whose parameters cannot be built -/

/-- C22. A text-generation swap whose parameter build fails attempts nothing. With `c0` the
state once the earlier load task has been joined and `c0.m_gptIndex` a valid selection: if
`GetGPTCreationParams(false)` returns null for the requested index, `ReloadGPTModel` returns
the state `c0` with only `m_conversationInitialized` cleared and the free store as the build
left it. So no runtime call was made (no interface load, no `createInstance`), the live
instances and the handle `m_gpt` are as they were (no `destroyInstance`), no load task is
started, and `m_gptIndex` is the selection from before the call. The build does return null
for a cloud entry whose known provider's credential is unset. -/
theorem C22_failed_build_attempts_nothing (rt : Runtime) (ctx c0 : NVIGIContext) (index : Int)
    (prevInfo : Option PluginModelInfo)
    (hjoin : joinLoadingThread rt ctx = .ok c0)
    (hprev : GetGPTPluginModel c0 c0.m_gptIndex = .ok prevInfo) :
    (∀ h, GetGPTCreationParams rt
        { c0 with m_conversationInitialized := false, m_gptIndex := index } false none =
          .ok (h, none) →
      ∃ c1, ReloadGPTModel rt ctx index = .ok c1 ∧
        c1 = { c0 with m_conversationInitialized := false, heap := h } ∧
        c1.calls = c0.calls ∧ c1.live = c0.live ∧ c1.nextHandle = c0.nextHandle ∧
        c1.m_gpt = c0.m_gpt ∧ c1.m_igpt = c0.m_igpt ∧ c1.m_gptReady = c0.m_gptReady ∧
        c1.m_loadingThread = none ∧ c1.m_gptIndex = c0.m_gptIndex) ∧
    (∀ info, GetGPTPluginModel c0 index = .ok (some info) →
      info.m_featureID = PluginID.gpt_cloud_rest → credentialMissing rt info.m_url →
      ∃ h, GetGPTCreationParams rt
        { c0 with m_conversationInitialized := false, m_gptIndex := index } false none =
          .ok (h, none)) := by
  constructor
  · intro h hb
    have hprev2 : GetGPTPluginModel { c0 with m_conversationInitialized := false } c0.m_gptIndex =
        .ok prevInfo := hprev
    have hidle := joinLoadingThread_idle rt ctx c0 hjoin
    cases hsel : GetGPTPluginModel
        { c0 with m_conversationInitialized := false, m_gptIndex := index } index with
    | error e =>
      rw [GetGPTCreationParams_fault rt _ none e hsel] at hb
      cases hb
    | ok newInfo =>
      refine ⟨{ c0 with m_conversationInitialized := false, heap := h }, ?_, rfl, rfl, rfl, rfl,
        rfl, rfl, rfl, hidle, rfl⟩
      simp only [ReloadGPTModel, hjoin, Except.bind, hprev2, hsel, hb]
  · intro info hsel hcloud hmiss
    have hsel2 : GetGPTPluginModel
        { c0 with m_conversationInitialized := false, m_gptIndex := index }
        ({ c0 with m_conversationInitialized := false, m_gptIndex := index } :
          NVIGIContext).m_gptIndex = .ok (some info) := hsel
    obtain ⟨h1, hrun, _⟩ := GetGPTCreationParams_cloud_missing rt _ none info hsel2 hcloud
      ((cloudKey_eq_none_iff rt info.m_url).2 hmiss)
    exact ⟨h1, hrun⟩

/-- C22 at a concrete input: the local entry is loaded under handle 0 after two runtime
calls, and the swap asks for the cloud entry while the provider's credential is unset. -/
theorem C22_failed_build_attempts_nothing_witness :
    ∃ c1, ReloadGPTModel sampleRuntime loadedContext 1 = .ok c1 ∧
      c1.calls = 2 ∧ c1.live = loadedContext.live ∧ c1.m_gpt = some 0 ∧
      c1.m_igpt = some PluginID.gpt_ggml_cuda ∧ c1.m_loadingThread = none ∧
      c1.m_gptIndex = 0 := by
  obtain ⟨h, hb⟩ :=
    (C22_failed_build_attempts_nothing sampleRuntime loadedContext loadedContext 1
      (some sampleLocalModel) rfl rfl).2 sampleCloudModel rfl rfl (Or.inl ⟨rfl, rfl⟩)
  obtain ⟨c1, hrun, _, hcalls, hlive, _, hgpt, higpt, _, hthread, hidx⟩ :=
    (C22_failed_build_attempts_nothing sampleRuntime loadedContext loadedContext 1
      (some sampleLocalModel) rfl rfl).1 h hb
  exact ⟨c1, hrun, hcalls, hlive, hgpt, higpt, hthread, hidx⟩


/-! ## Release of built chains -/

/-- The memory events of the swap of the loaded sample context to the cloud entry whose
instance the runtime refuses to create: the teardown of the cloud chain 1 -> 0 -> 2, then the
teardown of the rollback chain 4 -> 3. -/
theorem swap_rollback_release_log :
    (stateOf (joinLoadingThread swapRuntime
      (stateOf (ReloadGPTModel swapRuntime loadedContext 1)))).heap.events =
      teardownEvents [1, 0, 2] ++ teardownEvents [4, 3] := by
  decide

/-- When every per-model query recovers a URL, the URLs the loop reads are the recovered
ones. -/
theorem cloudQueryUrls_of_recovered (rt : Runtime) (id : PluginID) (generic : List BlockData)
    (items : List (String × String)) :
    ∀ (n : Nat) (models : Option Caps) (urls : List String),
      recoveredUrls rt id generic n items = urls.map some →
      cloudQueryUrls rt id generic n models items = some urls := by
  induction items with
  | nil =>
    intro n models urls h
    cases urls with
    | nil => rfl
    | cons u us => simp [recoveredUrls] at h
  | cons item rest ih =>
    intro n models urls h
    cases urls with
    | nil => simp [recoveredUrls] at h
    | cons u us =>
      simp only [recoveredUrls, List.map_cons, List.cons.injEq] at h
      obtain ⟨hu, hrest⟩ := h
      unfold recoveredUrl at hu
      cases hr : rt.getCaps n id (boundBlocks generic item.1) with
      | failed => rw [hr] at hu; cases hu
      | wrote oc =>
        cases oc with
        | none => rw [hr] at hu; cases hu
        | some caps =>
          rw [hr] at hu
          simp only at hu
          simp only [cloudQueryUrls, hr, CapsResponse.apply, hu, ih (n + 1) (some caps) us hrest,
            Option.map_some']

/-- The method `AddGPTCloudPlugin` on the inputs on which every per-model query recovers a
URL: it completes and appends one cloud entry per reported model, in order, each with the URL
its own query recovered. -/
theorem AddGPTCloudPlugin_recovered (rt : Runtime) (ctx : NVIGIContext) (models : Caps)
    (urls : List String)
    (hc : CheckPluginCompat ctx PluginID.gpt_cloud_rest = .ok true)
    (hli : rt.loadInterface ctx.calls PluginID.gpt_cloud_rest = true)
    (hq : (rt.getCaps (ctx.calls + 1) PluginID.gpt_cloud_rest
      (genericGptBlocks ctx ctx.m_shippedModelsPath)).apply none = some models)
    (hu : recoveredUrls rt PluginID.gpt_cloud_rest (genericGptBlocks ctx ctx.m_shippedModelsPath)
      (ctx.calls + 2) (models.models.map fun m => (m.guid, m.name)) = urls.map some) :
    ∃ d, AddGPTCloudPlugin rt ctx = .ok (d, true) ∧
      d.m_gptPluginModels = ctx.m_gptPluginModels ++
        List.zipWith (fun m url => cloudEntry PluginID.gpt_cloud_rest "cloud.rest"
          ctx.m_shippedModelsPath m.guid m.name url) models.models urls ∧
      d.m_asrPluginModels = ctx.m_asrPluginModels := by
  obtain ⟨d, hd, hg, ha, _⟩ := AddGPTCloudPlugin_spec rt ctx models urls hc hli hq
    (cloudQueryUrls_of_recovered rt _ _ _ _ _ urls hu)
  exact ⟨d, hd, hg, ha⟩

/-- C11, at the failing input: on a system with one NVIDIA adapter the cloud backend reports
the models "nim" and "nim-b"; the query with the identifier of "nim" bound recovers the URL
`https://host/nim`, and the query with the identifier of "nim-b" bound fails, so that nothing
is recovered for "nim-b". The claim says every entry carries the URL recovered by its
per-model query; `AddGPTCloudPlugin` returns true with an `AVAILABLE_CLOUD` entry for "nim-b"
that carries the URL of "nim": the loop does not look at the result of the query and reads
`models` as the previous query left it (lines 220-231). -/
theorem C11_failed_query_attaches_other_url :
    (AddGPTCloudPlugin staleQueryRuntime (selectAdapter nvidiaContext)).map
        (fun r => (r.1.m_gptPluginModels.map (fun e => (e.m_guid, e.m_modelStatus, e.m_url)),
          r.2)) =
      .ok ([("guid-c", ModelStatus.AVAILABLE_CLOUD, "https://host/nim"),
            ("guid-d", ModelStatus.AVAILABLE_CLOUD, "https://host/nim")], true) ∧
    recoveredUrls staleQueryRuntime PluginID.gpt_cloud_rest
        (genericGptBlocks (selectAdapter nvidiaContext)
          (selectAdapter nvidiaContext).m_shippedModelsPath)
        2 [("guid-c", "nim"), ("guid-d", "nim-b")] =
      [some "https://host/nim", none] :=
  ⟨rfl, rfl⟩

end NVIGI
